import Mathlib

/-!
# AdvancedGPU: per-frame geometry, upload channel and frame loop

A shallow embedding of `src/AdvancedGPU/main.c`.

Modelling conventions.
* C `float` values are exact rationals (`ℚ`); rounding is not modelled.
* `Uint32` values are natural numbers; where the C arithmetic is done in 32 bits
  the result is reduced modulo `2 ^ 32`.
* A byte is a natural number, memory regions are lists of bytes.
* Handles (pointers to device objects) are natural numbers, `0` is `NULL`.
* The device is sequential: a submitted command buffer has run when the
  submitting call returns.
* `assert` is enabled (the program is built without `NDEBUG`).
-/

namespace AdvancedGPU

/-! ## Data model -/

/-- The `Vertex` struct: position, texture coordinate, colour. -/
structure Vertex where
  x : ℚ
  y : ℚ
  u : ℚ
  v : ℚ
  r : ℚ
  g : ℚ
  b : ℚ
  a : ℚ
  deriving DecidableEq, Repr

/-! ## Frame geometry (the `// Update data` block of `main`) -/

/-- The local `float s = 500.0f;` of the frame loop. -/
def main_s : ℚ := 500

/-- The local array `vertices` of the frame loop, for both branches of
`if (!mouseLeftDown)`. -/
def main_vertices (mouseLeftDown : Bool) (lastMouseX lastMouseY : ℚ) : List Vertex :=
  if !mouseLeftDown then
    [ ⟨0, 0, 0, 0, 1, 1, 1, 1⟩,
      ⟨main_s, 0, 1, 0, 1, 1, 1, 1⟩,
      ⟨main_s, main_s, 1, 1, 1, 1, 1, 1⟩,
      ⟨0, main_s, 0, 1, 1, 1, 1, 1⟩ ]
  else
    [ ⟨0, 0, 0, 0, 1, 1, 1, 1⟩,
      ⟨main_s, 0, 1, 0, 1, 1, 1, 1⟩,
      ⟨main_s, main_s, 1, 1, 1, 1, 1, 1⟩,
      ⟨0, main_s, 0, 1, 1, 1, 1, 1⟩,
      ⟨lastMouseX + 0, lastMouseY + 0, 0, 0, 1, 1, 1, 1⟩,
      ⟨lastMouseX + main_s, lastMouseY + 0, 1, 0, 1, 1, 1, 1⟩,
      ⟨lastMouseX + main_s, lastMouseY + main_s, 1, 1, 1, 1, 1, 1⟩,
      ⟨lastMouseX + 0, lastMouseY + main_s, 0, 1, 1, 1, 1, 1⟩ ]

/-- The local array `indices` of the frame loop, for both branches. -/
def main_indices (mouseLeftDown : Bool) : List Nat :=
  if !mouseLeftDown then
    [0, 1, 2, 2, 3, 0]
  else
    [0, 1, 2, 2, 3, 0, 4, 5, 6, 6, 7, 4]

/-! ## Device model -/

/-- The `RenderBuffers` struct; the three pointers are handles. -/
structure RenderBuffers where
  vertex : Nat
  index : Nat
  transfer : Nat
  indexCount : Nat
  deriving DecidableEq, Repr

/-- Load operation of a colour target (`SDL_GPULoadOp`). -/
inductive LoadOp where
  | LOAD
  | CLEAR
  | DONT_CARE
  deriving DecidableEq, Repr

/-- Store operation of a colour target (`SDL_GPUStoreOp`). -/
inductive StoreOp where
  | STORE
  | DONT_CARE
  deriving DecidableEq, Repr

/-- An `SDL_FColor`. -/
structure FColor where
  r : ℚ
  g : ℚ
  b : ℚ
  a : ℚ
  deriving DecidableEq, Repr

/-- The calls the program makes that act outside of it, with their arguments.
Pass handles (`copyPass`, `renderPass`) are not recorded: a pass belongs to the
command buffer it was begun on. -/
inductive Call where
  | MapGPUTransferBuffer (transfer : Nat) (cycle : Bool)
  | memcpy (destOffset : Nat) (n : Nat)
  | UnmapGPUTransferBuffer (transfer : Nat)
  | AcquireGPUCommandBuffer (result : Nat)
  | BeginGPUCopyPass (cmdBuf : Nat)
  | UploadToGPUBuffer (transfer srcOffset buffer dstOffset size : Nat) (cycle : Bool)
  | EndGPUCopyPass
  | SubmitGPUCommandBuffer (cmdBuf : Nat)
  | CancelGPUCommandBuffer (cmdBuf : Nat)
  | WaitAndAcquireGPUSwapchainTexture (cmdBuf window : Nat)
  | BeginGPURenderPass (cmdBuf target : Nat) (clearColor : FColor)
      (loadOp : LoadOp) (storeOp : StoreOp)
  | PushGPUVertexUniformData (cmdBuf slot : Nat) (data : List ℚ) (length : Nat)
  | PushGPUFragmentUniformData (cmdBuf slot : Nat) (data : List ℚ) (length : Nat)
  | BindGPUGraphicsPipeline (pipeline : Nat)
  | BindGPUFragmentSamplers (firstSlot texture sampler numBindings : Nat)
  | BindGPUVertexBuffers (firstSlot buffer offset numBindings : Nat)
  | BindGPUIndexBuffer (buffer offset indexElementBits : Nat)
  | DrawGPUIndexedPrimitives
      (numIndices numInstances firstIndex vertexOffset firstInstance : Nat)
  | DrawGPUPrimitives (numVertices numInstances firstVertex firstInstance : Nat)
  | EndGPURenderPass
  | Delay (ms : Nat)
  deriving DecidableEq, Repr

/-- A copy recorded on the open copy pass: it runs when the command buffer is
submitted. -/
structure PendingUpload where
  transfer : Nat
  srcOffset : Nat
  buffer : Nat
  dstOffset : Nat
  size : Nat
  deriving DecidableEq, Repr

/-- The device as the program sees it: the bytes behind every transfer buffer
and every GPU buffer (by handle), the transfer buffer currently mapped, the
uploads recorded on the command buffer acquired last and not yet submitted, and
the calls made so far. -/
structure Device where
  transfers : Nat → List Nat
  buffers : Nat → List Nat
  mapped : Nat
  pending : List PendingUpload
  trace : List Call

/-- Bytes `src` stored into `region` from offset `off` on; the region keeps its
length, so bytes that would land past its end are not stored. -/
def writeAt (region : List Nat) (off : Nat) (src : List Nat) : List Nat :=
  region.take off ++ src.take (region.length - off) ++ region.drop (off + src.length)

/-- One region of a handle-indexed memory replaced. -/
def setRegion (mem : Nat → List Nat) (h : Nat) (bytes : List Nat) : Nat → List Nat :=
  fun k => if k = h then bytes else mem k

/-- Record a call. -/
def Device.log (dev : Device) (c : Call) : Device :=
  { dev with trace := dev.trace ++ [c] }

/-- `SDL_MapGPUTransferBuffer`: the returned pointer addresses the bytes of
`transfer`. -/
def SDL_MapGPUTransferBuffer (dev : Device) (transfer : Nat) (cycle : Bool) : Device :=
  { dev with mapped := transfer }.log (.MapGPUTransferBuffer transfer cycle)

/-- `memcpy` of `n` bytes of `src` to the mapped pointer plus `destOffset`. The C
call is defined when `src` holds `n` bytes and `destOffset + n` is at most the
length of the mapped region; there the `n` bytes are stored as they are. Outside
of that the C call overruns, and this function only keeps the region at its
length: statements about such calls say nothing about the program. -/
def memcpy (dev : Device) (destOffset : Nat) (src : List Nat) (n : Nat) : Device :=
  { dev with
    transfers := setRegion dev.transfers dev.mapped
      (writeAt (dev.transfers dev.mapped) destOffset (src.take n)) }.log
    (.memcpy destOffset n)

/-- `SDL_UnmapGPUTransferBuffer`. -/
def SDL_UnmapGPUTransferBuffer (dev : Device) (transfer : Nat) : Device :=
  dev.log (.UnmapGPUTransferBuffer transfer)

/-- `SDL_AcquireGPUCommandBuffer`; `result` is the handle the device hands out.
Nothing is recorded yet on a command buffer just acquired. -/
def SDL_AcquireGPUCommandBuffer (dev : Device) (result : Nat) : Device :=
  { dev with pending := [] }.log (.AcquireGPUCommandBuffer result)

/-- `SDL_BeginGPUCopyPass`. -/
def SDL_BeginGPUCopyPass (dev : Device) (cmdBuf : Nat) : Device :=
  dev.log (.BeginGPUCopyPass cmdBuf)

/-- `SDL_UploadToGPUBuffer`: the copy is recorded, not yet run. -/
def SDL_UploadToGPUBuffer (dev : Device) (transfer srcOffset buffer dstOffset size : Nat)
    (cycle : Bool) : Device :=
  { dev with pending := dev.pending ++ [PendingUpload.mk transfer srcOffset buffer dstOffset size] }.log
    (.UploadToGPUBuffer transfer srcOffset buffer dstOffset size cycle)

/-- `SDL_EndGPUCopyPass`. -/
def SDL_EndGPUCopyPass (dev : Device) : Device :=
  dev.log .EndGPUCopyPass

/-- One recorded upload run against the buffer memory: `size` bytes of the
transfer buffer from `srcOffset` go to the GPU buffer from `dstOffset`. -/
def runUpload (transfers : Nat → List Nat) (buffers : Nat → List Nat) (u : PendingUpload) :
    Nat → List Nat :=
  setRegion buffers u.buffer
    (writeAt (buffers u.buffer) u.dstOffset (((transfers u.transfer).drop u.srcOffset).take u.size))

/-- `SDL_SubmitGPUCommandBuffer`: the recorded uploads run in recording order. -/
def SDL_SubmitGPUCommandBuffer (dev : Device) (cmdBuf : Nat) : Device :=
  { dev with
    buffers := dev.pending.foldl (runUpload dev.transfers) dev.buffers
    pending := [] }.log (.SubmitGPUCommandBuffer cmdBuf)

/-- `SDL_CancelGPUCommandBuffer`: what was recorded is dropped. -/
def SDL_CancelGPUCommandBuffer (dev : Device) (cmdBuf : Nat) : Device :=
  { dev with pending := [] }.log (.CancelGPUCommandBuffer cmdBuf)

/-! ## Upload channel -/

/-- `create_buffers`: `vertex`, `index` and `transfer` are the handles the three
creation calls return. The three regions get the sizes asked for, the staging size
being a 32-bit sum; SDL does not say what a fresh buffer holds, here it is zeros. -/
def create_buffers (dev : Device) (maxSizeVertex maxSizeIndex : Nat)
    (vertex index transfer : Nat) : Device × RenderBuffers :=
  let dev := { dev with buffers := setRegion dev.buffers vertex (List.replicate maxSizeVertex 0) }
  let dev := { dev with buffers := setRegion dev.buffers index (List.replicate maxSizeIndex 0) }
  let dev := { dev with
    transfers := setRegion dev.transfers transfer
      (List.replicate ((maxSizeVertex + maxSizeIndex) % 2 ^ 32) 0) }
  (dev, { vertex := vertex, index := index, transfer := transfer, indexCount := 0 })

/-- `update_buffers`; `cmdBuf` is the handle `SDL_AcquireGPUCommandBuffer`
returns. `sizeof(Uint32)` is 4 and `indexCount` is a `Uint32`. -/
def update_buffers (dev : Device) (buffers : RenderBuffers)
    (dataVert : List Nat) (dataSizeVert : Nat)
    (dataInd : List Nat) (dataSizeInd : Nat) (cmdBuf : Nat) : Device × RenderBuffers :=
  let dev := SDL_MapGPUTransferBuffer dev buffers.transfer false
  -- copy vertex data to GPU
  let dev := memcpy dev 0 dataVert dataSizeVert
  -- copy index data to GPU
  let dev := memcpy dev dataSizeVert dataInd dataSizeInd
  let dev := SDL_UnmapGPUTransferBuffer dev buffers.transfer
  -- Start command buffer and begin copy pass
  let dev := SDL_AcquireGPUCommandBuffer dev cmdBuf
  let dev := SDL_BeginGPUCopyPass dev cmdBuf
  -- Upload vertex data
  let dev := SDL_UploadToGPUBuffer dev buffers.transfer 0 buffers.vertex 0 dataSizeVert false
  -- Upload index data
  let dev := SDL_UploadToGPUBuffer dev buffers.transfer dataSizeVert buffers.index 0
    dataSizeInd false
  -- End pass and submit command buffer
  let dev := SDL_EndGPUCopyPass dev
  let dev := SDL_SubmitGPUCommandBuffer dev cmdBuf
  (dev, { buffers with indexCount := (dataSizeInd / 4) % 2 ^ 32 })

/-! ## Render pass -/

/-- `SDL_WaitAndAcquireGPUSwapchainTexture` (the call itself; what it returns is
an input of the tick). -/
def SDL_WaitAndAcquireGPUSwapchainTexture (dev : Device) (cmdBuf window : Nat) : Device :=
  dev.log (.WaitAndAcquireGPUSwapchainTexture cmdBuf window)

/-- The `Context` struct, without `basePath` and `device`. -/
structure Context where
  window : Nat
  deltaTime : ℚ
  time : ℚ
  winWidth : Nat
  winHeight : Nat
  samplerPoint : Nat
  texture : Nat
  transferBufferTexture : Nat
  buffersDynamic : RenderBuffers
  pipelineDynamic : Nat
  pipelinePostProcess : Nat
  texturePostProcess : Nat
  deriving DecidableEq, Repr

/-- `render_pass`; the three pointer arguments that may be null are options.
`sizeof(float)` is 4. -/
def render_pass (dev : Device) (context : Context) (cmdbuf pipeline texture target : Nat)
    (clearColor : FColor) (buffers : Option RenderBuffers)
    (matrix postProcessData : Option (List ℚ)) : Device :=
  -- Begin a render pass
  let dev := dev.log (.BeginGPURenderPass cmdbuf target clearColor .CLEAR .STORE)
  let dev :=
    match matrix with
    | some m => dev.log (.PushGPUVertexUniformData cmdbuf 0 m (4 * 16))
    | none => dev
  let dev :=
    match postProcessData with
    | some d => dev.log (.PushGPUFragmentUniformData cmdbuf 0 d (4 * 4))
    | none => dev
  -- Bind our graphics pipeline and draw a triangle
  let dev := dev.log (.BindGPUGraphicsPipeline pipeline)
  -- Texture and Sampler
  let dev := dev.log (.BindGPUFragmentSamplers 0 texture context.samplerPoint 1)
  let dev :=
    match buffers with
    | some b =>
      let dev := dev.log (.BindGPUVertexBuffers 0 b.vertex 0 1)
      let dev := dev.log (.BindGPUIndexBuffer b.index 0 32)
      dev.log (.DrawGPUIndexedPrimitives b.indexCount 1 0 0 0)
    | none =>
      -- Assume it's a post-process which has in-shader vertices
      dev.log (.DrawGPUPrimitives 6 1 0 0)
  -- End the render pass
  dev.log .EndGPURenderPass

/-! ## Frame loop -/

/-- The events the `switch` of the frame loop tells apart; `OTHER` is any other
event type. -/
inductive Event where
  | QUIT
  | WINDOW_MINIMIZED
  | WINDOW_RESTORED
  | MOUSE_MOTION (x y : ℚ)
  | MOUSE_BUTTON_DOWN (button : Nat)
  | MOUSE_BUTTON_UP (button : Nat)
  | OTHER
  deriving DecidableEq, Repr

/-- The variables of `main` that live across iterations of the frame loop. -/
structure LoopState where
  context : Context
  quit : Bool
  minimized : Bool
  lastTime : ℚ
  lastMouseX : ℚ
  lastMouseY : ℚ
  mouseLeftDown : Bool
  deriving DecidableEq, Repr

/-- The `switch (evt.type)` of the frame loop. -/
def handleEvent (st : LoopState) : Event → LoopState
  | .QUIT => { st with quit := true }
  | .WINDOW_MINIMIZED => { st with minimized := true }
  | .WINDOW_RESTORED => { st with minimized := false }
  | .MOUSE_MOTION x y => { st with lastMouseX := x, lastMouseY := y }
  | .MOUSE_BUTTON_DOWN button => if button = 1 then { st with mouseLeftDown := true } else st
  | .MOUSE_BUTTON_UP button => if button = 1 then { st with mouseLeftDown := false } else st
  | .OTHER => st

/-- The `while (SDL_PollEvent(&evt))` loop over the events pending at the start
of a tick. -/
def pollEvents (st : LoopState) (events : List Event) : LoopState :=
  events.foldl handleEvent st

/-- How the platform stores a `float` and a `Uint32` (4 bytes each); the program
does not fix it. -/
structure Layout where
  floatBytes : ℚ → List Nat
  uint32Bytes : Nat → List Nat

/-- The bytes of a `Vertex`: eight floats in declaration order. -/
def Layout.vertexBytes (L : Layout) (p : Vertex) : List Nat :=
  L.floatBytes p.x ++ L.floatBytes p.y ++ L.floatBytes p.u ++ L.floatBytes p.v ++
  L.floatBytes p.r ++ L.floatBytes p.g ++ L.floatBytes p.b ++ L.floatBytes p.a

/-- What the outside hands to one tick of the frame loop. -/
structure TickInput where
  /-- the events `SDL_PollEvent` yields before it returns false -/
  events : List Event
  /-- the value of `SDL_GetTicks()` -/
  ticks : Nat
  /-- the command buffer `update_buffers` acquires -/
  uploadCmdBuf : Nat
  /-- the command buffer the loop acquires to render with -/
  cmdbuf : Nat
  /-- the return value of `SDL_WaitAndAcquireGPUSwapchainTexture` -/
  acquired : Bool
  /-- the texture it stores in `swapchainTexture` -/
  swapchainTexture : Nat
  deriving DecidableEq, Repr

/-- How a tick ends: the loop goes on, the loop is left (`break`), or an `assert`
fails. -/
inductive Status where
  | running
  | exited
  | aborted
  deriving DecidableEq, Repr

/-- The state after a tick. -/
structure TickResult where
  status : Status
  st : LoopState
  dev : Device

/-- The argument of `SDL_Delay(1000.0f / 60)`: the quotient, truncated by the
conversion to `Uint32`. -/
def main_delay : Nat := 1000 / 60

/-- The projection matrix of pass 1. -/
def main_matrix (context : Context) : List ℚ :=
  [ 2 / (context.winWidth : ℚ), 0, 0, -1,
    0, -2 / (context.winHeight : ℚ), 0, 1,
    0, 0, 1, 0,
    0, 0, 0, 1 ]

/-- The uniform vector of pass 2. -/
def main_postProcessData (context : Context) : List ℚ :=
  [ context.time, 2 / 10, 8, 1 / 10 ]

/-- One iteration of `while (!quit)` in `main`. `sizeof(Vertex)` is 32. -/
def tick (L : Layout) (st : LoopState) (dev : Device) (inp : TickInput) : TickResult :=
  -- Poll events
  let st := pollEvents st inp.events
  -- Break out of update and render loop if we just quit
  if st.quit then ⟨.exited, st, dev⟩
  else if !st.minimized then
    -- Calculate delta time for the frame
    let newTime : ℚ := (inp.ticks : ℚ) / 1000
    let deltaTime := newTime - st.lastTime
    let st := { st with
      context := { st.context with deltaTime := deltaTime, time := st.context.time + deltaTime }
      lastTime := newTime }
    -- Update data
    let vertices := main_vertices st.mouseLeftDown st.lastMouseX st.lastMouseY
    let indices := main_indices st.mouseLeftDown
    let uploaded :=
      update_buffers dev st.context.buffersDynamic
        (vertices.flatMap L.vertexBytes) (32 * vertices.length)
        (indices.flatMap L.uint32Bytes) (4 * indices.length) inp.uploadCmdBuf
    let dev := uploaded.1
    let st := { st with context := { st.context with buffersDynamic := uploaded.2 } }
    -- Acquire a command buffer to render with
    let dev := SDL_AcquireGPUCommandBuffer dev inp.cmdbuf
    if inp.cmdbuf = 0 then ⟨.aborted, st, dev⟩
    else
      -- Acquire a swapchain image to render into
      let dev := SDL_WaitAndAcquireGPUSwapchainTexture dev inp.cmdbuf st.context.window
      if !inp.acquired then ⟨.aborted, st, dev⟩
      else if inp.swapchainTexture ≠ 0 then
        let clearColor : FColor := ⟨0, 0, 0, 1⟩
        -- Render dynamic buffers to post-process texture
        let dev := render_pass dev st.context inp.cmdbuf st.context.pipelineDynamic
          st.context.texture st.context.texturePostProcess clearColor
          (some st.context.buffersDynamic) (some (main_matrix st.context)) none
        -- Render post-process texture to screen
        let dev := render_pass dev st.context inp.cmdbuf st.context.pipelinePostProcess
          st.context.texturePostProcess inp.swapchainTexture clearColor
          none none (some (main_postProcessData st.context))
        -- Submit the command buffer
        let dev := SDL_SubmitGPUCommandBuffer dev inp.cmdbuf
        ⟨.running, st, dev⟩
      else
        -- If we didn't get a swapchain image, the window is probably
        -- minimized, so we cancel the command buffer
        let st := { st with minimized := true }
        let dev := SDL_CancelGPUCommandBuffer dev inp.cmdbuf
        ⟨.running, st, dev⟩
  else
    -- Window is minimized, sleep for a frame to avoid high CPU usage
    ⟨.running, st, dev.log (.Delay main_delay)⟩

/-- The ten calls of one `update_buffers`, in order. -/
def uploadCalls (buffers : RenderBuffers) (dataSizeVert dataSizeInd cmdBuf : Nat) : List Call :=
  [ .MapGPUTransferBuffer buffers.transfer false,
    .memcpy 0 dataSizeVert,
    .memcpy dataSizeVert dataSizeInd,
    .UnmapGPUTransferBuffer buffers.transfer,
    .AcquireGPUCommandBuffer cmdBuf,
    .BeginGPUCopyPass cmdBuf,
    .UploadToGPUBuffer buffers.transfer 0 buffers.vertex 0 dataSizeVert false,
    .UploadToGPUBuffer buffers.transfer dataSizeVert buffers.index 0 dataSizeInd false,
    .EndGPUCopyPass,
    .SubmitGPUCommandBuffer cmdBuf ]

/-- A device with no memory behind any handle and no call made. -/
def emptyDevice : Device :=
  { transfers := fun _ => [], buffers := fun _ => [], mapped := 0, pending := [], trace := [] }

/-- The buffers of `main`: `create_buffers` with `maxQuadCount = 4096`, that is
`sizeof(Vertex) * 4 * 4096` and `sizeof(Uint32) * 6 * 4096` bytes; the handles
returned are taken to be 1, 2 and 3. -/
def mainBuffers : RenderBuffers :=
  (create_buffers emptyDevice (32 * 4 * 4096) (4 * 6 * 4096) 1 2 3).2

/-- The device after that `create_buffers`. -/
def mainDevice : Device :=
  (create_buffers emptyDevice (32 * 4 * 4096) (4 * 6 * 4096) 1 2 3).1

/-- A two-quad batch (256 vertex bytes, 48 index bytes, every byte 1) uploaded to
the buffers of `main`. -/
def afterTwoQuads : Device × RenderBuffers :=
  update_buffers mainDevice mainBuffers (List.replicate 256 1) 256 (List.replicate 48 1) 48 20

/-- Then a one-quad batch (128 vertex bytes, 24 index bytes, every byte 2). -/
def afterTwoQuadsThenOne : Device × RenderBuffers :=
  update_buffers afterTwoQuads.1 afterTwoQuads.2
    (List.replicate 128 2) 128 (List.replicate 24 2) 24 21

/-- The calls of one `render_pass`, in order. -/
def renderPassCalls (context : Context) (cmdbuf pipeline texture target : Nat)
    (clearColor : FColor) (buffers : Option RenderBuffers)
    (matrix postProcessData : Option (List ℚ)) : List Call :=
  [Call.BeginGPURenderPass cmdbuf target clearColor .CLEAR .STORE] ++
  (match matrix with
    | some m => [Call.PushGPUVertexUniformData cmdbuf 0 m 64]
    | none => []) ++
  (match postProcessData with
    | some d => [Call.PushGPUFragmentUniformData cmdbuf 0 d 16]
    | none => []) ++
  [Call.BindGPUGraphicsPipeline pipeline,
   Call.BindGPUFragmentSamplers 0 texture context.samplerPoint 1] ++
  (match buffers with
    | some b =>
      [Call.BindGPUVertexBuffers 0 b.vertex 0 1, Call.BindGPUIndexBuffer b.index 0 32,
       Call.DrawGPUIndexedPrimitives b.indexCount 1 0 0 0]
    | none => [Call.DrawGPUPrimitives 6 1 0 0]) ++
  [Call.EndGPURenderPass]

/-- A render pass is begun. -/
def Call.isBeginRenderPass : Call → Bool
  | .BeginGPURenderPass _ _ _ _ _ => true
  | _ => false

/-- A draw call, indexed or not. -/
def Call.isDraw : Call → Bool
  | .DrawGPUIndexedPrimitives _ _ _ _ _ => true
  | .DrawGPUPrimitives _ _ _ _ => true
  | _ => false

/-- A command buffer is submitted. -/
def Call.isSubmit : Call → Bool
  | .SubmitGPUCommandBuffer _ => true
  | _ => false

/-- A command buffer is cancelled. -/
def Call.isCancel : Call → Bool
  | .CancelGPUCommandBuffer _ => true
  | _ => false

/-- The tick reaches image acquisition and gets no image: after the events are
drained neither `quit` nor `minimized` is set, a render command buffer is acquired,
and `SDL_WaitAndAcquireGPUSwapchainTexture` returns true with a null texture. -/
def NoImage (st : LoopState) (inp : TickInput) : Prop :=
  (pollEvents st inp.events).quit = false ∧ (pollEvents st inp.events).minimized = false ∧
  inp.cmdbuf ≠ 0 ∧ inp.acquired = true ∧ inp.swapchainTexture = 0

instance (st : LoopState) (inp : TickInput) : Decidable (NoImage st inp) := by
  unfold NoImage
  infer_instance

/-- Window-minimized and window-restored events. -/
def Event.isWindowEvent : Event → Bool
  | .WINDOW_MINIMIZED => true
  | .WINDOW_RESTORED => true
  | _ => false

/-- The last window-minimized or window-restored event of the list is a
window-restored one. -/
def restoredLast (events : List Event) : Bool :=
  (events.filter Event.isWindowEvent).getLast? = some Event.WINDOW_RESTORED

/-- A layout for examples: every float is four zero bytes, a `Uint32` is stored
low byte first. -/
def demoLayout : Layout :=
  { floatBytes := fun _ => [0, 0, 0, 0]
    uint32Bytes := fun n => [n % 256, n / 256 % 256, n / 65536 % 256, n / 16777216 % 256] }

/-- The loop state of `main` when the frame loop is entered: an 800 x 600 window,
the buffers of `main`, other handles 4 to 10. -/
def mainState : LoopState :=
  { context :=
      { window := 4, deltaTime := 0, time := 0, winWidth := 800, winHeight := 600,
        samplerPoint := 5, texture := 6, transferBufferTexture := 7,
        buffersDynamic := mainBuffers, pipelineDynamic := 8, pipelinePostProcess := 9,
        texturePostProcess := 10 }
    quit := false, minimized := false, lastTime := 0,
    lastMouseX := 0, lastMouseY := 0, mouseLeftDown := false }

/-- A tick in which no event is pending and image acquisition yields no image. -/
def noImageInput : TickInput :=
  { events := [], ticks := 1000, uploadCmdBuf := 20, cmdbuf := 21, acquired := true,
    swapchainTexture := 0 }

/-- The tick after it: again no event pending; an image would be available. -/
def nextInput : TickInput :=
  { events := [], ticks := 1016, uploadCmdBuf := 22, cmdbuf := 23, acquired := true,
    swapchainTexture := 11 }

/-- The tick after it when a window-restored event is pending. -/
def restoredInput : TickInput :=
  { events := [Event.MOUSE_MOTION 100 100, Event.WINDOW_RESTORED], ticks := 1016,
    uploadCmdBuf := 22, cmdbuf := 23, acquired := true, swapchainTexture := 11 }

/-- The calls one tick adds to the trace. -/
def callsOfTick (L : Layout) (st : LoopState) (dev : Device) (inp : TickInput) : List Call :=
  (tick L st dev inp).dev.trace.drop dev.trace.length

/-- The tick renders: after the events are drained neither `quit` nor `minimized`
is set, a render command buffer is acquired, and
`SDL_WaitAndAcquireGPUSwapchainTexture` returns true with a swapchain texture. -/
def Rendered (st : LoopState) (inp : TickInput) : Prop :=
  (pollEvents st inp.events).quit = false ∧ (pollEvents st inp.events).minimized = false ∧
  inp.cmdbuf ≠ 0 ∧ inp.acquired = true ∧ inp.swapchainTexture ≠ 0

instance (st : LoopState) (inp : TickInput) : Decidable (Rendered st inp) := by
  unfold Rendered
  infer_instance

/-- The `update_buffers` call of a tick that is neither quit nor minimized. -/
def main_update (L : Layout) (st : LoopState) (dev : Device) (inp : TickInput) :
    Device × RenderBuffers :=
  update_buffers dev st.context.buffersDynamic
    ((main_vertices (pollEvents st inp.events).mouseLeftDown
      (pollEvents st inp.events).lastMouseX
      (pollEvents st inp.events).lastMouseY).flatMap L.vertexBytes)
    (32 * (main_vertices (pollEvents st inp.events).mouseLeftDown
      (pollEvents st inp.events).lastMouseX (pollEvents st inp.events).lastMouseY).length)
    ((main_indices (pollEvents st inp.events).mouseLeftDown).flatMap L.uint32Bytes)
    (4 * (main_indices (pollEvents st inp.events).mouseLeftDown).length)
    inp.uploadCmdBuf

/-- The eight calls of pass 1 as the frame loop makes it. -/
def pass1Calls (context : Context) (cmdbuf indexCount : Nat) : List Call :=
  [ Call.BeginGPURenderPass cmdbuf context.texturePostProcess ⟨0, 0, 0, 1⟩ .CLEAR .STORE,
    Call.PushGPUVertexUniformData cmdbuf 0 (main_matrix context) 64,
    Call.BindGPUGraphicsPipeline context.pipelineDynamic,
    Call.BindGPUFragmentSamplers 0 context.texture context.samplerPoint 1,
    Call.BindGPUVertexBuffers 0 context.buffersDynamic.vertex 0 1,
    Call.BindGPUIndexBuffer context.buffersDynamic.index 0 32,
    Call.DrawGPUIndexedPrimitives indexCount 1 0 0 0,
    Call.EndGPURenderPass ]

/-- The six calls of pass 2 as the frame loop makes it; `time` is `context.time`. -/
def pass2Calls (context : Context) (cmdbuf swapchainTexture : Nat) (time : ℚ) : List Call :=
  [ Call.BeginGPURenderPass cmdbuf swapchainTexture ⟨0, 0, 0, 1⟩ .CLEAR .STORE,
    Call.PushGPUFragmentUniformData cmdbuf 0 [time, 2 / 10, 8, 1 / 10] 16,
    Call.BindGPUGraphicsPipeline context.pipelinePostProcess,
    Call.BindGPUFragmentSamplers 0 context.texturePostProcess context.samplerPoint 1,
    Call.DrawGPUPrimitives 6 1 0 0,
    Call.EndGPURenderPass ]

/-- A render pass is ended. -/
def Call.isEndRenderPass : Call → Bool
  | .EndGPURenderPass => true
  | _ => false

/-- The data of the fragment uniform pushes among the calls, in order. -/
def fragmentUniforms : List Call → List (List ℚ)
  | [] => []
  | Call.PushGPUFragmentUniformData _ _ data _ :: rest => data :: fragmentUniforms rest
  | _ :: rest => fragmentUniforms rest

/-- The first component of the pass-2 fragment uniform vector pushed in a tick,
if the tick pushes one. -/
def pass2Time (L : Layout) (st : LoopState) (dev : Device) (inp : TickInput) : Option ℚ :=
  match fragmentUniforms (callsOfTick L st dev inp) with
  | (time :: _) :: _ => some time
  | _ => none

/-- The frame loop run over the inputs of successive ticks: it stops at the first
tick that leaves the loop or aborts, and at the end of the inputs. -/
def afterTicks (L : Layout) (st : LoopState) (dev : Device) : List TickInput → TickResult
  | [] => ⟨.running, st, dev⟩
  | inp :: rest =>
    if (tick L st dev inp).status = .running then
      afterTicks L (tick L st dev inp).st (tick L st dev inp).dev rest
    else tick L st dev inp

/-- Pointer-move and pointer-button events. -/
def Event.isPointer : Event → Bool
  | .MOUSE_MOTION _ _ => true
  | .MOUSE_BUTTON_DOWN _ => true
  | .MOUSE_BUTTON_UP _ => true
  | _ => false

/-- Two tick inputs that differ at most in their pointer events (and in the handle
of the copy command buffer). -/
def SameButPointer (a b : TickInput) : Prop :=
  a.events.filter (fun e => !e.isPointer) = b.events.filter (fun e => !e.isPointer) ∧
  a.ticks = b.ticks ∧ a.cmdbuf = b.cmdbuf ∧ a.acquired = b.acquired ∧
  a.swapchainTexture = b.swapchainTexture

instance (a b : TickInput) : Decidable (SameButPointer a b) := by
  unfold SameButPointer
  infer_instance

/-- Two loop states with the same flags and the same clock variables. -/
def ClockEq (s s' : LoopState) : Prop :=
  s.quit = s'.quit ∧ s.minimized = s'.minimized ∧ s.lastTime = s'.lastTime ∧
  s.context.time = s'.context.time

/-- A tick of `main` one second after start: no event pending, an image is there. -/
def renderedInput : TickInput :=
  { events := [], ticks := 1000, uploadCmdBuf := 20, cmdbuf := 21, acquired := true,
    swapchainTexture := 11 }

/-- The tick 16 ms later: the pointer has moved and the left button is down. -/
def renderedInput2 : TickInput :=
  { events := [Event.MOUSE_MOTION 100 100, Event.MOUSE_BUTTON_DOWN 1], ticks := 1016,
    uploadCmdBuf := 22, cmdbuf := 23, acquired := true, swapchainTexture := 12 }

/-- The same tick with no pointer event. -/
def renderedInput3 : TickInput :=
  { events := [], ticks := 1016, uploadCmdBuf := 24, cmdbuf := 23, acquired := true,
    swapchainTexture := 12 }

end AdvancedGPU

/-! ## Startup: shaders and pipelines

The calls of the startup code are recorded in a list of their own. A function that
can fail an `assert` returns `none` when the process aborts and `some` of its
return value when it returns. C strings are `String`s. -/

namespace SDL

/-- The stage of a shader (`SDL_GPUShaderStage`). -/
inductive ShaderStage where
  | VERTEX
  | FRAGMENT
  deriving DecidableEq, Repr

/-- The format of shader code (`SDL_GPUShaderFormat`), as far as used. -/
inductive ShaderFormat where
  | INVALID
  | SPIRV
  deriving DecidableEq, Repr

/-- An `SDL_GPUShaderCreateInfo`; `code` is `none` for a null pointer. -/
structure ShaderCreateInfo where
  code_size : Nat
  code : Option (List Nat)
  entrypoint : String
  format : ShaderFormat
  stage : ShaderStage
  num_samplers : Nat
  num_storage_textures : Nat
  num_storage_buffers : Nat
  num_uniform_buffers : Nat
  deriving DecidableEq, Repr

/-- The input rate of a vertex buffer (`SDL_GPUVertexInputRate`). -/
inductive VertexInputRate where
  | VERTEX
  | INSTANCE
  deriving DecidableEq, Repr

/-- The format of a vertex attribute (`SDL_GPUVertexElementFormat`), as far as
used; `INVALID` is the zero value. -/
inductive VertexElementFormat where
  | INVALID
  | FLOAT2
  | FLOAT4
  deriving DecidableEq, Repr

/-- An `SDL_GPUVertexBufferDescription`. -/
structure VertexBufferDescription where
  slot : Nat
  pitch : Nat
  input_rate : VertexInputRate
  instance_step_rate : Nat
  deriving DecidableEq, Repr

/-- An `SDL_GPUVertexAttribute`. -/
structure VertexAttribute where
  location : Nat
  buffer_slot : Nat
  format : VertexElementFormat
  offset : Nat
  deriving DecidableEq, Repr

/-- The topology of a pipeline (`SDL_GPUPrimitiveType`). -/
inductive PrimitiveType where
  | TRIANGLELIST
  | TRIANGLESTRIP
  | LINELIST
  | LINESTRIP
  | POINTLIST
  deriving DecidableEq, Repr

/-- The fill mode of the rasterizer (`SDL_GPUFillMode`). -/
inductive FillMode where
  | FILL
  | LINE
  deriving DecidableEq, Repr

/-- An `SDL_GPUGraphicsPipelineCreateInfo` as the programs fill it: the rasterizer
state beyond the fill mode, the multisample state and the depth-stencil state are
zero and left out; a colour target is given by its format. -/
structure GraphicsPipelineCreateInfo where
  vertex_shader : Nat
  fragment_shader : Nat
  vertex_buffer_descriptions : List VertexBufferDescription
  num_vertex_buffers : Nat
  vertex_attributes : List VertexAttribute
  num_vertex_attributes : Nat
  primitive_type : PrimitiveType
  fill_mode : FillMode
  color_target_formats : List Nat
  num_color_targets : Nat
  deriving DecidableEq, Repr

/-- The calls of the startup code. `OpenFile`, `SeekEnd`, `Tell`, `SeekSet`,
`ReadFile` and `CloseFile` stand for `SDL_IOFromFile`, `SDL_SeekIO` to the end,
`SDL_TellIO`, `SDL_SeekIO` to the start, `SDL_ReadIO` and `SDL_CloseIO`. -/
inductive SetupCall where
  | LoadFile (path : String)
  | CreateGPUShader (info : ShaderCreateInfo)
  | free
  | GetGPUSwapchainTextureFormat (window : Nat)
  | CreateGPUGraphicsPipeline (info : GraphicsPipelineCreateInfo)
  | GetError
  | Log (message : String)
  | ReleaseGPUShader (shader : Nat)
  | OpenFile (file : String) (mode : String)
  | LogError (message : String)
  | SeekEnd
  | Tell
  | SeekSet
  | malloc (size : Nat)
  | ReadFile (size : Nat)
  | CloseFile
  deriving DecidableEq, Repr

/-- A shader is created. -/
def SetupCall.isCreateShader : SetupCall → Bool
  | .CreateGPUShader _ => true
  | _ => false

/-- A shader is released. -/
def SetupCall.isReleaseShader : SetupCall → Bool
  | .ReleaseGPUShader _ => true
  | _ => false

/-- The two `SDL_strlcat` into the zeroed `char fullPath[512]`: the base path
followed by the file name, cut to 511 characters. -/
def fullPath (basePath shaderFilename : String) : String :=
  String.mk ((basePath.data ++ shaderFilename.data).take 511)

end SDL

namespace AdvancedGPU

open SDL

/-- `shader_load`. `files` gives what `SDL_LoadFile` returns for a path (`none`
for null), `create` the handle `SDL_CreateGPUShader` returns. -/
def shader_load (files : String → Option (List Nat)) (create : ShaderCreateInfo → Nat)
    (basePath shaderFilename : String) (stage : ShaderStage)
    (samplerCount uniformCount : Nat) : List SetupCall × Option Nat :=
  -- Construct a full path with basePath and shaderFilename
  let path := fullPath basePath shaderFilename
  -- Load the SPIR-V "code" (these must have been compiled already)
  match files path with
  | none => ([.LoadFile path], none)
  | some code =>
    -- Create the shader
    let shaderInfo : ShaderCreateInfo :=
      { code_size := code.length, code := some code, entrypoint := "main", format := .SPIRV,
        stage := stage, num_samplers := samplerCount, num_storage_textures := 0,
        num_storage_buffers := 0, num_uniform_buffers := uniformCount }
    let shader := create shaderInfo
    if shader = 0 then ([.LoadFile path, .CreateGPUShader shaderInfo], none)
    else
      -- Free the code memory and return the shader
      ([.LoadFile path, .CreateGPUShader shaderInfo, .free], some shader)

/-- `create_pipeline`. `format` is what `SDL_GetGPUSwapchainTextureFormat`
returns, `result` what `SDL_CreateGPUGraphicsPipeline` returns, `error` what
`SDL_GetError` returns. -/
def create_pipeline (context : Context) (shaderVertex shaderFragment : Nat)
    (vertexBufferDescArray : List VertexBufferDescription) (vertexBufferDescCount : Nat)
    (vertexAttribArray : List VertexAttribute) (vertexAttribCount : Nat)
    (format : Nat) (error : String) (result : Nat) : List SetupCall × Option Nat :=
  -- The pipeline config
  let pipelineCreateInfo : GraphicsPipelineCreateInfo :=
    { vertex_shader := shaderVertex, fragment_shader := shaderFragment,
      vertex_buffer_descriptions := vertexBufferDescArray,
      num_vertex_buffers := vertexBufferDescCount,
      vertex_attributes := vertexAttribArray,
      num_vertex_attributes := vertexAttribCount,
      primitive_type := .TRIANGLELIST, fill_mode := .FILL,
      color_target_formats := [format], num_color_targets := 1 }
  let calls : List SetupCall :=
    [.GetGPUSwapchainTextureFormat context.window, .CreateGPUGraphicsPipeline pipelineCreateInfo]
  let calls := if context.pipelineDynamic = 0 then calls ++ [.GetError, .Log error] else calls
  if result = 0 then (calls, none)
  else
    -- Clean up shader resources
    (calls ++ [.ReleaseGPUShader shaderVertex, .ReleaseGPUShader shaderFragment], some result)

end AdvancedGPU

namespace MinimalGPU

open SDL

/-- `shader_load` of MinimalGPU: no sampler or uniform counts, the fields of the
create info that are not named are zero. -/
def shader_load (files : String → Option (List Nat)) (create : ShaderCreateInfo → Nat)
    (basePath shaderFilename : String) (stage : ShaderStage) : List SetupCall × Option Nat :=
  -- Construct a full path with basePath and shaderFilename
  let path := fullPath basePath shaderFilename
  -- Load the SPIR-V "code" (these must have been compiled already)
  match files path with
  | none => ([.LoadFile path], none)
  | some code =>
    -- Create the shader
    let shaderInfo : ShaderCreateInfo :=
      { code_size := code.length, code := some code, entrypoint := "main", format := .SPIRV,
        stage := stage, num_samplers := 0, num_storage_textures := 0,
        num_storage_buffers := 0, num_uniform_buffers := 0 }
    let shader := create shaderInfo
    if shader = 0 then ([.LoadFile path, .CreateGPUShader shaderInfo], none)
    else
      -- Free the code memory and return the shader
      ([.LoadFile path, .CreateGPUShader shaderInfo, .free], some shader)

end MinimalGPU

namespace AndroidGPU

open SDL

/-- `shader_load` of AndroidGPU. `file` is what `SDL_IOFromFile` returns (the
bytes of the asset, `none` for null), `told` what `SDL_TellIO` returns, `allocated`
whether `SDL_malloc` returns a buffer, `create` the handle `SDL_CreateGPUShader`
returns. `codeSize` is a `size_t` of 64 bits. The buffer holds what `SDL_ReadIO`
has read, nothing when there is no file. -/
def shader_load (file : Option (List Nat)) (told : Int) (allocated : Bool)
    (create : ShaderCreateInfo → Nat) (shaderFilename : String) (stage : ShaderStage)
    (samplerCount uniformCount : Nat) : List SetupCall × Option Nat :=
  -- Try loading the shader from assets
  let calls : List SetupCall := [.OpenFile shaderFilename "rb"]
  let calls :=
    if file.isNone then calls ++ [.LogError "Couldn't load the shader file (%s)"] else calls
  -- Get the file size
  let codeSize : Nat := (told % (2 ^ 64 : Int)).toNat
  let calls := calls ++ [.SeekEnd, .Tell, .SeekSet]
  -- Allocate memory and read the file
  let calls := calls ++ [.malloc codeSize]
  let calls :=
    if !allocated then calls ++ [.LogError "Couldn't load the shader code (%s)"] else calls
  let code : Option (List Nat) :=
    if allocated then some ((file.getD []).take codeSize) else none
  let calls := calls ++ [.ReadFile codeSize, .CloseFile]
  -- Create the shader
  let shaderInfo : ShaderCreateInfo :=
    { code_size := codeSize, code := code, entrypoint := "main", format := .SPIRV,
      stage := stage, num_samplers := samplerCount, num_storage_textures := 0,
      num_storage_buffers := 0, num_uniform_buffers := uniformCount }
  let shader := create shaderInfo
  let calls := calls ++ [.CreateGPUShader shaderInfo]
  let calls :=
    if shader = 0 then calls ++ [.LogError "Create GPU shader failed (%s)"] else calls
  -- Free the loaded code and return the shader
  (calls ++ [.free], some shader)

end AndroidGPU

namespace SDL

/-- The byte size of a vertex element format: 4 bytes a float. -/
def VertexElementFormat.size : VertexElementFormat → Nat
  | .INVALID => 0
  | .FLOAT2 => 4 * 2
  | .FLOAT4 => 4 * 4

/-- The bytes `[offset, offset + size)` an attribute reads of each vertex. -/
def VertexAttribute.covers (a : VertexAttribute) (byte : Nat) : Bool :=
  a.offset ≤ byte && byte < a.offset + a.format.size

end SDL

namespace AdvancedGPU

open SDL

/-! ## Pointer state, frame bytes, vertex layout, projection -/

/-- Button-down and button-up events of button 1. -/
def Event.isLeftButton : Event → Bool
  | .MOUSE_BUTTON_DOWN button => button = 1
  | .MOUSE_BUTTON_UP button => button = 1
  | _ => false

/-- Pointer-move events. -/
def Event.isMotion : Event → Bool
  | .MOUSE_MOTION _ _ => true
  | _ => false

/-- Whether the most recent button-down or button-up event of button 1 in the list
is a button-down; `init` when the list has none. -/
def lastButtonIsDown (events : List Event) (init : Bool) : Bool :=
  match (events.filter Event.isLeftButton).getLast? with
  | some (.MOUSE_BUTTON_DOWN _) => true
  | some _ => false
  | none => init

/-- The position of the most recent pointer-move event in the list; `init` when the
list has none. -/
def lastMotion (events : List Event) (init : ℚ × ℚ) : ℚ × ℚ :=
  match (events.filter Event.isMotion).getLast? with
  | some (.MOUSE_MOTION x y) => (x, y)
  | _ => init

/-- The vertex byte string of a frame: the bytes of the array `vertices`. -/
def main_vertexBytes (L : Layout) (mouseLeftDown : Bool) (lastMouseX lastMouseY : ℚ) :
    List Nat :=
  (main_vertices mouseLeftDown lastMouseX lastMouseY).flatMap L.vertexBytes

/-- The index byte string of a frame: the bytes of the array `indices`. -/
def main_indexBytes (L : Layout) (mouseLeftDown : Bool) : List Nat :=
  (main_indices mouseLeftDown).flatMap L.uint32Bytes

/-- The two byte strings a tick generates from the pointer state the drain leaves. -/
def tickBatch (L : Layout) (st : LoopState) (inp : TickInput) : List Nat × List Nat :=
  ( main_vertexBytes L (pollEvents st inp.events).mouseLeftDown
      (pollEvents st inp.events).lastMouseX (pollEvents st inp.events).lastMouseY,
    main_indexBytes L (pollEvents st inp.events).mouseLeftDown )

/-- `sizeof(Vertex)`: eight floats, no padding. -/
def sizeof_Vertex : Nat := 8 * 4

/-- The fields of `Vertex`. -/
inductive VertexField where
  | x
  | y
  | u
  | v
  | r
  | g
  | b
  | a
  deriving DecidableEq, Repr

/-- The byte offset of a field in `Vertex`; each field is a float of 4 bytes. -/
def VertexField.offset : VertexField → Nat
  | .x => 0
  | .y => 4
  | .u => 8
  | .v => 12
  | .r => 16
  | .g => 20
  | .b => 24
  | .a => 28

/-- The array `vertexBufferDescArray` of `create_pipeline_dynamic`. -/
def dynamic_vertexBufferDescArray : List VertexBufferDescription :=
  [ ⟨0, sizeof_Vertex, .VERTEX, 0⟩ ]

/-- The array `vertexAttribArray` of `create_pipeline_dynamic`; `sizeof(float)`
is 4. -/
def dynamic_vertexAttribArray : List VertexAttribute :=
  [ ⟨0, 0, .FLOAT2, 0⟩,
    ⟨1, 0, .FLOAT2, 4 * 2⟩,
    ⟨2, 0, .FLOAT4, 4 * 4⟩ ]

/-- The array `vertexBufferDescArray` of `create_pipeline_postprocess`: `{ 0 }`. -/
def postprocess_vertexBufferDescArray : List VertexBufferDescription :=
  [ ⟨0, 0, .VERTEX, 0⟩ ]

/-- The array `vertexAttribArray` of `create_pipeline_postprocess`: `{ 0 }`. -/
def postprocess_vertexAttribArray : List VertexAttribute :=
  [ ⟨0, 0, .INVALID, 0⟩ ]

/-- A list of 16 values read as a row-major 4 x 4 matrix and applied to a column
vector of 4 values. -/
def matVec (m v : List ℚ) : List ℚ :=
  (List.range 4).map fun i =>
    ((List.range 4).map fun j => m.getD (4 * i + j) 0 * v.getD j 0).sum

end AdvancedGPU

namespace AndroidGPU

open SDL

/-- `sizeof(Vertex)` of AndroidGPU: the same struct of eight floats. -/
def sizeof_Vertex : Nat := 8 * 4

/-- The array `vertexBufferDescArray` of `create_pipeline`. -/
def vertexBufferDescArray : List VertexBufferDescription :=
  [ ⟨0, sizeof_Vertex, .VERTEX, 0⟩ ]

/-- The array `vertexAttribArray` of `create_pipeline`. -/
def vertexAttribArray : List VertexAttribute :=
  [ ⟨0, 0, .FLOAT2, 0⟩,
    ⟨1, 0, .FLOAT2, 4 * 2⟩,
    ⟨2, 0, .FLOAT4, 4 * 4⟩ ]

end AndroidGPU

namespace AdvancedGPU

/-- The fields of the context the frame loop only reads: the window, its size and
the handles of the device objects. -/
def Context.fixed (c : Context) : List Nat :=
  [ c.window, c.winWidth, c.winHeight, c.samplerPoint, c.texture, c.transferBufferTexture,
    c.buffersDynamic.vertex, c.buffersDynamic.index, c.buffersDynamic.transfer,
    c.pipelineDynamic, c.pipelinePostProcess, c.texturePostProcess ]

/-- A tick of `main` in which the left button is held at (100, 100) and an image is
there, at clock reading 2000. -/
def heldInput : TickInput :=
  { events := [Event.MOUSE_BUTTON_DOWN 1, Event.MOUSE_MOTION 100 100], ticks := 2000,
    uploadCmdBuf := 30, cmdbuf := 31, acquired := true, swapchainTexture := 11 }

/-- A later tick with the same pointer state, at clock reading 9000, from a state
in which the button is already held. -/
def heldInput2 : TickInput :=
  { events := [Event.MOUSE_MOTION 100 100], ticks := 9000,
    uploadCmdBuf := 32, cmdbuf := 33, acquired := true, swapchainTexture := 12 }

end AdvancedGPU

namespace SDL

/-- The error message is logged (`SDL_Log`). -/
def SetupCall.isLog : SetupCall → Bool
  | .Log _ => true
  | _ => false

end SDL

namespace AdvancedGPU

open SDL

/-! ## Startup and shutdown of `main` -/

/-- `create_pipeline_dynamic`: the context with `pipelineDynamic` set, or `none`
when an `assert` fails on the way. `SDL_arraysize` of the two arrays is 1 and 3. -/
def create_pipeline_dynamic (files : String → Option (List Nat))
    (create : ShaderCreateInfo → Nat) (basePath : String) (context : Context)
    (format : Nat) (error : String) (result : Nat) : List SetupCall × Option Context :=
  -- Create the shaders
  match shader_load files create basePath "shaders/vert.spv" .VERTEX 0 1 with
  | (calls1, none) => (calls1, none)
  | (calls1, some shaderVertex) =>
    match shader_load files create basePath "shaders/frag.spv" .FRAGMENT 1 0 with
    | (calls2, none) => (calls1 ++ calls2, none)
    | (calls2, some shaderFragment) =>
      match create_pipeline context shaderVertex shaderFragment
          dynamic_vertexBufferDescArray 1 dynamic_vertexAttribArray 3 format error result with
      | (calls3, none) => (calls1 ++ calls2 ++ calls3, none)
      | (calls3, some pipeline) =>
        (calls1 ++ calls2 ++ calls3, some { context with pipelineDynamic := pipeline })

/-- `create_pipeline_postprocess`: the context with `pipelinePostProcess` set, or
`none` when an `assert` fails on the way. Both arrays have one element. -/
def create_pipeline_postprocess (files : String → Option (List Nat))
    (create : ShaderCreateInfo → Nat) (basePath : String) (context : Context)
    (format : Nat) (error : String) (result : Nat) : List SetupCall × Option Context :=
  -- Create the shaders
  match shader_load files create basePath "shaders/ppvert.spv" .VERTEX 0 0 with
  | (calls1, none) => (calls1, none)
  | (calls1, some shaderVertex) =>
    match shader_load files create basePath "shaders/ppfrag.spv" .FRAGMENT 1 1 with
    | (calls2, none) => (calls1 ++ calls2, none)
    | (calls2, some shaderFragment) =>
      match create_pipeline context shaderVertex shaderFragment
          postprocess_vertexBufferDescArray 1 postprocess_vertexAttribArray 1
          format error result with
      | (calls3, none) => (calls1 ++ calls2 ++ calls3, none)
      | (calls3, some pipeline) =>
        (calls1 ++ calls2 ++ calls3, some { context with pipelinePostProcess := pipeline })

/-- The handles the creation calls of `main` return, when startup gets through. -/
structure StartupHandles where
  pipelineDynamic : Nat
  pipelinePostProcess : Nat
  vertex : Nat
  index : Nat
  transfer : Nat
  samplerPoint : Nat
  texturePostProcess : Nat
  texture : Nat
  transferBufferTexture : Nat
  deriving DecidableEq, Repr

/-- A device object `main` creates, with the size it asks for. -/
inductive Resource where
  | pipeline (handle : Nat)
  | buffer (handle size : Nat)
  | transferBuffer (handle size : Nat)
  | sampler (handle : Nat)
  | texture (handle width height : Nat)
  deriving DecidableEq, Repr

/-- The calls of the shutdown code. -/
inductive TeardownCall where
  | ReleaseGPUSampler (sampler : Nat)
  | ReleaseGPUTexture (texture : Nat)
  | ReleaseGPUBuffer (buffer : Nat)
  | ReleaseGPUTransferBuffer (transfer : Nat)
  | ReleaseGPUGraphicsPipeline (pipeline : Nat)
  | ReleaseWindowFromGPUDevice (window : Nat)
  | DestroyWindow (window : Nat)
  | DestroyGPUDevice
  deriving DecidableEq, Repr

/-- The call that releases a device object. -/
def Resource.release : Resource → TeardownCall
  | .pipeline h => .ReleaseGPUGraphicsPipeline h
  | .buffer h _ => .ReleaseGPUBuffer h
  | .transferBuffer h _ => .ReleaseGPUTransferBuffer h
  | .sampler h => .ReleaseGPUSampler h
  | .texture h _ _ => .ReleaseGPUTexture h

/-- The call releases a sampler, texture, buffer, transfer buffer or pipeline. -/
def TeardownCall.isRelease : TeardownCall → Bool
  | .ReleaseWindowFromGPUDevice _ => false
  | .DestroyWindow _ => false
  | .DestroyGPUDevice => false
  | _ => true

/-- The startup of `main` from the window creation to the frame loop, when no
`assert` fails: the context the loop starts with and the device objects created,
in creation order. `sizeof(Vertex)` is 32, `sizeof(Uint32)` is 4. -/
def main_startup (window : Nat) (h : StartupHandles) : Context × List Resource :=
  -- Create window
  let winWidth := 800
  let winHeight := 600
  let maxQuadCount := 4096
  -- Create dynamic buffers
  let buffersDynamic :=
    (create_buffers emptyDevice (32 * 4 * maxQuadCount) (4 * 6 * maxQuadCount)
      h.vertex h.index h.transfer).2
  let texWidth := 2
  let texHeight := 2
  ( { window := window, deltaTime := 0, time := 0, winWidth := winWidth,
      winHeight := winHeight, samplerPoint := h.samplerPoint, texture := h.texture,
      transferBufferTexture := h.transferBufferTexture, buffersDynamic := buffersDynamic,
      pipelineDynamic := h.pipelineDynamic, pipelinePostProcess := h.pipelinePostProcess,
      texturePostProcess := h.texturePostProcess },
    [ .pipeline h.pipelineDynamic,
      .pipeline h.pipelinePostProcess,
      .buffer h.vertex (32 * 4 * maxQuadCount),
      .buffer h.index (4 * 6 * maxQuadCount),
      .transferBuffer h.transfer ((32 * 4 * maxQuadCount + 4 * 6 * maxQuadCount) % 2 ^ 32),
      .sampler h.samplerPoint,
      .texture h.texturePostProcess winWidth winHeight,
      .texture h.texture texWidth texHeight,
      .transferBuffer h.transferBufferTexture (texWidth * texHeight * 4) ] )

/-- The loop state when the frame loop of `main` is entered. -/
def main_loopEntry (window : Nat) (h : StartupHandles) : LoopState :=
  { context := (main_startup window h).1, quit := false, minimized := false, lastTime := 0,
    lastMouseX := 0, lastMouseY := 0, mouseLeftDown := false }

/-- The handles of `mainState`. -/
def mainHandles : StartupHandles :=
  { pipelineDynamic := 8, pipelinePostProcess := 9, vertex := 1, index := 2, transfer := 3,
    samplerPoint := 5, texturePostProcess := 10, texture := 6, transferBufferTexture := 7 }

/-- `release_buffers`. -/
def release_buffers (buffers : RenderBuffers) : List TeardownCall :=
  [ .ReleaseGPUBuffer buffers.vertex,
    .ReleaseGPUBuffer buffers.index,
    .ReleaseGPUTransferBuffer buffers.transfer ]

/-- The code of `main` after the frame loop. -/
def main_shutdown (context : Context) : List TeardownCall :=
  -- Release sampler
  [ .ReleaseGPUSampler context.samplerPoint,
    -- Release framebuffer texture
    .ReleaseGPUTexture context.texturePostProcess,
    -- Release texture
    .ReleaseGPUTexture context.texture ] ++
  -- Release buffers
  release_buffers context.buffersDynamic ++
  -- Release Transfer buffers
  [ .ReleaseGPUTransferBuffer context.transferBufferTexture,
    .ReleaseGPUGraphicsPipeline context.pipelineDynamic,
    .ReleaseGPUGraphicsPipeline context.pipelinePostProcess,
    .ReleaseWindowFromGPUDevice context.window,
    .DestroyWindow context.window,
    .DestroyGPUDevice ]

end AdvancedGPU

namespace AdvancedGPU

open SDL

/-- The context of `main` when `create_pipeline_dynamic` is called: `{0}` with the
window and its size set. -/
def main_contextAtPipelines (window : Nat) : Context :=
  { window := window, deltaTime := 0, time := 0, winWidth := 800, winHeight := 600,
    samplerPoint := 0, texture := 0, transferBufferTexture := 0,
    buffersDynamic := ⟨0, 0, 0, 0⟩, pipelineDynamic := 0, pipelinePostProcess := 0,
    texturePostProcess := 0 }

/-- A file system for examples: every file holds four bytes. -/
def demoFiles : String → Option (List Nat) := fun _ => some [3, 2, 35, 7]

/-- Shader creation for examples: handle 11 for a vertex shader, 12 for a fragment
shader. -/
def demoCreate : ShaderCreateInfo → Nat := fun info =>
  match info.stage with
  | .VERTEX => 11
  | .FRAGMENT => 12

end AdvancedGPU

namespace AdvancedGPU

/-- Every tick of the run sleeps: after its drain `quit` is clear and `minimized`
is set. -/
def sleeping (st : LoopState) : List TickInput → Bool
  | [] => true
  | inp :: rest =>
    !(pollEvents st inp.events).quit && (pollEvents st inp.events).minimized &&
      sleeping (pollEvents st inp.events) rest

/-- The tick after `renderedInput`, at clock reading 1016: no image. -/
def noImageInput2 : TickInput :=
  { events := [], ticks := 1016, uploadCmdBuf := 22, cmdbuf := 23, acquired := true,
    swapchainTexture := 0 }

/-- A tick at clock reading 2000 with no event pending. -/
def sleepInput : TickInput :=
  { events := [], ticks := 2000, uploadCmdBuf := 24, cmdbuf := 25, acquired := true,
    swapchainTexture := 12 }

/-- A tick at clock reading 5000 that drains a window-restored event and gets an
image. -/
def restoredRenderInput : TickInput :=
  { events := [Event.WINDOW_RESTORED], ticks := 5000, uploadCmdBuf := 26, cmdbuf := 27,
    acquired := true, swapchainTexture := 12 }

/-- A tick at clock reading 1500 that drains a window-minimized event. -/
def minimizeInput : TickInput :=
  { events := [Event.WINDOW_MINIMIZED], ticks := 1500, uploadCmdBuf := 24, cmdbuf := 25,
    acquired := true, swapchainTexture := 12 }

end AdvancedGPU

/-! ## The frame loops of MinimalGPU and AndroidGPU

Their ticks return the calls they make (the call type of AdvancedGPU is used);
device memory is not modelled for them. -/

namespace MinimalGPU

open AdvancedGPU (Call Status)

/-- The `Context` struct of MinimalGPU, without `basePath` and `device`. -/
structure Context where
  window : Nat
  deltaTime : ℚ
  pipeline : Nat
  deriving DecidableEq, Repr

/-- The events the frame loop tells apart; `OTHER` is any other event type. -/
inductive Event where
  | QUIT
  | WINDOW_MINIMIZED
  | WINDOW_RESTORED
  | OTHER
  deriving DecidableEq, Repr

/-- The variables of `main` that live across iterations of the frame loop. -/
structure LoopState where
  context : Context
  quit : Bool
  minimized : Bool
  lastTime : ℚ
  deriving DecidableEq, Repr

/-- The `if` chain on `evt.type`. -/
def handleEvent (st : LoopState) : Event → LoopState
  | .QUIT => { st with quit := true }
  | .WINDOW_MINIMIZED => { st with minimized := true }
  | .WINDOW_RESTORED => { st with minimized := false }
  | .OTHER => st

/-- The `while (SDL_PollEvent(&evt))` loop. -/
def pollEvents (st : LoopState) (events : List Event) : LoopState :=
  events.foldl handleEvent st

/-- What the outside hands to one tick. -/
structure TickInput where
  events : List Event
  ticks : Nat
  cmdbuf : Nat
  acquired : Bool
  swapchainTexture : Nat
  deriving DecidableEq, Repr

/-- The state after a tick and the calls the tick made. -/
structure TickResult where
  status : Status
  st : LoopState
  calls : List Call
  deriving DecidableEq

/-- One iteration of `while (!quit)` in `main` of MinimalGPU. -/
def tick (st : LoopState) (inp : TickInput) : TickResult :=
  -- Poll events
  let st := pollEvents st inp.events
  -- Break out of update and render loop if we just quit
  if st.quit then ⟨.exited, st, []⟩
  else if !st.minimized then
    -- Calculate delta time for the frame
    let newTime : ℚ := (inp.ticks : ℚ) / 1000
    let st := { st with
      context := { st.context with deltaTime := newTime - st.lastTime }
      lastTime := newTime }
    -- Acquire a command buffer to render with
    let calls : List Call := [.AcquireGPUCommandBuffer inp.cmdbuf]
    if inp.cmdbuf = 0 then ⟨.aborted, st, calls⟩
    else
      -- Acquire a swapchain image to render into
      let calls := calls ++ [.WaitAndAcquireGPUSwapchainTexture inp.cmdbuf st.context.window]
      if !inp.acquired then ⟨.aborted, st, calls⟩
      else if inp.swapchainTexture ≠ 0 then
        ⟨.running, st, calls ++
          [ .BeginGPURenderPass inp.cmdbuf inp.swapchainTexture ⟨0, 0, 0, 1⟩ .CLEAR .STORE,
            .BindGPUGraphicsPipeline st.context.pipeline,
            .DrawGPUPrimitives 3 1 0 0,
            .EndGPURenderPass,
            .SubmitGPUCommandBuffer inp.cmdbuf ]⟩
      else
        -- If we didn't get a swapchain image, the window is probably
        -- minimized, so we cancel the command buffer
        ⟨.running, { st with minimized := true },
          calls ++ [.CancelGPUCommandBuffer inp.cmdbuf]⟩
  else
    -- Window is minimized, sleep for a frame to avoid high CPU usage
    ⟨.running, st, [.Delay (1000 / 60)]⟩

end MinimalGPU

namespace AndroidGPU

open AdvancedGPU (Call Status)

/-- The `Context` struct of AndroidGPU, without `basePath` and `device`. -/
structure Context where
  window : Nat
  deltaTime : ℚ
  pipeline : Nat
  vertexBuf : Nat
  indexBuf : Nat
  transBufVert : Nat
  transBufInd : Nat
  texture : Nat
  transBufTex : Nat
  sampler : Nat
  deriving DecidableEq, Repr

/-- The `Vertex` struct as the frame loop fills it: the position comes from
`lastTouchX` and `lastTouchY`, which hold no determinate value (`none`) until a
finger event has set them. -/
structure Vertex where
  x : Option ℚ
  y : Option ℚ
  u : ℚ
  v : ℚ
  r : ℚ
  g : ℚ
  b : ℚ
  a : ℚ
  deriving DecidableEq, Repr

/-- The events the `switch` tells apart; finger positions are normalized. -/
inductive Event where
  | QUIT
  | WINDOW_MINIMIZED
  | WINDOW_RESTORED
  | TERMINATING
  | FINGER_DOWN (x y : ℚ)
  | FINGER_MOTION (x y : ℚ)
  | OTHER
  deriving DecidableEq, Repr

/-- The variables of `main` that live across iterations of the frame loop;
`winWidth` and `winHeight` are the `int`s taken from the display bounds. -/
structure LoopState where
  context : Context
  quit : Bool
  minimized : Bool
  lastTime : ℚ
  winWidth : Int
  winHeight : Int
  deriving DecidableEq, Repr

/-- The variables the drain writes: the loop state and the two floats `lastTouchX`
and `lastTouchY`, which are declared in the body of the loop with no initializer. -/
structure Drain where
  st : LoopState
  lastTouchX : Option ℚ
  lastTouchY : Option ℚ
  deriving DecidableEq, Repr

/-- The `switch (evt.type)` of the frame loop. -/
def handleEvent (d : Drain) : Event → Drain
  | .QUIT => { d with st := { d.st with quit := true } }
  | .WINDOW_MINIMIZED => { d with st := { d.st with minimized := true } }
  | .WINDOW_RESTORED => { d with st := { d.st with minimized := false } }
  | .TERMINATING => { d with st := { d.st with quit := true } }
  | .FINGER_DOWN x y =>
    { d with lastTouchX := some (x * d.st.winWidth), lastTouchY := some (y * d.st.winHeight) }
  | .FINGER_MOTION x y =>
    { d with lastTouchX := some (x * d.st.winWidth), lastTouchY := some (y * d.st.winHeight) }
  | .OTHER => d

/-- The declarations `float lastTouchX; float lastTouchY;` at the top of the loop
body, then the `while (SDL_PollEvent(&evt))` loop: each iteration starts with the
two floats indeterminate. -/
def pollEvents (st : LoopState) (events : List Event) : Drain :=
  events.foldl handleEvent ⟨st, none, none⟩

/-- The array `vertices` of the frame loop, with `s = 100`. -/
def main_vertices (lastTouchX lastTouchY : Option ℚ) : List Vertex :=
  [ ⟨lastTouchX, lastTouchY, 0, 0, 1, 1, 1, 1⟩,
    ⟨lastTouchX.map (· + 100), lastTouchY, 1, 0, 1, 1, 1, 1⟩,
    ⟨lastTouchX.map (· + 100), lastTouchY.map (· + 100), 1, 1, 1, 1, 1, 1⟩,
    ⟨lastTouchX, lastTouchY.map (· + 100), 0, 1, 1, 1, 1, 1⟩ ]

/-- The array `indices` of the frame loop. -/
def main_indices : List Nat := [0, 1, 2, 2, 3, 0]

/-- The calls of `update_buffers` of AndroidGPU: two staging buffers,
each mapped, written from offset 0 and unmapped, then one copy pass. -/
def update_buffers (context : Context) (dataSizeVert dataSizeInd cmdBuf : Nat) : List Call :=
  [ .MapGPUTransferBuffer context.transBufVert false,
    .memcpy 0 dataSizeVert,
    .UnmapGPUTransferBuffer context.transBufVert,
    .MapGPUTransferBuffer context.transBufInd false,
    .memcpy 0 dataSizeInd,
    .UnmapGPUTransferBuffer context.transBufInd,
    .AcquireGPUCommandBuffer cmdBuf,
    .BeginGPUCopyPass cmdBuf,
    .UploadToGPUBuffer context.transBufVert 0 context.vertexBuf 0 dataSizeVert false,
    .UploadToGPUBuffer context.transBufInd 0 context.indexBuf 0 dataSizeInd false,
    .EndGPUCopyPass,
    .SubmitGPUCommandBuffer cmdBuf ]

/-- What the outside hands to one tick. -/
structure TickInput where
  events : List Event
  ticks : Nat
  uploadCmdBuf : Nat
  cmdbuf : Nat
  acquired : Bool
  swapchainTexture : Nat
  deriving DecidableEq, Repr

/-- The state after a tick, the array `vertices` the tick generated (empty when it
generated none) and the calls it made. -/
structure TickResult where
  status : Status
  st : LoopState
  vertices : List Vertex
  calls : List Call
  deriving DecidableEq

/-- The projection matrix of the render pass. -/
def main_matrix (st : LoopState) : List ℚ :=
  [ 2 / (st.winWidth : ℚ), 0, 0, -1,
    0, -2 / (st.winHeight : ℚ), 0, 1,
    0, 0, 1, 0,
    0, 0, 0, 1 ]

/-- One iteration of `while (!quit)` in `main` of AndroidGPU. `sizeof(vertices)`
is 128, `sizeof(indices)` 24, `sizeof(matrix)` 64. -/
def tick (st : LoopState) (inp : TickInput) : TickResult :=
  -- Poll events
  let d := pollEvents st inp.events
  let st := d.st
  -- Break out of update and render loop if we just quit
  if st.quit then ⟨.exited, st, [], []⟩
  else if !st.minimized then
    -- Calculate delta time for the frame
    let newTime : ℚ := (inp.ticks : ℚ) / 1000
    let st := { st with
      context := { st.context with deltaTime := newTime - st.lastTime }
      lastTime := newTime }
    -- Vertex data
    let vertices := main_vertices d.lastTouchX d.lastTouchY
    let calls := update_buffers st.context (32 * vertices.length) (4 * main_indices.length)
      inp.uploadCmdBuf
    -- Acquire a command buffer to render with
    let calls := calls ++ [.AcquireGPUCommandBuffer inp.cmdbuf]
    if inp.cmdbuf = 0 then ⟨.aborted, st, vertices, calls⟩
    else
      -- Acquire a swapchain image to render into
      let calls := calls ++ [.WaitAndAcquireGPUSwapchainTexture inp.cmdbuf st.context.window]
      if !inp.acquired then ⟨.aborted, st, vertices, calls⟩
      else if inp.swapchainTexture ≠ 0 then
        ⟨.running, st, vertices, calls ++
          [ .BeginGPURenderPass inp.cmdbuf inp.swapchainTexture ⟨0, 0, 0, 1⟩ .CLEAR .STORE,
            .PushGPUVertexUniformData inp.cmdbuf 0 (main_matrix st) 64,
            .BindGPUGraphicsPipeline st.context.pipeline,
            .BindGPUFragmentSamplers 0 st.context.texture st.context.sampler 1,
            .BindGPUVertexBuffers 0 st.context.vertexBuf 0 1,
            .BindGPUIndexBuffer st.context.indexBuf 0 32,
            .DrawGPUIndexedPrimitives 6 1 0 0 0,
            .EndGPURenderPass,
            .SubmitGPUCommandBuffer inp.cmdbuf ]⟩
      else
        -- If we didn't get a swapchain image, the window is probably
        -- minimized, so we cancel the command buffer
        ⟨.running, { st with minimized := true }, vertices,
          calls ++ [.CancelGPUCommandBuffer inp.cmdbuf]⟩
  else
    -- Window is minimized, sleep for a frame to avoid high CPU usage
    ⟨.running, st, [], [.Delay (1000 / 60)]⟩

/-- The tick renders. -/
def Rendered (st : LoopState) (inp : TickInput) : Prop :=
  (pollEvents st inp.events).st.quit = false ∧
  (pollEvents st inp.events).st.minimized = false ∧
  inp.cmdbuf ≠ 0 ∧ inp.acquired = true ∧ inp.swapchainTexture ≠ 0

instance (st : LoopState) (inp : TickInput) : Decidable (Rendered st inp) := by
  unfold Rendered
  infer_instance

/-- Finger-down and finger-motion events. -/
def Event.isTouch : Event → Bool
  | .FINGER_DOWN _ _ => true
  | .FINGER_MOTION _ _ => true
  | _ => false

/-- The normalized position of the most recent touch event of the list. -/
def lastTouch (events : List Event) : Option (ℚ × ℚ) :=
  match (events.filter Event.isTouch).getLast? with
  | some (.FINGER_DOWN x y) => some (x, y)
  | some (.FINGER_MOTION x y) => some (x, y)
  | _ => none

/-- A loop state for examples: a 1080 x 1920 display, handles 1 to 9. -/
def demoState : LoopState :=
  { context :=
      { window := 1, deltaTime := 0, pipeline := 2, vertexBuf := 3, indexBuf := 4,
        transBufVert := 5, transBufInd := 6, texture := 7, transBufTex := 8, sampler := 9 }
    quit := false, minimized := false, lastTime := 0, winWidth := 1080, winHeight := 1920 }

/-- A tick that drains a finger-down event in the middle of the display and
renders. -/
def touchInput : TickInput :=
  { events := [Event.FINGER_DOWN (1 / 2) (1 / 2)], ticks := 1000, uploadCmdBuf := 20,
    cmdbuf := 21, acquired := true, swapchainTexture := 11 }

/-- A tick that drains no event and renders. -/
def quietInput : TickInput :=
  { events := [], ticks := 1016, uploadCmdBuf := 22, cmdbuf := 23, acquired := true,
    swapchainTexture := 12 }

end AndroidGPU

namespace AdvancedGPU

/-! ## Frame geometry: theorems -/

/-- C1: with the left button not held, whatever the last pointer position is, the
batch is the one quad of side 500 at the origin, corners in the order (0,0),
(500,0), (500,500), (0,500), texture coordinates (0,0), (1,0), (1,1), (0,1), every
colour (1,1,1,1), and the indices are 0,1,2,2,3,0. -/
theorem main_vertices_not_held (x y : ℚ) :
    main_vertices false x y =
      [ ⟨0, 0, 0, 0, 1, 1, 1, 1⟩, ⟨500, 0, 1, 0, 1, 1, 1, 1⟩,
        ⟨500, 500, 1, 1, 1, 1, 1, 1⟩, ⟨0, 500, 0, 1, 1, 1, 1, 1⟩ ] ∧
    main_indices false = [0, 1, 2, 2, 3, 0] ∧
    ∀ p ∈ main_vertices false x y, (p.r, p.g, p.b, p.a) = (1, 1, 1, 1) := by
  refine ⟨by simp [main_vertices, main_s], by simp [main_indices], ?_⟩
  intro p hp
  simp only [main_vertices, Bool.not_false, if_true, List.mem_cons, List.mem_singleton,
    List.mem_nil_iff, or_false] at hp
  rcases hp with h | h | h | h <;> subst h <;> rfl

/-- C2: with the left button held and the last pointer position (x, y), the batch
is two quads: the origin quad, then the quad with corners (x,y), (x+500,y),
(x+500,y+500), (x,y+500), each with texture coordinates (0,0), (1,0), (1,1), (0,1)
and colour (1,1,1,1); the indices are 0,1,2,2,3,0,4,5,6,6,7,4; at (100,100) the
second quad is (100,100), (600,100), (600,600), (100,600). -/
theorem main_vertices_held (x y : ℚ) :
    main_vertices true x y =
      [ ⟨0, 0, 0, 0, 1, 1, 1, 1⟩, ⟨500, 0, 1, 0, 1, 1, 1, 1⟩,
        ⟨500, 500, 1, 1, 1, 1, 1, 1⟩, ⟨0, 500, 0, 1, 1, 1, 1, 1⟩,
        ⟨x, y, 0, 0, 1, 1, 1, 1⟩, ⟨x + 500, y, 1, 0, 1, 1, 1, 1⟩,
        ⟨x + 500, y + 500, 1, 1, 1, 1, 1, 1⟩, ⟨x, y + 500, 0, 1, 1, 1, 1, 1⟩ ] ∧
    main_indices true = [0, 1, 2, 2, 3, 0, 4, 5, 6, 6, 7, 4] ∧
    (main_vertices true 100 100).drop 4 =
      [ ⟨100, 100, 0, 0, 1, 1, 1, 1⟩, ⟨600, 100, 1, 0, 1, 1, 1, 1⟩,
        ⟨600, 600, 1, 1, 1, 1, 1, 1⟩, ⟨100, 600, 0, 1, 1, 1, 1, 1⟩ ] := by
  refine ⟨by simp [main_vertices, main_s], by simp [main_indices], ?_⟩
  simp [main_vertices, main_s]
  norm_num

/-- C3: for every pointer state the vertex count is a multiple of 4, the index
count is 3/2 of the vertex count, and every index is below the vertex count. -/
theorem main_batch_counts (mouseLeftDown : Bool) (x y : ℚ) :
    (main_vertices mouseLeftDown x y).length % 4 = 0 ∧
    2 * (main_indices mouseLeftDown).length = 3 * (main_vertices mouseLeftDown x y).length ∧
    ∀ i ∈ main_indices mouseLeftDown, i < (main_vertices mouseLeftDown x y).length := by
  cases mouseLeftDown <;> simp [main_vertices, main_indices]

/-! ## Upload channel: lemmas -/

theorem writeAt_length (region : List Nat) (off : Nat) (src : List Nat) :
    (writeAt region off src).length = region.length := by
  simp only [writeAt, List.length_append, List.length_take, List.length_drop]
  omega

theorem writeAt_of_fits (region : List Nat) (off : Nat) (src : List Nat)
    (h : off + src.length ≤ region.length) :
    writeAt region off src = region.take off ++ src ++ region.drop (off + src.length) := by
  have hsrc : src.take (region.length - off) = src := List.take_of_length_le (by omega)
  rw [writeAt, hsrc]

theorem writeAt_zero (region src : List Nat) (h : src.length ≤ region.length) :
    writeAt region 0 src = src ++ region.drop src.length := by
  rw [writeAt_of_fits region 0 src (by omega)]
  simp

theorem writeAt_nil (region : List Nat) (off : Nat) : writeAt region off [] = region := by
  simp [writeAt]

/-- The staging bytes after the two `memcpy` of `update_buffers`. -/
theorem update_buffers_transfers (dev : Device) (buffers : RenderBuffers)
    (dataVert : List Nat) (dataSizeVert : Nat) (dataInd : List Nat) (dataSizeInd cmdBuf : Nat) :
    (update_buffers dev buffers dataVert dataSizeVert dataInd dataSizeInd cmdBuf).1.transfers
        buffers.transfer =
      writeAt (writeAt (dev.transfers buffers.transfer) 0 (dataVert.take dataSizeVert))
        dataSizeVert (dataInd.take dataSizeInd) := by
  simp [update_buffers, SDL_MapGPUTransferBuffer, memcpy, SDL_UnmapGPUTransferBuffer,
    SDL_AcquireGPUCommandBuffer, SDL_BeginGPUCopyPass, SDL_UploadToGPUBuffer,
    SDL_EndGPUCopyPass, SDL_SubmitGPUCommandBuffer, Device.log, setRegion]

/-- The GPU buffers after the submission of `update_buffers`: the two uploads,
vertex first, read the staging bytes as the two `memcpy` left them. -/
theorem update_buffers_buffers (dev : Device) (buffers : RenderBuffers)
    (dataVert : List Nat) (dataSizeVert : Nat) (dataInd : List Nat) (dataSizeInd cmdBuf : Nat) :
    (update_buffers dev buffers dataVert dataSizeVert dataInd dataSizeInd cmdBuf).1.buffers =
      runUpload
        (update_buffers dev buffers dataVert dataSizeVert dataInd dataSizeInd cmdBuf).1.transfers
        (runUpload
          (update_buffers dev buffers dataVert dataSizeVert dataInd dataSizeInd cmdBuf).1.transfers
          dev.buffers ⟨buffers.transfer, 0, buffers.vertex, 0, dataSizeVert⟩)
        ⟨buffers.transfer, dataSizeVert, buffers.index, 0, dataSizeInd⟩ := by
  simp [update_buffers, SDL_MapGPUTransferBuffer, memcpy, SDL_UnmapGPUTransferBuffer,
    SDL_AcquireGPUCommandBuffer, SDL_BeginGPUCopyPass, SDL_UploadToGPUBuffer,
    SDL_EndGPUCopyPass, SDL_SubmitGPUCommandBuffer, Device.log]

/-- The calls `update_buffers` makes. -/
theorem update_buffers_trace (dev : Device) (buffers : RenderBuffers)
    (dataVert : List Nat) (dataSizeVert : Nat) (dataInd : List Nat) (dataSizeInd cmdBuf : Nat) :
    (update_buffers dev buffers dataVert dataSizeVert dataInd dataSizeInd cmdBuf).1.trace =
      dev.trace ++ uploadCalls buffers dataSizeVert dataSizeInd cmdBuf := by
  simp [update_buffers, SDL_MapGPUTransferBuffer, memcpy, SDL_UnmapGPUTransferBuffer,
    SDL_AcquireGPUCommandBuffer, SDL_BeginGPUCopyPass, SDL_UploadToGPUBuffer,
    SDL_EndGPUCopyPass, SDL_SubmitGPUCommandBuffer, Device.log, uploadCalls]

/-- What `update_buffers` returns as `RenderBuffers`. -/
theorem update_buffers_snd (dev : Device) (buffers : RenderBuffers)
    (dataVert : List Nat) (dataSizeVert : Nat) (dataInd : List Nat) (dataSizeInd cmdBuf : Nat) :
    (update_buffers dev buffers dataVert dataSizeVert dataInd dataSizeInd cmdBuf).2 =
      { buffers with indexCount := (dataSizeInd / 4) % 2 ^ 32 } := by
  simp [update_buffers]

/-- The three regions after an `update_buffers` whose data fit: the staging
region starts with the vertex bytes followed by the index bytes, each GPU buffer
starts with its bytes and keeps what it held beyond them. -/
theorem update_buffers_mem (dev : Device) (buffers : RenderBuffers)
    (dataVert dataInd : List Nat) (cmdBuf : Nat)
    (hne : buffers.vertex ≠ buffers.index)
    (hV : dataVert.length ≤ (dev.buffers buffers.vertex).length)
    (hI : dataInd.length ≤ (dev.buffers buffers.index).length)
    (hT : dataVert.length + dataInd.length ≤ (dev.transfers buffers.transfer).length) :
    (update_buffers dev buffers dataVert dataVert.length dataInd dataInd.length
        cmdBuf).1.transfers buffers.transfer =
      dataVert ++ dataInd ++
        (dev.transfers buffers.transfer).drop (dataVert.length + dataInd.length) ∧
    (update_buffers dev buffers dataVert dataVert.length dataInd dataInd.length
        cmdBuf).1.buffers buffers.vertex =
      dataVert ++ (dev.buffers buffers.vertex).drop dataVert.length ∧
    (update_buffers dev buffers dataVert dataVert.length dataInd dataInd.length
        cmdBuf).1.buffers buffers.index =
      dataInd ++ (dev.buffers buffers.index).drop dataInd.length := by
  have hT' : (update_buffers dev buffers dataVert dataVert.length dataInd dataInd.length
        cmdBuf).1.transfers buffers.transfer =
      dataVert ++ dataInd ++
        (dev.transfers buffers.transfer).drop (dataVert.length + dataInd.length) := by
    rw [update_buffers_transfers, List.take_length, List.take_length,
      writeAt_zero _ _ (by omega), writeAt_of_fits _ _ _ (by simp; omega)]
    rw [List.take_left' rfl, List.drop_append, List.drop_drop]
  refine ⟨hT', ?_, ?_⟩
  · rw [update_buffers_buffers]
    simp only [runUpload, setRegion, hT', if_neg hne, if_true, List.drop_zero,
      List.append_assoc, List.take_left' rfl]
    rw [writeAt_zero _ _ hV]
  · rw [update_buffers_buffers]
    simp only [runUpload, setRegion, hT', if_neg (Ne.symm hne), if_true, List.append_assoc,
      List.drop_left' rfl, List.take_left' rfl]
    rw [writeAt_zero _ _ hI]

/-- The regions keep their lengths across `update_buffers`. -/
theorem update_buffers_lengths (dev : Device) (buffers : RenderBuffers)
    (dataVert : List Nat) (dataSizeVert : Nat) (dataInd : List Nat) (dataSizeInd cmdBuf : Nat) :
    ((update_buffers dev buffers dataVert dataSizeVert dataInd dataSizeInd cmdBuf).1.transfers
        buffers.transfer).length = (dev.transfers buffers.transfer).length ∧
    ∀ h, ((update_buffers dev buffers dataVert dataSizeVert dataInd dataSizeInd cmdBuf).1.buffers
        h).length = (dev.buffers h).length := by
  refine ⟨by rw [update_buffers_transfers, writeAt_length, writeAt_length], ?_⟩
  intro h
  rw [update_buffers_buffers]
  simp only [runUpload, setRegion]
  split_ifs <;> simp_all [writeAt_length]

/-- The GPU buffers after two consecutive `update_buffers` whose data fit. -/
theorem update_buffers_mem_twice (dev : Device) (buffers : RenderBuffers)
    (vert1 ind1 vert2 ind2 : List Nat) (cmdBuf1 cmdBuf2 : Nat)
    (hne : buffers.vertex ≠ buffers.index)
    (hN1 : vert1.length ≤ (dev.buffers buffers.vertex).length)
    (hM1 : ind1.length ≤ (dev.buffers buffers.index).length)
    (hT1 : vert1.length + ind1.length ≤ (dev.transfers buffers.transfer).length)
    (hN2 : vert2.length ≤ (dev.buffers buffers.vertex).length)
    (hM2 : ind2.length ≤ (dev.buffers buffers.index).length)
    (hT2 : vert2.length + ind2.length ≤ (dev.transfers buffers.transfer).length) :
    (update_buffers
        (update_buffers dev buffers vert1 vert1.length ind1 ind1.length cmdBuf1).1
        (update_buffers dev buffers vert1 vert1.length ind1 ind1.length cmdBuf1).2
        vert2 vert2.length ind2 ind2.length cmdBuf2).1.buffers buffers.vertex
      = vert2 ++ vert1.drop vert2.length ++
          (dev.buffers buffers.vertex).drop (max vert1.length vert2.length) ∧
    (update_buffers
        (update_buffers dev buffers vert1 vert1.length ind1 ind1.length cmdBuf1).1
        (update_buffers dev buffers vert1 vert1.length ind1 ind1.length cmdBuf1).2
        vert2 vert2.length ind2 ind2.length cmdBuf2).1.buffers buffers.index
      = ind2 ++ ind1.drop ind2.length ++
          (dev.buffers buffers.index).drop (max ind1.length ind2.length) := by
  obtain ⟨-, hV1, hI1⟩ := update_buffers_mem dev buffers vert1 ind1 cmdBuf1 hne hN1 hM1 hT1
  have hlen := update_buffers_lengths dev buffers vert1 vert1.length ind1 ind1.length cmdBuf1
  have hb := update_buffers_snd dev buffers vert1 vert1.length ind1 ind1.length cmdBuf1
  have hbv : (update_buffers dev buffers vert1 vert1.length ind1 ind1.length cmdBuf1).2.vertex
      = buffers.vertex := by rw [hb]
  have hbi : (update_buffers dev buffers vert1 vert1.length ind1 ind1.length cmdBuf1).2.index
      = buffers.index := by rw [hb]
  have hbt : (update_buffers dev buffers vert1 vert1.length ind1 ind1.length cmdBuf1).2.transfer
      = buffers.transfer := by rw [hb]
  obtain ⟨-, hV2, hI2⟩ := update_buffers_mem
    (update_buffers dev buffers vert1 vert1.length ind1 ind1.length cmdBuf1).1
    (update_buffers dev buffers vert1 vert1.length ind1 ind1.length cmdBuf1).2
    vert2 ind2 cmdBuf2 (by rw [hbv, hbi]; exact hne)
    (by rw [hbv, hlen.2]; omega) (by rw [hbi, hlen.2]; omega) (by rw [hbt, hlen.1]; omega)
  rw [hbv] at hV2
  rw [hbi] at hI2
  rw [hV2, hI2, hV1, hI1]
  constructor
  · rw [List.append_assoc, List.drop_append_eq_append_drop, List.drop_drop]
    congr 3
    omega
  · rw [List.append_assoc, List.drop_append_eq_append_drop, List.drop_drop]
    congr 3
    omega

theorem mainBuffers_eq : mainBuffers = ⟨1, 2, 3, 0⟩ := rfl

theorem mainDevice_lengths :
    (mainDevice.buffers 1).length = 524288 ∧ (mainDevice.buffers 2).length = 98304 ∧
    (mainDevice.transfers 3).length = 622592 := by
  have h12 : ((1 : Nat) = 2) = False := by decide
  simp only [mainDevice, create_buffers, setRegion, h12, if_true, if_false,
    List.length_replicate]
  decide

/-! ## Upload channel: theorems -/

/-- C4: upload round trip. When the vertex bytes (length N) and the index bytes
(length M) fit the capacities of the GPU vertex and index buffers, and the staging
region has the sum of the two capacities, `update_buffers` leaves the vertex bytes
at staging offsets [0, N) and the index bytes at [N, N+M), and afterwards bytes
[0, N) of the GPU vertex buffer are the vertex bytes and bytes [0, M) of the GPU
index buffer are the index bytes. -/
theorem update_buffers_round_trip (dev : Device) (buffers : RenderBuffers)
    (dataVert dataInd : List Nat) (cmdBuf vertexCapacity indexCapacity : Nat)
    (hne : buffers.vertex ≠ buffers.index)
    (hcv : (dev.buffers buffers.vertex).length = vertexCapacity)
    (hci : (dev.buffers buffers.index).length = indexCapacity)
    (hct : (dev.transfers buffers.transfer).length = vertexCapacity + indexCapacity)
    (hN : dataVert.length ≤ vertexCapacity) (hM : dataInd.length ≤ indexCapacity) :
    ((update_buffers dev buffers dataVert dataVert.length dataInd dataInd.length
        cmdBuf).1.transfers buffers.transfer).take dataVert.length = dataVert ∧
    (((update_buffers dev buffers dataVert dataVert.length dataInd dataInd.length
        cmdBuf).1.transfers buffers.transfer).drop dataVert.length).take dataInd.length
      = dataInd ∧
    ((update_buffers dev buffers dataVert dataVert.length dataInd dataInd.length
        cmdBuf).1.buffers buffers.vertex).take dataVert.length = dataVert ∧
    ((update_buffers dev buffers dataVert dataVert.length dataInd dataInd.length
        cmdBuf).1.buffers buffers.index).take dataInd.length = dataInd := by
  obtain ⟨hT, hV, hI⟩ := update_buffers_mem dev buffers dataVert dataInd cmdBuf hne
    (by omega) (by omega) (by omega)
  rw [hT, hV, hI]
  refine ⟨?_, ?_, List.take_left' rfl, List.take_left' rfl⟩
  · rw [List.append_assoc, List.take_left' rfl]
  · rw [List.append_assoc, List.drop_left' rfl, List.take_left' rfl]

/-- Witness of C4: a 6-byte vertex string and a 4-byte index string on the buffers
of `main`. -/
theorem update_buffers_round_trip_witness :
    ((update_buffers mainDevice mainBuffers [1, 2, 3, 4, 5, 6] 6 [7, 8, 9, 10] 4
        20).1.transfers 3).take 6 = [1, 2, 3, 4, 5, 6] ∧
    (((update_buffers mainDevice mainBuffers [1, 2, 3, 4, 5, 6] 6 [7, 8, 9, 10] 4
        20).1.transfers 3).drop 6).take 4 = [7, 8, 9, 10] ∧
    ((update_buffers mainDevice mainBuffers [1, 2, 3, 4, 5, 6] 6 [7, 8, 9, 10] 4
        20).1.buffers 1).take 6 = [1, 2, 3, 4, 5, 6] ∧
    ((update_buffers mainDevice mainBuffers [1, 2, 3, 4, 5, 6] 6 [7, 8, 9, 10] 4
        20).1.buffers 2).take 4 = [7, 8, 9, 10] :=
  update_buffers_round_trip mainDevice mainBuffers [1, 2, 3, 4, 5, 6] [7, 8, 9, 10] 20
    524288 98304 (by decide) mainDevice_lengths.1 mainDevice_lengths.2.1
    mainDevice_lengths.2.2 (by decide) (by decide)

/-- C5: after `update_buffers` with an index byte length M below 2^32, `indexCount`
is M / 4 and the vertex, index and transfer handles are those passed in. -/
theorem update_buffers_indexCount (dev : Device) (buffers : RenderBuffers)
    (dataVert : List Nat) (dataSizeVert : Nat) (dataInd : List Nat) (dataSizeInd cmdBuf : Nat)
    (hM : dataSizeInd < 2 ^ 32) :
    (update_buffers dev buffers dataVert dataSizeVert dataInd dataSizeInd cmdBuf).2.indexCount
      = dataSizeInd / 4 ∧
    (update_buffers dev buffers dataVert dataSizeVert dataInd dataSizeInd cmdBuf).2.vertex
      = buffers.vertex ∧
    (update_buffers dev buffers dataVert dataSizeVert dataInd dataSizeInd cmdBuf).2.index
      = buffers.index ∧
    (update_buffers dev buffers dataVert dataSizeVert dataInd dataSizeInd cmdBuf).2.transfer
      = buffers.transfer := by
  rw [update_buffers_snd]
  refine ⟨?_, rfl, rfl, rfl⟩
  show dataSizeInd / 4 % 2 ^ 32 = dataSizeInd / 4
  apply Nat.mod_eq_of_lt
  omega

/-- Witness of C5: the largest 32-bit length, 4294967295 bytes, gives 1073741823
indices. -/
theorem update_buffers_indexCount_witness :
    4294967295 < 2 ^ 32 ∧
    (update_buffers mainDevice mainBuffers [] 0 [] 4294967295 20).2.indexCount
      = 4294967295 / 4 :=
  ⟨by decide,
    (update_buffers_indexCount mainDevice mainBuffers [] 0 [] 4294967295 20 (by decide)).1⟩

/-- Counterexample to C6: on the buffers of `main`, a two-quad batch and then a
one-quad batch. Bytes [128, 256) of the GPU vertex buffer and bytes [24, 48) of the
GPU index buffer still hold what the first call wrote (1), neither what the buffers
held at first (0) nor what the second call passed (2). -/
theorem update_buffers_keeps_tail :
    ((afterTwoQuadsThenOne.1.buffers 1).drop 128).take 128 = List.replicate 128 1 ∧
    ((afterTwoQuadsThenOne.1.buffers 2).drop 24).take 24 = List.replicate 24 1 ∧
    (afterTwoQuadsThenOne.1.buffers 1).take 128 = List.replicate 128 2 ∧
    (afterTwoQuadsThenOne.1.buffers 2).take 24 = List.replicate 24 2 := by
  have hl := mainDevice_lengths
  have h := update_buffers_mem_twice mainDevice mainBuffers (List.replicate 256 1)
    (List.replicate 48 1) (List.replicate 128 2) (List.replicate 24 2) 20 21 (by decide)
    (by rw [List.length_replicate, mainBuffers_eq, hl.1]; decide)
    (by rw [List.length_replicate, mainBuffers_eq, hl.2.1]; decide)
    (by rw [List.length_replicate, List.length_replicate, mainBuffers_eq, hl.2.2]; decide)
    (by rw [List.length_replicate, mainBuffers_eq, hl.1]; decide)
    (by rw [List.length_replicate, mainBuffers_eq, hl.2.1]; decide)
    (by rw [List.length_replicate, List.length_replicate, mainBuffers_eq, hl.2.2]; decide)
  simp only [List.length_replicate, List.drop_replicate, mainBuffers_eq] at h
  obtain ⟨hV, hI⟩ := h
  have hV' : afterTwoQuadsThenOne.1.buffers 1 =
      List.replicate 128 2 ++ List.replicate (256 - 128) 1 ++
        List.drop (max 256 128) (mainDevice.buffers 1) := hV
  have hI' : afterTwoQuadsThenOne.1.buffers 2 =
      List.replicate 24 2 ++ List.replicate (48 - 24) 1 ++
        List.drop (max 48 24) (mainDevice.buffers 2) := hI
  rw [hV', hI']
  have e1 : (List.replicate 128 2 : List Nat).length = 128 := List.length_replicate _ _
  have e2 : (List.replicate (256 - 128) 1 : List Nat).length = 128 := List.length_replicate _ _
  have e3 : (List.replicate 24 2 : List Nat).length = 24 := List.length_replicate _ _
  have e4 : (List.replicate (48 - 24) 1 : List Nat).length = 24 := List.length_replicate _ _
  refine ⟨?_, ?_, ?_, ?_⟩
  · rw [List.append_assoc, List.drop_left' e1, List.take_left' e2]
  · rw [List.append_assoc, List.drop_left' e3, List.take_left' e4]
  · rw [List.append_assoc, List.take_left' e1]
  · rw [List.append_assoc, List.take_left' e3]

/-- C6, amended: two consecutive `update_buffers` whose data fit (N1, M1 bytes,
then N2, M2 bytes). Afterwards the GPU vertex buffer is the second vertex bytes,
then the bytes of the first call from offset N2 on, then what the buffer held
before both calls from offset max N1 N2 on; the GPU index buffer likewise. When
the second batch is at least as long as the first, no byte of the first call is
left (the buffer is the second bytes, then its contents before both calls); when
it is shorter the bytes [N2, N1) of the first call stay. -/
theorem update_buffers_twice (dev : Device) (buffers : RenderBuffers)
    (vert1 ind1 vert2 ind2 : List Nat) (cmdBuf1 cmdBuf2 vertexCapacity indexCapacity : Nat)
    (hne : buffers.vertex ≠ buffers.index)
    (hcv : (dev.buffers buffers.vertex).length = vertexCapacity)
    (hci : (dev.buffers buffers.index).length = indexCapacity)
    (hct : (dev.transfers buffers.transfer).length = vertexCapacity + indexCapacity)
    (hN1 : vert1.length ≤ vertexCapacity) (hM1 : ind1.length ≤ indexCapacity)
    (hN2 : vert2.length ≤ vertexCapacity) (hM2 : ind2.length ≤ indexCapacity) :
    (update_buffers
        (update_buffers dev buffers vert1 vert1.length ind1 ind1.length cmdBuf1).1
        (update_buffers dev buffers vert1 vert1.length ind1 ind1.length cmdBuf1).2
        vert2 vert2.length ind2 ind2.length cmdBuf2).1.buffers buffers.vertex
      = vert2 ++ vert1.drop vert2.length ++
          (dev.buffers buffers.vertex).drop (max vert1.length vert2.length) ∧
    (update_buffers
        (update_buffers dev buffers vert1 vert1.length ind1 ind1.length cmdBuf1).1
        (update_buffers dev buffers vert1 vert1.length ind1 ind1.length cmdBuf1).2
        vert2 vert2.length ind2 ind2.length cmdBuf2).1.buffers buffers.index
      = ind2 ++ ind1.drop ind2.length ++
          (dev.buffers buffers.index).drop (max ind1.length ind2.length) ∧
    (vert1.length ≤ vert2.length →
      (update_buffers
          (update_buffers dev buffers vert1 vert1.length ind1 ind1.length cmdBuf1).1
          (update_buffers dev buffers vert1 vert1.length ind1 ind1.length cmdBuf1).2
          vert2 vert2.length ind2 ind2.length cmdBuf2).1.buffers buffers.vertex
        = vert2 ++ (dev.buffers buffers.vertex).drop vert2.length) ∧
    (ind1.length ≤ ind2.length →
      (update_buffers
          (update_buffers dev buffers vert1 vert1.length ind1 ind1.length cmdBuf1).1
          (update_buffers dev buffers vert1 vert1.length ind1 ind1.length cmdBuf1).2
          vert2 vert2.length ind2 ind2.length cmdBuf2).1.buffers buffers.index
        = ind2 ++ (dev.buffers buffers.index).drop ind2.length) := by
  obtain ⟨hV, hI⟩ := update_buffers_mem_twice dev buffers vert1 ind1 vert2 ind2 cmdBuf1 cmdBuf2
    hne (by omega) (by omega) (by omega) (by omega) (by omega) (by omega)
  refine ⟨hV, hI, ?_, ?_⟩
  · intro h
    rw [hV, List.drop_eq_nil_of_le h, List.append_nil, Nat.max_eq_right h]
  · intro h
    rw [hI, List.drop_eq_nil_of_le h, List.append_nil, Nat.max_eq_right h]

/-- Witness of C6, amended: a 4-byte batch, then a 2-byte batch, on the buffers of
`main`. -/
theorem update_buffers_twice_witness :
    (update_buffers
        (update_buffers mainDevice mainBuffers [1, 1, 1, 1] 4 [1, 1, 1, 1] 4 20).1
        (update_buffers mainDevice mainBuffers [1, 1, 1, 1] 4 [1, 1, 1, 1] 4 20).2
        [2, 2] 2 [2, 2] 2 21).1.buffers 1
      = [2, 2] ++ [1, 1, 1, 1].drop 2 ++ (mainDevice.buffers 1).drop (max 4 2) ∧
    (update_buffers
        (update_buffers mainDevice mainBuffers [1, 1, 1, 1] 4 [1, 1, 1, 1] 4 20).1
        (update_buffers mainDevice mainBuffers [1, 1, 1, 1] 4 [1, 1, 1, 1] 4 20).2
        [2, 2] 2 [2, 2] 2 21).1.buffers 2
      = [2, 2] ++ [1, 1, 1, 1].drop 2 ++ (mainDevice.buffers 2).drop (max 4 2) :=
  ⟨(update_buffers_twice mainDevice mainBuffers [1, 1, 1, 1] [1, 1, 1, 1] [2, 2] [2, 2] 20 21
    524288 98304 (by decide) mainDevice_lengths.1 mainDevice_lengths.2.1
    mainDevice_lengths.2.2 (by decide) (by decide) (by decide) (by decide)).1,
   (update_buffers_twice mainDevice mainBuffers [1, 1, 1, 1] [1, 1, 1, 1] [2, 2] [2, 2] 20 21
    524288 98304 (by decide) mainDevice_lengths.1 mainDevice_lengths.2.1
    mainDevice_lengths.2.2 (by decide) (by decide) (by decide) (by decide)).2.1⟩

/-- Counterexample to C7: on the buffers of `main` (vertex capacity 524288),
`update_buffers` with 524320 vertex bytes signals nothing: it makes its ten calls,
the two `memcpy`, the two uploads with the lengths passed in and the submission
among them, and the staging region holds the 524320 bytes. -/
theorem update_buffers_oversize :
    (mainDevice.buffers mainBuffers.vertex).length = 524288 ∧
    (update_buffers mainDevice mainBuffers (List.replicate 524320 7) 524320 [] 0 20).1.trace =
      [ Call.MapGPUTransferBuffer 3 false, Call.memcpy 0 524320, Call.memcpy 524320 0,
        Call.UnmapGPUTransferBuffer 3, Call.AcquireGPUCommandBuffer 20,
        Call.BeginGPUCopyPass 20, Call.UploadToGPUBuffer 3 0 1 0 524320 false,
        Call.UploadToGPUBuffer 3 524320 2 0 0 false, Call.EndGPUCopyPass,
        Call.SubmitGPUCommandBuffer 20 ] ∧
    ((update_buffers mainDevice mainBuffers (List.replicate 524320 7) 524320 [] 0
        20).1.transfers 3).take 524320 = List.replicate 524320 7 := by
  refine ⟨mainDevice_lengths.1, ?_, ?_⟩
  · rw [update_buffers_trace]
    rfl
  · have h := update_buffers_transfers mainDevice mainBuffers (List.replicate 524320 7)
      524320 [] 0 20
    have e : (List.replicate 524320 7 : List Nat).length = 524320 := List.length_replicate _ _
    have h3 : mainBuffers.transfer = 3 := rfl
    rw [h3] at h
    rw [h, List.take_of_length_le (Nat.le_of_eq e), List.take_nil, writeAt_nil,
      writeAt_zero _ _ (by rw [e, mainDevice_lengths.2.2]; decide), List.take_left' e]

/-- C7, amended: `update_buffers` compares no length with a capacity and has no
failure path. For every call whose two `memcpy` stay inside their source arrays and
inside the staging region (each array holds the bytes its length declares, and the
two lengths together are at most the staging capacity), whatever the capacities of
the GPU vertex and index buffers are, also below the lengths passed in, it makes
the same ten calls (map, two `memcpy`, unmap, acquire, begin copy pass, two uploads
with the lengths passed in, end copy pass, submit) and returns, and the staging
region holds the vertex bytes followed by the index bytes. -/
theorem update_buffers_calls (dev : Device) (buffers : RenderBuffers)
    (dataVert : List Nat) (dataSizeVert : Nat) (dataInd : List Nat) (dataSizeInd cmdBuf : Nat)
    (hV : dataSizeVert ≤ dataVert.length) (hI : dataSizeInd ≤ dataInd.length)
    (hT : dataSizeVert + dataSizeInd ≤ (dev.transfers buffers.transfer).length) :
    (update_buffers dev buffers dataVert dataSizeVert dataInd dataSizeInd cmdBuf).1.trace =
      dev.trace ++
      [ Call.MapGPUTransferBuffer buffers.transfer false,
        Call.memcpy 0 dataSizeVert,
        Call.memcpy dataSizeVert dataSizeInd,
        Call.UnmapGPUTransferBuffer buffers.transfer,
        Call.AcquireGPUCommandBuffer cmdBuf,
        Call.BeginGPUCopyPass cmdBuf,
        Call.UploadToGPUBuffer buffers.transfer 0 buffers.vertex 0 dataSizeVert false,
        Call.UploadToGPUBuffer buffers.transfer dataSizeVert buffers.index 0 dataSizeInd false,
        Call.EndGPUCopyPass,
        Call.SubmitGPUCommandBuffer cmdBuf ] ∧
    (update_buffers dev buffers dataVert dataSizeVert dataInd dataSizeInd cmdBuf).1.transfers
        buffers.transfer =
      dataVert.take dataSizeVert ++ dataInd.take dataSizeInd ++
        (dev.transfers buffers.transfer).drop (dataSizeVert + dataSizeInd) := by
  refine ⟨update_buffers_trace dev buffers dataVert dataSizeVert dataInd dataSizeInd cmdBuf, ?_⟩
  have hA : (dataVert.take dataSizeVert).length = dataSizeVert := by
    rw [List.length_take]
    omega
  have hB : (dataInd.take dataSizeInd).length = dataSizeInd := by
    rw [List.length_take]
    omega
  rw [update_buffers_transfers, writeAt_zero _ _ (by omega), hA,
    writeAt_of_fits _ _ _ (by
      rw [List.length_append, List.length_drop, hA, hB]
      omega),
    hB, List.take_left' hA]
  have hd : (dataVert.take dataSizeVert ++
      (dev.transfers buffers.transfer).drop dataSizeVert).drop (dataSizeVert + dataSizeInd) =
      (dev.transfers buffers.transfer).drop (dataSizeVert + dataSizeInd) := by
    rw [List.drop_append_eq_append_drop, hA, List.drop_of_length_le (by omega),
      List.nil_append, Nat.add_sub_cancel_left, List.drop_drop, Nat.add_comm]
  rw [hd]

/-- Witness of C7, amended: on the buffers of `main` (vertex capacity 524288,
staging capacity 622592), the call with 524320 vertex bytes and no index byte. -/
theorem update_buffers_calls_witness :
    (mainDevice.buffers mainBuffers.vertex).length < 524320 ∧
    524320 + 0 ≤ (mainDevice.transfers mainBuffers.transfer).length ∧
    (update_buffers mainDevice mainBuffers (List.replicate 524320 7) 524320 [] 0 20).1.trace =
      mainDevice.trace ++
      [ Call.MapGPUTransferBuffer mainBuffers.transfer false,
        Call.memcpy 0 524320,
        Call.memcpy 524320 0,
        Call.UnmapGPUTransferBuffer mainBuffers.transfer,
        Call.AcquireGPUCommandBuffer 20,
        Call.BeginGPUCopyPass 20,
        Call.UploadToGPUBuffer mainBuffers.transfer 0 mainBuffers.vertex 0 524320 false,
        Call.UploadToGPUBuffer mainBuffers.transfer 524320 mainBuffers.index 0 0 false,
        Call.EndGPUCopyPass,
        Call.SubmitGPUCommandBuffer 20 ] :=
  have hv : (mainDevice.buffers mainBuffers.vertex).length = 524288 := mainDevice_lengths.1
  have ht : (mainDevice.transfers mainBuffers.transfer).length = 622592 :=
    mainDevice_lengths.2.2
  have hfit : 524320 + 0 ≤ (mainDevice.transfers mainBuffers.transfer).length := by
    rw [ht]
    decide
  ⟨by rw [hv]; decide, hfit,
    (update_buffers_calls mainDevice mainBuffers (List.replicate 524320 7) 524320 [] 0 20
      (Nat.le_of_eq (List.length_replicate _ _).symm) (Nat.le_refl 0) hfit).1⟩

/-! ## Frame loop: lemmas -/

theorem handleEvent_context (st : LoopState) (e : Event) :
    (handleEvent st e).context = st.context := by
  cases e <;> simp only [handleEvent] <;> split_ifs <;> rfl

theorem pollEvents_context (st : LoopState) (events : List Event) :
    (pollEvents st events).context = st.context := by
  induction events generalizing st with
  | nil => rfl
  | cons e es ih =>
    show (pollEvents (handleEvent st e) es).context = st.context
    rw [ih, handleEvent_context]

theorem handleEvent_quit (st : LoopState) (e : Event) (he : e ≠ Event.QUIT) :
    (handleEvent st e).quit = st.quit := by
  cases e <;> simp only [handleEvent] <;> first | exact absurd rfl he | (split_ifs <;> rfl)

theorem pollEvents_quit (st : LoopState) (events : List Event) (hq : Event.QUIT ∉ events) :
    (pollEvents st events).quit = st.quit := by
  induction events generalizing st with
  | nil => rfl
  | cons e es ih =>
    show (pollEvents (handleEvent st e) es).quit = st.quit
    rw [ih _ (fun h => hq (List.mem_cons_of_mem _ h)),
      handleEvent_quit _ _ (fun h => hq (h ▸ List.mem_cons_self _ _))]

theorem handleEvent_minimized (st : LoopState) (e : Event) :
    (handleEvent st e).minimized =
      if e.isWindowEvent then decide (e = Event.WINDOW_MINIMIZED) else st.minimized := by
  cases e <;> simp only [handleEvent, Event.isWindowEvent] <;> split_ifs <;> simp_all

/-- The `minimized` flag after a drain: set by the last window-minimized or
window-restored event, kept when there is none. -/
theorem pollEvents_minimized (st : LoopState) (events : List Event) :
    (pollEvents st events).minimized =
      match (events.filter Event.isWindowEvent).getLast? with
      | some e => decide (e = Event.WINDOW_MINIMIZED)
      | none => st.minimized := by
  induction events using List.reverseRecOn with
  | nil => rfl
  | append_singleton es e ih =>
    have hstep : pollEvents st (es ++ [e]) = handleEvent (pollEvents st es) e := by
      simp [pollEvents, List.foldl_append]
    rw [hstep, handleEvent_minimized, ih, List.filter_append]
    by_cases hw : e.isWindowEvent = true
    · simp [hw, List.filter_cons]
    · simp [hw, List.filter_cons]

/-- After a drain starting with `minimized` set, the flag is clear exactly when
the last window-minimized or window-restored event is a window-restored one. -/
theorem pollEvents_minimized_of_set (st : LoopState) (events : List Event)
    (hm : st.minimized = true) :
    (pollEvents st events).minimized = !restoredLast events := by
  rw [pollEvents_minimized, restoredLast]
  have hall : ∀ e ∈ events.filter Event.isWindowEvent,
      e = Event.WINDOW_MINIMIZED ∨ e = Event.WINDOW_RESTORED := by
    intro e he
    have := (List.mem_filter.mp he).2
    cases e <;> simp_all [Event.isWindowEvent]
  cases hlast : (events.filter Event.isWindowEvent).getLast? with
  | none => simp [hm]
  | some e =>
    rcases hall e (List.mem_of_getLast?_eq_some hlast) with h | h <;> subst h <;> simp

theorem render_pass_trace (dev : Device) (context : Context)
    (cmdbuf pipeline texture target : Nat) (clearColor : FColor)
    (buffers : Option RenderBuffers) (matrix postProcessData : Option (List ℚ)) :
    (render_pass dev context cmdbuf pipeline texture target clearColor buffers matrix
        postProcessData).trace =
      dev.trace ++ renderPassCalls context cmdbuf pipeline texture target clearColor buffers
        matrix postProcessData := by
  cases buffers <;> cases matrix <;> cases postProcessData <;>
    simp [render_pass, renderPassCalls, Device.log]

theorem callsOfTick_eq (L : Layout) (st : LoopState) (dev : Device) (inp : TickInput)
    (calls : List Call) (h : (tick L st dev inp).dev.trace = dev.trace ++ calls) :
    callsOfTick L st dev inp = calls := by
  rw [callsOfTick, h, List.drop_left]

/-- A tick that drains a quit event makes no call. -/
theorem tick_of_quit (L : Layout) (st : LoopState) (dev : Device) (inp : TickInput)
    (hq : (pollEvents st inp.events).quit = true) :
    tick L st dev inp = ⟨.exited, pollEvents st inp.events, dev⟩ := by
  simp [tick, hq]

/-- A tick with `minimized` set after the drain only sleeps. -/
theorem tick_of_minimized (L : Layout) (st : LoopState) (dev : Device) (inp : TickInput)
    (hq : (pollEvents st inp.events).quit = false)
    (hm : (pollEvents st inp.events).minimized = true) :
    tick L st dev inp =
      ⟨.running, pollEvents st inp.events, dev.log (.Delay main_delay)⟩ := by
  simp [tick, hq, hm]

/-- The calls of a tick that reaches image acquisition and gets no image, and the
flags it leaves. -/
theorem tick_of_no_image (L : Layout) (st : LoopState) (dev : Device) (inp : TickInput)
    (h : NoImage st inp) :
    callsOfTick L st dev inp =
      uploadCalls st.context.buffersDynamic
        (32 * (main_vertices (pollEvents st inp.events).mouseLeftDown
          (pollEvents st inp.events).lastMouseX (pollEvents st inp.events).lastMouseY).length)
        (4 * (main_indices (pollEvents st inp.events).mouseLeftDown).length)
        inp.uploadCmdBuf ++
      [ Call.AcquireGPUCommandBuffer inp.cmdbuf,
        Call.WaitAndAcquireGPUSwapchainTexture inp.cmdbuf st.context.window,
        Call.CancelGPUCommandBuffer inp.cmdbuf ] ∧
    (tick L st dev inp).status = .running ∧
    (tick L st dev inp).st.minimized = true ∧
    (tick L st dev inp).st.quit = false ∧
    (tick L st dev inp).st.context.window = st.context.window := by
  obtain ⟨hq, hm, hc, ha, hs⟩ := h
  refine ⟨?_, ?_, ?_, ?_, ?_⟩
  · apply callsOfTick_eq
    simp [tick, hq, hm, hc, ha, hs, update_buffers_trace, SDL_AcquireGPUCommandBuffer,
      SDL_WaitAndAcquireGPUSwapchainTexture, SDL_CancelGPUCommandBuffer, Device.log,
      pollEvents_context]
  · simp [tick, hq, hm, hc, ha, hs]
  · simp [tick, hq, hm, hc, ha, hs]
  · simp [tick, hq, hm, hc, ha, hs]
  · simp [tick, hq, hm, hc, ha, hs, pollEvents_context]

/-- The calls of a tick that is neither quit nor minimized after the drain and
acquires a render command buffer start with the upload, the acquisition of the
render command buffer and the attempt to acquire a swapchain image. -/
theorem tick_of_active (L : Layout) (st : LoopState) (dev : Device) (inp : TickInput)
    (hq : (pollEvents st inp.events).quit = false)
    (hm : (pollEvents st inp.events).minimized = false) (hc : inp.cmdbuf ≠ 0) :
    ∃ rest, callsOfTick L st dev inp =
      uploadCalls st.context.buffersDynamic
        (32 * (main_vertices (pollEvents st inp.events).mouseLeftDown
          (pollEvents st inp.events).lastMouseX (pollEvents st inp.events).lastMouseY).length)
        (4 * (main_indices (pollEvents st inp.events).mouseLeftDown).length)
        inp.uploadCmdBuf ++
      [ Call.AcquireGPUCommandBuffer inp.cmdbuf,
        Call.WaitAndAcquireGPUSwapchainTexture inp.cmdbuf st.context.window ] ++ rest := by
  refine ⟨(callsOfTick L st dev inp).drop 12, ?_⟩
  have htake : (callsOfTick L st dev inp).take 12 =
      uploadCalls st.context.buffersDynamic
        (32 * (main_vertices (pollEvents st inp.events).mouseLeftDown
          (pollEvents st inp.events).lastMouseX (pollEvents st inp.events).lastMouseY).length)
        (4 * (main_indices (pollEvents st inp.events).mouseLeftDown).length)
        inp.uploadCmdBuf ++
      [ Call.AcquireGPUCommandBuffer inp.cmdbuf,
        Call.WaitAndAcquireGPUSwapchainTexture inp.cmdbuf st.context.window ] := by
    unfold callsOfTick
    by_cases ha : inp.acquired = true
    · by_cases hs : inp.swapchainTexture = 0
      · simp [tick, hq, hm, hc, ha, hs, update_buffers_trace, SDL_AcquireGPUCommandBuffer,
          SDL_WaitAndAcquireGPUSwapchainTexture, SDL_CancelGPUCommandBuffer, Device.log,
          pollEvents_context, uploadCalls]
      · simp [tick, hq, hm, hc, ha, hs, update_buffers_trace, render_pass_trace,
          SDL_AcquireGPUCommandBuffer, SDL_WaitAndAcquireGPUSwapchainTexture,
          SDL_SubmitGPUCommandBuffer, Device.log, pollEvents_context, uploadCalls]
    · simp [tick, hq, hm, hc, ha, update_buffers_trace, SDL_AcquireGPUCommandBuffer,
        SDL_WaitAndAcquireGPUSwapchainTexture, Device.log, pollEvents_context, uploadCalls]
  rw [← htake, List.take_append_drop]

/-! ## Frame loop: theorems -/

/-- C8: in a tick whose image acquisition yields no swapchain image, the calls are
the upload of `update_buffers`, the acquisition of the render command buffer, the
acquisition attempt and the cancellation of that command buffer; no call begins a
render pass, no call is a draw, and after the upload nothing is submitted. -/
theorem tick_no_image_cancels (L : Layout) (st : LoopState) (dev : Device) (inp : TickInput)
    (h : NoImage st inp) :
    callsOfTick L st dev inp =
      uploadCalls st.context.buffersDynamic
        (32 * (main_vertices (pollEvents st inp.events).mouseLeftDown
          (pollEvents st inp.events).lastMouseX (pollEvents st inp.events).lastMouseY).length)
        (4 * (main_indices (pollEvents st inp.events).mouseLeftDown).length)
        inp.uploadCmdBuf ++
      [ Call.AcquireGPUCommandBuffer inp.cmdbuf,
        Call.WaitAndAcquireGPUSwapchainTexture inp.cmdbuf st.context.window,
        Call.CancelGPUCommandBuffer inp.cmdbuf ] ∧
    (∀ c ∈ callsOfTick L st dev inp, c.isBeginRenderPass = false ∧ c.isDraw = false) ∧
    (∀ c ∈ (callsOfTick L st dev inp).drop 10, c.isSubmit = false) := by
  have hcalls := (tick_of_no_image L st dev inp h).1
  refine ⟨hcalls, ?_, ?_⟩
  · intro c hc
    rw [hcalls] at hc
    simp only [uploadCalls, List.cons_append, List.nil_append, List.mem_cons,
      List.mem_singleton, List.mem_nil_iff, or_false] at hc
    rcases hc with h | h | h | h | h | h | h | h | h | h | h | h | h <;> subst h <;>
      exact ⟨rfl, rfl⟩
  · intro c hc
    rw [hcalls] at hc
    simp only [uploadCalls, List.cons_append, List.nil_append, List.drop_succ_cons,
      List.drop_zero, List.mem_cons, List.mem_singleton, List.mem_nil_iff, or_false] at hc
    rcases hc with h | h | h <;> subst h <;> rfl

/-- Witness of C8: the first tick of `main` with no event pending and no image. -/
theorem tick_no_image_cancels_witness :
    NoImage mainState noImageInput ∧
    callsOfTick demoLayout mainState mainDevice noImageInput =
      [ Call.MapGPUTransferBuffer 3 false, Call.memcpy 0 128, Call.memcpy 128 24,
        Call.UnmapGPUTransferBuffer 3, Call.AcquireGPUCommandBuffer 20,
        Call.BeginGPUCopyPass 20, Call.UploadToGPUBuffer 3 0 1 0 128 false,
        Call.UploadToGPUBuffer 3 128 2 0 24 false, Call.EndGPUCopyPass,
        Call.SubmitGPUCommandBuffer 20, Call.AcquireGPUCommandBuffer 21,
        Call.WaitAndAcquireGPUSwapchainTexture 21 4, Call.CancelGPUCommandBuffer 21 ] :=
  ⟨by decide, (tick_no_image_cancels demoLayout mainState mainDevice noImageInput (by decide)).1⟩

/-- Counterexample to C9: the first tick of `main` gets no image; in the next tick
no event is pending (so no quit event) and an image would be available, yet the
tick acquires no command buffer and attempts no image acquisition: its only call
is the 16 ms delay. -/
theorem tick_after_no_image_sleeps :
    NoImage mainState noImageInput ∧ Event.QUIT ∉ nextInput.events ∧
    callsOfTick demoLayout (tick demoLayout mainState mainDevice noImageInput).st
      (tick demoLayout mainState mainDevice noImageInput).dev nextInput = [Call.Delay 16] := by
  refine ⟨by decide, by decide, ?_⟩
  have h := tick_of_no_image demoLayout mainState mainDevice noImageInput (by decide)
  apply callsOfTick_eq
  rw [tick_of_minimized _ _ _ _ (by rw [pollEvents_quit _ _ (by decide)]; exact h.2.2.2.1)
    (by rw [pollEvents_minimized_of_set _ _ h.2.2.1]; decide)]
  rfl

/-- C9, amended: after a tick whose image acquisition yields no swapchain image,
take a next tick whose drained events contain no quit event and whose render
command buffer acquisition yields a command buffer. If the last window-minimized
or window-restored event among the drained events is a window-restored one, the
tick uploads, acquires a command buffer and attempts to acquire a swapchain image.
If not (in particular when no such event is pending), the tick only sleeps 16 ms:
it acquires no command buffer and attempts no image acquisition. -/
theorem tick_after_no_image (L : Layout) (st : LoopState) (dev : Device)
    (inp next : TickInput) (h : NoImage st inp)
    (hq : Event.QUIT ∉ next.events) (hc : next.cmdbuf ≠ 0) :
    (restoredLast next.events = true →
      ∃ dataSizeVert dataSizeInd rest,
        callsOfTick L (tick L st dev inp).st (tick L st dev inp).dev next =
          uploadCalls (tick L st dev inp).st.context.buffersDynamic dataSizeVert dataSizeInd
            next.uploadCmdBuf ++
          [ Call.AcquireGPUCommandBuffer next.cmdbuf,
            Call.WaitAndAcquireGPUSwapchainTexture next.cmdbuf st.context.window ] ++ rest) ∧
    (restoredLast next.events = false →
      callsOfTick L (tick L st dev inp).st (tick L st dev inp).dev next = [Call.Delay 16]) := by
  obtain ⟨-, -, hmin, hquit, hwin⟩ := tick_of_no_image L st dev inp h
  have hq' : (pollEvents (tick L st dev inp).st next.events).quit = false := by
    rw [pollEvents_quit _ _ hq, hquit]
  have hm' := pollEvents_minimized_of_set (tick L st dev inp).st next.events hmin
  constructor
  · intro hr
    rw [hr] at hm'
    obtain ⟨rest, hrest⟩ := tick_of_active L (tick L st dev inp).st (tick L st dev inp).dev next
      hq' hm' hc
    rw [hwin] at hrest
    exact ⟨_, _, rest, hrest⟩
  · intro hr
    rw [hr] at hm'
    apply callsOfTick_eq
    rw [tick_of_minimized _ _ _ _ hq' hm']
    rfl

/-- Witness of C9, amended: the first tick of `main` gets no image and the next
tick drains a pointer-move and a window-restored event. -/
theorem tick_after_no_image_witness :
    NoImage mainState noImageInput ∧ Event.QUIT ∉ restoredInput.events ∧
    restoredInput.cmdbuf ≠ 0 ∧ restoredLast restoredInput.events = true ∧
    ∃ dataSizeVert dataSizeInd rest,
      callsOfTick demoLayout (tick demoLayout mainState mainDevice noImageInput).st
          (tick demoLayout mainState mainDevice noImageInput).dev restoredInput =
        uploadCalls (tick demoLayout mainState mainDevice noImageInput).st.context.buffersDynamic
          dataSizeVert dataSizeInd restoredInput.uploadCmdBuf ++
        [ Call.AcquireGPUCommandBuffer restoredInput.cmdbuf,
          Call.WaitAndAcquireGPUSwapchainTexture restoredInput.cmdbuf
            mainState.context.window ] ++ rest :=
  ⟨by decide, by decide, by decide, by decide,
    (tick_after_no_image demoLayout mainState mainDevice noImageInput restoredInput
      (by decide) (by decide) (by decide)).1 (by decide)⟩

/-- Counterexample to C10: in the first tick of `main`, with no image acquirable,
the calls of the tick contain a command-buffer submission, the one `update_buffers`
makes for its copy command buffer (handle 20). -/
theorem tick_no_image_has_submission :
    NoImage mainState noImageInput ∧
    Call.SubmitGPUCommandBuffer 20 ∈
      callsOfTick demoLayout mainState mainDevice noImageInput := by
  refine ⟨by decide, ?_⟩
  rw [(tick_of_no_image demoLayout mainState mainDevice noImageInput (by decide)).1]
  simp [uploadCalls, noImageInput]

/-- C10, amended: in a tick in which no swapchain image is acquirable no render
work is submitted. The calls of the tick contain exactly one submission, that of
the copy command buffer of `update_buffers`, as the tenth call, before the render
command buffer is acquired; the calls after it are the acquisition of the render
command buffer, the acquisition attempt and the cancellation, and the cancellation
is the only one. -/
theorem tick_no_image_submissions (L : Layout) (st : LoopState) (dev : Device)
    (inp : TickInput) (h : NoImage st inp) :
    (callsOfTick L st dev inp).filter Call.isSubmit =
      [Call.SubmitGPUCommandBuffer inp.uploadCmdBuf] ∧
    (callsOfTick L st dev inp).get? 9 = some (Call.SubmitGPUCommandBuffer inp.uploadCmdBuf) ∧
    (callsOfTick L st dev inp).drop 10 =
      [ Call.AcquireGPUCommandBuffer inp.cmdbuf,
        Call.WaitAndAcquireGPUSwapchainTexture inp.cmdbuf st.context.window,
        Call.CancelGPUCommandBuffer inp.cmdbuf ] ∧
    (callsOfTick L st dev inp).filter Call.isCancel =
      [Call.CancelGPUCommandBuffer inp.cmdbuf] := by
  rw [(tick_of_no_image L st dev inp h).1]
  refine ⟨?_, ?_, ?_, ?_⟩ <;>
    simp [uploadCalls, List.filter_cons, Call.isSubmit, Call.isCancel]

/-- Witness of C10, amended: the first tick of `main` with no image. -/
theorem tick_no_image_submissions_witness :
    NoImage mainState noImageInput ∧
    (callsOfTick demoLayout mainState mainDevice noImageInput).filter Call.isSubmit =
      [Call.SubmitGPUCommandBuffer 20] :=
  ⟨by decide,
    (tick_no_image_submissions demoLayout mainState mainDevice noImageInput (by decide)).1⟩

/-! ## Rendered ticks: lemmas -/

theorem handleEvent_lastTime (st : LoopState) (e : Event) :
    (handleEvent st e).lastTime = st.lastTime := by
  cases e <;> simp only [handleEvent] <;> split_ifs <;> rfl

theorem pollEvents_lastTime (st : LoopState) (events : List Event) :
    (pollEvents st events).lastTime = st.lastTime := by
  induction events generalizing st with
  | nil => rfl
  | cons e es ih =>
    show (pollEvents (handleEvent st e) es).lastTime = st.lastTime
    rw [ih, handleEvent_lastTime]

/-- The index count `update_buffers` sets in a tick is the number of indices of
the tick's geometry. -/
theorem main_update_indexCount (L : Layout) (st : LoopState) (dev : Device) (inp : TickInput) :
    (main_update L st dev inp).2.indexCount =
      (main_indices (pollEvents st inp.events).mouseLeftDown).length := by
  rw [main_update, update_buffers_snd]
  cases (pollEvents st inp.events).mouseLeftDown <;> rfl

/-- The calls of `update_buffers` in a tick. -/
theorem main_update_trace (L : Layout) (st : LoopState) (dev : Device) (inp : TickInput) :
    (main_update L st dev inp).1.trace =
      dev.trace ++ uploadCalls st.context.buffersDynamic
        (32 * (main_vertices (pollEvents st inp.events).mouseLeftDown
          (pollEvents st inp.events).lastMouseX (pollEvents st inp.events).lastMouseY).length)
        (4 * (main_indices (pollEvents st inp.events).mouseLeftDown).length)
        inp.uploadCmdBuf := by
  rw [main_update, update_buffers_trace]

/-- The calls of a tick that renders, and what it leaves in the loop state. -/
theorem tick_of_rendered (L : Layout) (st : LoopState) (dev : Device) (inp : TickInput)
    (h : Rendered st inp) :
    callsOfTick L st dev inp =
      uploadCalls st.context.buffersDynamic
        (32 * (main_vertices (pollEvents st inp.events).mouseLeftDown
          (pollEvents st inp.events).lastMouseX (pollEvents st inp.events).lastMouseY).length)
        (4 * (main_indices (pollEvents st inp.events).mouseLeftDown).length)
        inp.uploadCmdBuf ++
      [ Call.AcquireGPUCommandBuffer inp.cmdbuf,
        Call.WaitAndAcquireGPUSwapchainTexture inp.cmdbuf st.context.window ] ++
      pass1Calls st.context inp.cmdbuf (main_update L st dev inp).2.indexCount ++
      pass2Calls st.context inp.cmdbuf inp.swapchainTexture
        (st.context.time + ((inp.ticks : ℚ) / 1000 - st.lastTime)) ++
      [ Call.SubmitGPUCommandBuffer inp.cmdbuf ] ∧
    (tick L st dev inp).status = .running ∧
    (tick L st dev inp).st.minimized = false ∧
    (tick L st dev inp).st.quit = false := by
  obtain ⟨hq, hm, hc, ha, hs⟩ := h
  refine ⟨?_, ?_, ?_, ?_⟩
  · apply callsOfTick_eq
    simp [tick, hq, hm, hc, ha, hs, update_buffers_trace, render_pass_trace, renderPassCalls,
      pass1Calls, pass2Calls, main_matrix, main_postProcessData, main_update,
      update_buffers_snd, SDL_AcquireGPUCommandBuffer, SDL_WaitAndAcquireGPUSwapchainTexture,
      SDL_SubmitGPUCommandBuffer, Device.log, pollEvents_context, pollEvents_lastTime]
  · simp [tick, hq, hm, hc, ha, hs]
  · simp [tick, hq, hm, hc, ha, hs]
  · simp [tick, hq, hm, hc, ha, hs]

/-- The clock variables after a tick that is neither quit nor minimized after the
drain, whether or not it goes on to render. -/
theorem tick_time_of_active (L : Layout) (st : LoopState) (dev : Device) (inp : TickInput)
    (hq : (pollEvents st inp.events).quit = false)
    (hm : (pollEvents st inp.events).minimized = false) :
    (tick L st dev inp).st.context.time =
      st.context.time + ((inp.ticks : ℚ) / 1000 - st.lastTime) ∧
    (tick L st dev inp).st.context.deltaTime = (inp.ticks : ℚ) / 1000 - st.lastTime ∧
    (tick L st dev inp).st.lastTime = (inp.ticks : ℚ) / 1000 := by
  by_cases hc : inp.cmdbuf = 0
  · simp [tick, hq, hm, hc, pollEvents_context, pollEvents_lastTime]
  · by_cases ha : inp.acquired = true
    · by_cases hs : inp.swapchainTexture = 0
      · simp [tick, hq, hm, hc, ha, hs, pollEvents_context, pollEvents_lastTime]
      · simp [tick, hq, hm, hc, ha, hs, pollEvents_context, pollEvents_lastTime]
    · simp [tick, hq, hm, hc, ha, pollEvents_context, pollEvents_lastTime]

/-- A tick that is quit or minimized after the drain leaves the clock variables
as they were. -/
theorem tick_time_of_idle (L : Layout) (st : LoopState) (dev : Device) (inp : TickInput)
    (h : (pollEvents st inp.events).quit = true ∨ (pollEvents st inp.events).minimized = true) :
    (tick L st dev inp).st.context.time = st.context.time ∧
    (tick L st dev inp).st.lastTime = st.lastTime := by
  by_cases hq : (pollEvents st inp.events).quit = true
  · rw [tick_of_quit L st dev inp hq]
    exact ⟨by rw [pollEvents_context], pollEvents_lastTime _ _⟩
  · have hq' : (pollEvents st inp.events).quit = false := by simpa using hq
    have hm : (pollEvents st inp.events).minimized = true := h.resolve_left hq
    rw [tick_of_minimized L st dev inp hq' hm]
    exact ⟨by rw [pollEvents_context], pollEvents_lastTime _ _⟩

/-- The calls of a tick whose render command buffer acquisition yields null: the
`assert(cmdbuf)` fails after the upload. -/
theorem tick_of_no_cmdbuf (L : Layout) (st : LoopState) (dev : Device) (inp : TickInput)
    (hq : (pollEvents st inp.events).quit = false)
    (hm : (pollEvents st inp.events).minimized = false) (hc : inp.cmdbuf = 0) :
    callsOfTick L st dev inp =
      uploadCalls st.context.buffersDynamic
        (32 * (main_vertices (pollEvents st inp.events).mouseLeftDown
          (pollEvents st inp.events).lastMouseX (pollEvents st inp.events).lastMouseY).length)
        (4 * (main_indices (pollEvents st inp.events).mouseLeftDown).length)
        inp.uploadCmdBuf ++
      [ Call.AcquireGPUCommandBuffer inp.cmdbuf ] ∧
    (tick L st dev inp).status = .aborted := by
  refine ⟨?_, ?_⟩
  · apply callsOfTick_eq
    simp [tick, hq, hm, hc, update_buffers_trace, SDL_AcquireGPUCommandBuffer, Device.log,
      pollEvents_context]
  · simp [tick, hq, hm, hc]

/-- The calls of a tick whose image acquisition returns false: the assertion on
it fails. -/
theorem tick_of_not_acquired (L : Layout) (st : LoopState) (dev : Device) (inp : TickInput)
    (hq : (pollEvents st inp.events).quit = false)
    (hm : (pollEvents st inp.events).minimized = false) (hc : inp.cmdbuf ≠ 0)
    (ha : inp.acquired = false) :
    callsOfTick L st dev inp =
      uploadCalls st.context.buffersDynamic
        (32 * (main_vertices (pollEvents st inp.events).mouseLeftDown
          (pollEvents st inp.events).lastMouseX (pollEvents st inp.events).lastMouseY).length)
        (4 * (main_indices (pollEvents st inp.events).mouseLeftDown).length)
        inp.uploadCmdBuf ++
      [ Call.AcquireGPUCommandBuffer inp.cmdbuf,
        Call.WaitAndAcquireGPUSwapchainTexture inp.cmdbuf st.context.window ] ∧
    (tick L st dev inp).status = .aborted := by
  refine ⟨?_, ?_⟩
  · apply callsOfTick_eq
    simp [tick, hq, hm, hc, ha, update_buffers_trace, SDL_AcquireGPUCommandBuffer,
      SDL_WaitAndAcquireGPUSwapchainTexture, Device.log, pollEvents_context]
  · simp [tick, hq, hm, hc, ha]

/-- The six ways a tick can go, told apart by what the drain leaves and what the
device hands back. -/
theorem tick_cases (st : LoopState) (inp : TickInput) :
    (pollEvents st inp.events).quit = true ∨
    ((pollEvents st inp.events).quit = false ∧ (pollEvents st inp.events).minimized = true) ∨
    ((pollEvents st inp.events).quit = false ∧ (pollEvents st inp.events).minimized = false ∧
      inp.cmdbuf = 0) ∨
    ((pollEvents st inp.events).quit = false ∧ (pollEvents st inp.events).minimized = false ∧
      inp.cmdbuf ≠ 0 ∧ inp.acquired = false) ∨
    NoImage st inp ∨ Rendered st inp := by
  unfold NoImage Rendered
  cases (pollEvents st inp.events).quit <;> cases (pollEvents st inp.events).minimized <;>
    cases inp.acquired <;> by_cases hc : inp.cmdbuf = 0 <;>
    by_cases hs : inp.swapchainTexture = 0 <;> simp [hc, hs]

/-! ## Rendered ticks: theorems -/

/-- C11: in every tick the two-pass draw is all or nothing on one command buffer.
Either the tick begins exactly two render passes, both on the render command
buffer of the tick, ends both, and its last two calls are the end of the second
pass and the one submission of that command buffer; or it begins no render pass
and submits nothing after the upload. -/
theorem tick_two_passes_or_none (L : Layout) (st : LoopState) (dev : Device)
    (inp : TickInput) :
    ((callsOfTick L st dev inp).filter Call.isBeginRenderPass =
        [ Call.BeginGPURenderPass inp.cmdbuf st.context.texturePostProcess ⟨0, 0, 0, 1⟩
            .CLEAR .STORE,
          Call.BeginGPURenderPass inp.cmdbuf inp.swapchainTexture ⟨0, 0, 0, 1⟩
            .CLEAR .STORE ] ∧
      (callsOfTick L st dev inp).filter Call.isEndRenderPass =
        [Call.EndGPURenderPass, Call.EndGPURenderPass] ∧
      ((callsOfTick L st dev inp).drop 10).filter Call.isSubmit =
        [Call.SubmitGPUCommandBuffer inp.cmdbuf] ∧
      (callsOfTick L st dev inp).drop 25 =
        [Call.EndGPURenderPass, Call.SubmitGPUCommandBuffer inp.cmdbuf]) ∨
    ((callsOfTick L st dev inp).filter Call.isBeginRenderPass = [] ∧
      ((callsOfTick L st dev inp).drop 10).filter Call.isSubmit = []) := by
  rcases tick_cases st inp with h | ⟨hq, hm⟩ | ⟨hq, hm, hc⟩ | ⟨hq, hm, hc, ha⟩ | h | h
  · right
    have : callsOfTick L st dev inp = [] := by
      apply callsOfTick_eq
      rw [tick_of_quit L st dev inp h, List.append_nil]
    rw [this]
    exact ⟨rfl, rfl⟩
  · right
    have : callsOfTick L st dev inp = [Call.Delay main_delay] := by
      apply callsOfTick_eq
      rw [tick_of_minimized L st dev inp hq hm]
      rfl
    rw [this]
    exact ⟨rfl, rfl⟩
  · right
    rw [(tick_of_no_cmdbuf L st dev inp hq hm hc).1]
    constructor <;> simp [uploadCalls, List.filter_cons, Call.isBeginRenderPass, Call.isSubmit]
  · right
    rw [(tick_of_not_acquired L st dev inp hq hm hc ha).1]
    constructor <;> simp [uploadCalls, List.filter_cons, Call.isBeginRenderPass, Call.isSubmit]
  · right
    rw [(tick_of_no_image L st dev inp h).1]
    constructor <;> simp [uploadCalls, List.filter_cons, Call.isBeginRenderPass, Call.isSubmit]
  · left
    rw [(tick_of_rendered L st dev inp h).1]
    refine ⟨?_, ?_, ?_, ?_⟩ <;>
      simp [uploadCalls, pass1Calls, pass2Calls, List.filter_cons, Call.isBeginRenderPass,
        Call.isEndRenderPass, Call.isSubmit]

/-- C12: in a tick that obtains a swapchain image, the calls 13 to 20 are the first
render pass. It targets `texturePostProcess` with clear colour (0,0,0,1), load
operation clear and store operation store, pushes the 16 floats of the projection
matrix (64 bytes) as vertex uniform slot 0 and no fragment uniform, binds the
dynamic pipeline, binds `texture` with the point sampler as the one fragment
sampler, binds the dynamic vertex buffer and the dynamic index buffer with 32-bit
indices, and issues one indexed draw whose index count is the `indexCount` the
`update_buffers` of this tick has set; no render pass is begun before it. -/
theorem tick_first_pass (L : Layout) (st : LoopState) (dev : Device) (inp : TickInput)
    (h : Rendered st inp) :
    ((callsOfTick L st dev inp).drop 12).take 8 =
      [ Call.BeginGPURenderPass inp.cmdbuf st.context.texturePostProcess ⟨0, 0, 0, 1⟩
          .CLEAR .STORE,
        Call.PushGPUVertexUniformData inp.cmdbuf 0 (main_matrix st.context) 64,
        Call.BindGPUGraphicsPipeline st.context.pipelineDynamic,
        Call.BindGPUFragmentSamplers 0 st.context.texture st.context.samplerPoint 1,
        Call.BindGPUVertexBuffers 0 st.context.buffersDynamic.vertex 0 1,
        Call.BindGPUIndexBuffer st.context.buffersDynamic.index 0 32,
        Call.DrawGPUIndexedPrimitives (main_update L st dev inp).2.indexCount 1 0 0 0,
        Call.EndGPURenderPass ] ∧
    (main_matrix st.context).length = 16 ∧
    (tick L st dev inp).st.context.buffersDynamic.indexCount =
      (main_update L st dev inp).2.indexCount ∧
    (∀ c ∈ (callsOfTick L st dev inp).take 12, c.isBeginRenderPass = false) := by
  have hcalls := (tick_of_rendered L st dev inp h).1
  obtain ⟨hq, hm, hc, ha, hs⟩ := h
  refine ⟨?_, rfl, ?_, ?_⟩
  · rw [hcalls]
    simp [uploadCalls, pass1Calls, pass2Calls]
  · simp [tick, hq, hm, hc, ha, hs, main_update, pollEvents_context]
  · intro c hcmem
    rw [hcalls] at hcmem
    simp only [uploadCalls, pass1Calls, List.cons_append, List.nil_append, List.take_succ_cons,
      List.take_zero, List.mem_cons, List.mem_singleton, List.mem_nil_iff, or_false] at hcmem
    rcases hcmem with h | h | h | h | h | h | h | h | h | h | h | h <;> subst h <;> rfl

/-- Witness of C12: the first rendered tick of `main`. -/
theorem tick_first_pass_witness :
    Rendered mainState renderedInput ∧
    ((callsOfTick demoLayout mainState mainDevice renderedInput).drop 12).take 8 =
      [ Call.BeginGPURenderPass 21 10 ⟨0, 0, 0, 1⟩ .CLEAR .STORE,
        Call.PushGPUVertexUniformData 21 0 (main_matrix mainState.context) 64,
        Call.BindGPUGraphicsPipeline 8,
        Call.BindGPUFragmentSamplers 0 6 5 1,
        Call.BindGPUVertexBuffers 0 1 0 1,
        Call.BindGPUIndexBuffer 2 0 32,
        Call.DrawGPUIndexedPrimitives
          (main_update demoLayout mainState mainDevice renderedInput).2.indexCount 1 0 0 0,
        Call.EndGPURenderPass ] :=
  ⟨by decide, (tick_first_pass demoLayout mainState mainDevice renderedInput (by decide)).1⟩

/-- C13: in a tick that obtains a swapchain image, the calls 21 to 26 are the
second render pass. It targets the swapchain image with clear colour (0,0,0,1) and
load operation clear, pushes the four floats (`context.time`, 0.2, 8, 0.1) (16
bytes) as fragment uniform slot 0 and no vertex uniform, binds the post-process
pipeline, binds `texturePostProcess`, the target of the first pass, with the point
sampler as the one fragment sampler, binds no vertex or index buffer and issues
one draw of 6 vertices that is not indexed. -/
theorem tick_second_pass (L : Layout) (st : LoopState) (dev : Device) (inp : TickInput)
    (h : Rendered st inp) :
    ((callsOfTick L st dev inp).drop 20).take 6 =
      [ Call.BeginGPURenderPass inp.cmdbuf inp.swapchainTexture ⟨0, 0, 0, 1⟩ .CLEAR .STORE,
        Call.PushGPUFragmentUniformData inp.cmdbuf 0
          [(tick L st dev inp).st.context.time, 2 / 10, 8, 1 / 10] 16,
        Call.BindGPUGraphicsPipeline st.context.pipelinePostProcess,
        Call.BindGPUFragmentSamplers 0 st.context.texturePostProcess
          st.context.samplerPoint 1,
        Call.DrawGPUPrimitives 6 1 0 0,
        Call.EndGPURenderPass ] ∧
    ((callsOfTick L st dev inp).take 20).filter Call.isBeginRenderPass =
      [ Call.BeginGPURenderPass inp.cmdbuf st.context.texturePostProcess ⟨0, 0, 0, 1⟩
          .CLEAR .STORE ] := by
  have hcalls := (tick_of_rendered L st dev inp h).1
  have htime := (tick_time_of_active L st dev inp h.1 h.2.1).1
  rw [hcalls, htime]
  constructor <;>
    simp [uploadCalls, pass1Calls, pass2Calls, List.filter_cons, Call.isBeginRenderPass]

/-- Witness of C13: the first rendered tick of `main`. -/
theorem tick_second_pass_witness :
    Rendered mainState renderedInput ∧
    ((callsOfTick demoLayout mainState mainDevice renderedInput).take 20).filter
        Call.isBeginRenderPass =
      [ Call.BeginGPURenderPass 21 10 ⟨0, 0, 0, 1⟩ .CLEAR .STORE ] :=
  ⟨by decide, (tick_second_pass demoLayout mainState mainDevice renderedInput (by decide)).2⟩

/-- C14: in a tick that renders, the draws are the indexed draw of pass 1 and the
draw of pass 2, and the index count of the indexed draw is the number of indices
of the geometry of the tick: 6 when the left button is not held after the drain,
12 when it is held. -/
theorem tick_draw_index_count (L : Layout) (st : LoopState) (dev : Device) (inp : TickInput)
    (h : Rendered st inp) :
    (callsOfTick L st dev inp).filter Call.isDraw =
      [ Call.DrawGPUIndexedPrimitives
          (main_indices (pollEvents st inp.events).mouseLeftDown).length 1 0 0 0,
        Call.DrawGPUPrimitives 6 1 0 0 ] ∧
    ((pollEvents st inp.events).mouseLeftDown = false →
      (main_indices (pollEvents st inp.events).mouseLeftDown).length = 6) ∧
    ((pollEvents st inp.events).mouseLeftDown = true →
      (main_indices (pollEvents st inp.events).mouseLeftDown).length = 12) := by
  refine ⟨?_, fun hd => by rw [hd]; rfl, fun hd => by rw [hd]; rfl⟩
  rw [(tick_of_rendered L st dev inp h).1, main_update_indexCount]
  simp [uploadCalls, pass1Calls, pass2Calls, List.filter_cons, Call.isDraw]

/-- Witness of C14: a rendered tick of `main` in which the left button goes down. -/
theorem tick_draw_index_count_witness :
    Rendered mainState renderedInput2 ∧
    (callsOfTick demoLayout mainState mainDevice renderedInput2).filter Call.isDraw =
      [ Call.DrawGPUIndexedPrimitives 12 1 0 0 0, Call.DrawGPUPrimitives 6 1 0 0 ] :=
  ⟨by decide,
    (tick_draw_index_count demoLayout mainState mainDevice renderedInput2 (by decide)).1⟩

/-- The calls of a tick that is neither quit nor minimized after the drain start
with the upload and the acquisition of the render command buffer. -/
theorem tick_upload_first (L : Layout) (st : LoopState) (dev : Device) (inp : TickInput)
    (hq : (pollEvents st inp.events).quit = false)
    (hm : (pollEvents st inp.events).minimized = false) :
    (callsOfTick L st dev inp).take 11 =
      uploadCalls st.context.buffersDynamic
        (32 * (main_vertices (pollEvents st inp.events).mouseLeftDown
          (pollEvents st inp.events).lastMouseX (pollEvents st inp.events).lastMouseY).length)
        (4 * (main_indices (pollEvents st inp.events).mouseLeftDown).length)
        inp.uploadCmdBuf ++
      [ Call.AcquireGPUCommandBuffer inp.cmdbuf ] := by
  by_cases hc : inp.cmdbuf = 0
  · rw [(tick_of_no_cmdbuf L st dev inp hq hm hc).1]
    simp [uploadCalls]
  · obtain ⟨rest, hrest⟩ := tick_of_active L st dev inp hq hm hc
    rw [hrest]
    simp [uploadCalls]

/-- C16: a tick with the minimized flag set after the drain and no quit seen makes
one call only, a delay of 1000/60 = 16 ms: no upload, no command buffer, no render
pass. A tick entered with `quit` clear whose drained events contain no quit event
and whose last window-minimized or window-restored event is a window-restored one
has the flag clear after the drain and takes the upload-and-render path: its first
eleven calls are the upload and the acquisition of the render command buffer. -/
theorem tick_minimized_or_restored (L : Layout) (st : LoopState) (dev : Device)
    (inp : TickInput) :
    ((pollEvents st inp.events).quit = false → (pollEvents st inp.events).minimized = true →
      callsOfTick L st dev inp = [Call.Delay 16] ∧ main_delay = 16 ∧
      (tick L st dev inp).status = .running) ∧
    (st.quit = false → Event.QUIT ∉ inp.events → restoredLast inp.events = true →
      (pollEvents st inp.events).minimized = false ∧
      (callsOfTick L st dev inp).take 11 =
        uploadCalls st.context.buffersDynamic
          (32 * (main_vertices (pollEvents st inp.events).mouseLeftDown
            (pollEvents st inp.events).lastMouseX
            (pollEvents st inp.events).lastMouseY).length)
          (4 * (main_indices (pollEvents st inp.events).mouseLeftDown).length)
          inp.uploadCmdBuf ++
        [ Call.AcquireGPUCommandBuffer inp.cmdbuf ]) := by
  constructor
  · intro hq hm
    refine ⟨?_, rfl, ?_⟩
    · apply callsOfTick_eq
      rw [tick_of_minimized L st dev inp hq hm]
      rfl
    · rw [tick_of_minimized L st dev inp hq hm]
  · intro hq0 hq hr
    have hq' : (pollEvents st inp.events).quit = false := by
      rw [pollEvents_quit _ _ hq, hq0]
    have hm : (pollEvents st inp.events).minimized = false := by
      rw [pollEvents_minimized]
      rw [restoredLast, decide_eq_true_eq] at hr
      rw [hr]
      rfl
    exact ⟨hm, tick_upload_first L st dev inp hq' hm⟩

/-- Witness of C16: after the first tick of `main` got no image (flag set), a tick
with no event pending only sleeps, and a tick that drains a window-restored event
uploads and acquires a render command buffer. -/
theorem tick_minimized_or_restored_witness :
    callsOfTick demoLayout (tick demoLayout mainState mainDevice noImageInput).st
      (tick demoLayout mainState mainDevice noImageInput).dev nextInput = [Call.Delay 16] ∧
    (pollEvents (tick demoLayout mainState mainDevice noImageInput).st
      restoredInput.events).minimized = false :=
  ⟨((tick_minimized_or_restored demoLayout
      (tick demoLayout mainState mainDevice noImageInput).st
      (tick demoLayout mainState mainDevice noImageInput).dev nextInput).1
      (by decide) (by decide)).1,
   ((tick_minimized_or_restored demoLayout
      (tick demoLayout mainState mainDevice noImageInput).st
      (tick demoLayout mainState mainDevice noImageInput).dev restoredInput).2
      (by decide) (by decide) (by decide)).1⟩

/-- C17: in a tick that renders, the first ten calls are those of `update_buffers`,
ending with one copy pass (begin, vertex upload, index upload, end) and the
submission of the copy command buffer; the eleventh call acquires the render
command buffer; no render pass is begun among these eleven calls, and the two
render passes and the submission of the render command buffer come after them. -/
theorem tick_upload_before_render (L : Layout) (st : LoopState) (dev : Device)
    (inp : TickInput) (h : Rendered st inp) :
    (callsOfTick L st dev inp).take 10 =
      [ Call.MapGPUTransferBuffer st.context.buffersDynamic.transfer false,
        Call.memcpy 0 (32 * (main_vertices (pollEvents st inp.events).mouseLeftDown
          (pollEvents st inp.events).lastMouseX (pollEvents st inp.events).lastMouseY).length),
        Call.memcpy (32 * (main_vertices (pollEvents st inp.events).mouseLeftDown
          (pollEvents st inp.events).lastMouseX (pollEvents st inp.events).lastMouseY).length)
          (4 * (main_indices (pollEvents st inp.events).mouseLeftDown).length),
        Call.UnmapGPUTransferBuffer st.context.buffersDynamic.transfer,
        Call.AcquireGPUCommandBuffer inp.uploadCmdBuf,
        Call.BeginGPUCopyPass inp.uploadCmdBuf,
        Call.UploadToGPUBuffer st.context.buffersDynamic.transfer 0
          st.context.buffersDynamic.vertex 0
          (32 * (main_vertices (pollEvents st inp.events).mouseLeftDown
            (pollEvents st inp.events).lastMouseX
            (pollEvents st inp.events).lastMouseY).length) false,
        Call.UploadToGPUBuffer st.context.buffersDynamic.transfer
          (32 * (main_vertices (pollEvents st inp.events).mouseLeftDown
            (pollEvents st inp.events).lastMouseX
            (pollEvents st inp.events).lastMouseY).length)
          st.context.buffersDynamic.index 0
          (4 * (main_indices (pollEvents st inp.events).mouseLeftDown).length) false,
        Call.EndGPUCopyPass,
        Call.SubmitGPUCommandBuffer inp.uploadCmdBuf ] ∧
    ((callsOfTick L st dev inp).drop 10).head? =
      some (Call.AcquireGPUCommandBuffer inp.cmdbuf) ∧
    (∀ c ∈ (callsOfTick L st dev inp).take 11, c.isBeginRenderPass = false) ∧
    ((callsOfTick L st dev inp).drop 11).filter Call.isBeginRenderPass =
      [ Call.BeginGPURenderPass inp.cmdbuf st.context.texturePostProcess ⟨0, 0, 0, 1⟩
          .CLEAR .STORE,
        Call.BeginGPURenderPass inp.cmdbuf inp.swapchainTexture ⟨0, 0, 0, 1⟩
          .CLEAR .STORE ] ∧
    ((callsOfTick L st dev inp).drop 11).filter Call.isSubmit =
      [Call.SubmitGPUCommandBuffer inp.cmdbuf] := by
  have hcalls := (tick_of_rendered L st dev inp h).1
  refine ⟨?_, ?_, ?_, ?_, ?_⟩
  · rw [hcalls]
    simp [uploadCalls]
  · rw [hcalls]
    simp [uploadCalls]
  · intro c hcmem
    rw [tick_upload_first L st dev inp h.1 h.2.1] at hcmem
    simp only [uploadCalls, List.cons_append, List.nil_append, List.mem_cons,
      List.mem_singleton, List.mem_nil_iff, or_false] at hcmem
    rcases hcmem with h | h | h | h | h | h | h | h | h | h | h <;> subst h <;> rfl
  · rw [hcalls]
    simp [uploadCalls, pass1Calls, pass2Calls, List.filter_cons, Call.isBeginRenderPass]
  · rw [hcalls]
    simp [uploadCalls, pass1Calls, pass2Calls, List.filter_cons, Call.isSubmit]

/-- Witness of C17: the first rendered tick of `main`. -/
theorem tick_upload_before_render_witness :
    Rendered mainState renderedInput ∧
    ((callsOfTick demoLayout mainState mainDevice renderedInput).drop 10).head? =
      some (Call.AcquireGPUCommandBuffer 21) :=
  ⟨by decide,
    (tick_upload_before_render demoLayout mainState mainDevice renderedInput (by decide)).2.1⟩

/-! ## Elapsed time: lemmas -/

/-- The time a tick pushes in pass 2: `context.time` as the tick leaves it when the
tick renders, nothing otherwise. -/
theorem pass2Time_eq (L : Layout) (st : LoopState) (dev : Device) (inp : TickInput) :
    pass2Time L st dev inp =
      if Rendered st inp then some (tick L st dev inp).st.context.time else none := by
  rcases tick_cases st inp with h | ⟨hq, hm⟩ | ⟨hq, hm, hc⟩ | ⟨hq, hm, hc, ha⟩ | h | h
  · have hn : ¬ Rendered st inp := fun hr => by simp [hr.1] at h
    have : callsOfTick L st dev inp = [] := by
      apply callsOfTick_eq
      rw [tick_of_quit L st dev inp h, List.append_nil]
    rw [if_neg hn, pass2Time, this]
    rfl
  · have hn : ¬ Rendered st inp := fun hr => by simp [hr.2.1] at hm
    have : callsOfTick L st dev inp = [Call.Delay main_delay] := by
      apply callsOfTick_eq
      rw [tick_of_minimized L st dev inp hq hm]
      rfl
    rw [if_neg hn, pass2Time, this]
    rfl
  · have hn : ¬ Rendered st inp := fun hr => hr.2.2.1 hc
    rw [if_neg hn, pass2Time, (tick_of_no_cmdbuf L st dev inp hq hm hc).1]
    rfl
  · have hn : ¬ Rendered st inp := fun hr => by simp [hr.2.2.2.1] at ha
    rw [if_neg hn, pass2Time, (tick_of_not_acquired L st dev inp hq hm hc ha).1]
    rfl
  · have hn : ¬ Rendered st inp := fun hr => hr.2.2.2.2 h.2.2.2.2
    rw [if_neg hn, pass2Time, (tick_of_no_image L st dev inp h).1]
    rfl
  · rw [if_pos h, pass2Time, (tick_of_rendered L st dev inp h).1,
      (tick_time_of_active L st dev inp h.1 h.2.1).1]
    rfl

/-- Over clock readings that do not decrease, `context.time` does not decrease
along a run that starts with `lastTime` at the reading `c`. -/
theorem afterTicks_time_le (L : Layout) (inputs : List TickInput) :
    ∀ (st : LoopState) (dev : Device) (c : Nat), st.lastTime = (c : ℚ) / 1000 →
      List.Pairwise (· ≤ ·) (c :: inputs.map (fun i => i.ticks)) →
      st.context.time ≤ (afterTicks L st dev inputs).st.context.time := by
  induction inputs with
  | nil => intro st dev c _ _; exact le_refl _
  | cons inp rest ih =>
    intro st dev c hlast hs
    rw [List.map_cons, List.pairwise_cons, List.pairwise_cons] at hs
    obtain ⟨hc, hrest, htail⟩ := hs
    have hstep : st.context.time ≤ (tick L st dev inp).st.context.time ∧
        ∃ c' : Nat, (tick L st dev inp).st.lastTime = (c' : ℚ) / 1000 ∧
          List.Pairwise (· ≤ ·) (c' :: rest.map (fun i => i.ticks)) := by
      by_cases hidle : (pollEvents st inp.events).quit = true ∨
          (pollEvents st inp.events).minimized = true
      · obtain ⟨ht, hl⟩ := tick_time_of_idle L st dev inp hidle
        refine ⟨le_of_eq ht.symm, c, by rw [hl, hlast], ?_⟩
        exact List.pairwise_cons.mpr
          ⟨fun x hx => hc x (List.mem_cons_of_mem _ hx), htail⟩
      · have hq : (pollEvents st inp.events).quit = false := by
          cases hv : (pollEvents st inp.events).quit
          · rfl
          · exact absurd (Or.inl hv) hidle
        have hm : (pollEvents st inp.events).minimized = false := by
          cases hv : (pollEvents st inp.events).minimized
          · rfl
          · exact absurd (Or.inr hv) hidle
        obtain ⟨ht, -, hl⟩ := tick_time_of_active L st dev inp hq hm
        refine ⟨?_, inp.ticks, hl, List.pairwise_cons.mpr ⟨hrest, htail⟩⟩
        rw [ht, hlast]
        have hle : (c : ℚ) ≤ (inp.ticks : ℚ) := by
          exact_mod_cast hc inp.ticks (List.mem_cons_self _ _)
        linarith
    obtain ⟨hle, c', hl', hs'⟩ := hstep
    rw [afterTicks]
    split_ifs with hrun
    · exact le_trans hle (ih _ _ c' hl' hs')
    · exact hle

theorem ClockEq.refl (s : LoopState) : ClockEq s s := ⟨rfl, rfl, rfl, rfl⟩

theorem ClockEq.symm {s s' : LoopState} (h : ClockEq s s') : ClockEq s' s :=
  ⟨h.1.symm, h.2.1.symm, h.2.2.1.symm, h.2.2.2.symm⟩

theorem ClockEq.trans {s s' s'' : LoopState} (h : ClockEq s s') (h' : ClockEq s' s'') :
    ClockEq s s'' :=
  ⟨h.1.trans h'.1, h.2.1.trans h'.2.1, h.2.2.1.trans h'.2.2.1, h.2.2.2.trans h'.2.2.2⟩

theorem handleEvent_clockEq (s s' : LoopState) (e : Event) (h : ClockEq s s') :
    ClockEq (handleEvent s e) (handleEvent s' e) := by
  obtain ⟨hq, hm, hl, ht⟩ := h
  cases e <;> simp only [handleEvent] <;> (try split_ifs) <;>
    exact ⟨by simp [hq], by simp [hm], by simp [hl], by simp [ht]⟩

theorem handleEvent_pointer (s : LoopState) (e : Event) (he : e.isPointer = true) :
    ClockEq (handleEvent s e) s := by
  cases e <;>
    first
    | (simp only [handleEvent]; (try split_ifs) <;> exact ⟨rfl, rfl, rfl, rfl⟩)
    | simp [Event.isPointer] at he

theorem pollEvents_clockEq (events : List Event) :
    ∀ s s' : LoopState, ClockEq s s' → ClockEq (pollEvents s events) (pollEvents s' events) := by
  induction events with
  | nil => intro s s' h; exact h
  | cons e es ih =>
    intro s s' h
    exact ih _ _ (handleEvent_clockEq s s' e h)

/-- Pointer events do not touch the flags and the clock variables. -/
theorem pollEvents_filter_pointer (events : List Event) :
    ∀ s : LoopState,
      ClockEq (pollEvents s events) (pollEvents s (events.filter (fun e => !e.isPointer))) := by
  induction events with
  | nil => intro s; exact ClockEq.refl _
  | cons e es ih =>
    intro s
    by_cases he : e.isPointer = true
    · have hf : (e :: es).filter (fun e => !e.isPointer) = es.filter (fun e => !e.isPointer) := by
        simp [List.filter_cons, he]
      rw [hf]
      exact (pollEvents_clockEq es _ _ (handleEvent_pointer s e he)).trans (ih s)
    · have hf : (e :: es).filter (fun e => !e.isPointer) =
          e :: es.filter (fun e => !e.isPointer) := by
        simp [List.filter_cons, he]
      rw [hf]
      exact ih (handleEvent s e)

/-- Two ticks from states with the same flags and clock variables, on inputs that
differ at most in pointer events, end alike and leave the same flags and clock
variables; one renders exactly when the other does. -/
theorem tick_clockEq (L : Layout) (s s' : LoopState) (dev dev' : Device) (a b : TickInput)
    (h : ClockEq s s') (hab : SameButPointer a b) :
    (tick L s dev a).status = (tick L s' dev' b).status ∧
    ClockEq (tick L s dev a).st (tick L s' dev' b).st ∧
    (Rendered s a ↔ Rendered s' b) := by
  obtain ⟨hev, hticks, hc, ha, hs⟩ := hab
  have hpoll : ClockEq (pollEvents s a.events) (pollEvents s' b.events) := by
    have h1 := pollEvents_filter_pointer a.events s
    have h2 := pollEvents_clockEq (b.events.filter (fun e => !e.isPointer)) s s' h
    have h3 := (pollEvents_filter_pointer b.events s').symm
    rw [hev] at h1
    exact (h1.trans h2).trans h3
  obtain ⟨hq, hm, hl, ht⟩ := hpoll
  rw [pollEvents_lastTime, pollEvents_lastTime] at hl
  rw [pollEvents_context, pollEvents_context] at ht
  have hR : Rendered s a ↔ Rendered s' b := by
    unfold Rendered
    rw [hq, hm, hc, ha, hs]
  refine ⟨?_, ?_, hR⟩
  · cases hq' : (pollEvents s' b.events).quit <;> cases hm' : (pollEvents s' b.events).minimized <;>
      cases ha' : b.acquired <;> by_cases hc' : b.cmdbuf = 0 <;>
      by_cases hs' : b.swapchainTexture = 0 <;>
      simp [tick, hq, hm, hc, ha, hs, hq', hm', ha', hc', hs']
  · unfold ClockEq
    cases hq' : (pollEvents s' b.events).quit <;> cases hm' : (pollEvents s' b.events).minimized <;>
      cases ha' : b.acquired <;> by_cases hc' : b.cmdbuf = 0 <;>
      by_cases hs' : b.swapchainTexture = 0 <;>
      simp [tick, hq, hm, hc, ha, hs, hq', hm', ha', hc', hs', hl, ht, hticks,
        pollEvents_lastTime, pollEvents_context]

/-- Two runs from states with the same flags and clock variables, over inputs that
tick by tick differ at most in pointer events, end alike. -/
theorem afterTicks_clockEq (L : Layout) (inputs inputs' : List TickInput)
    (h : List.Forall₂ SameButPointer inputs inputs') :
    ∀ (s s' : LoopState) (dev dev' : Device), ClockEq s s' →
      (afterTicks L s dev inputs).status = (afterTicks L s' dev' inputs').status ∧
      ClockEq (afterTicks L s dev inputs).st (afterTicks L s' dev' inputs').st := by
  induction h with
  | nil => intro s s' dev dev' hs; exact ⟨rfl, hs⟩
  | cons hab _ ih =>
    intro s s' dev dev' hs
    obtain ⟨hst, hce, -⟩ := tick_clockEq L s s' dev dev' _ _ hs hab
    rw [afterTicks, afterTicks, hst]
    split_ifs with hrun
    · exact ih _ _ _ _ hce
    · exact ⟨hst, hce⟩

/-! ## Elapsed time: theorems -/

/-- C15, over exact rationals. First part: take a rendered tick `a`, then any run
of ticks `mid` that keeps the loop running, then a rendered tick `b` whose delta
time is positive; when the clock readings of `a` and `mid` do not decrease (the
clock is monotonic), the first component of the pass-2 fragment uniform pushed in
`b` is strictly greater than the one pushed in `a`. Second part: for two runs from
the same state whose inputs tick by tick have the same clock readings and differ
at most in pointer-move and pointer-button events, the value pushed by a next tick
is the same. -/
theorem pass2_time_increases (L : Layout) (st : LoopState) (dev : Device) :
    (∀ (a : TickInput) (mid : List TickInput) (b : TickInput),
      Rendered st a →
      (afterTicks L (tick L st dev a).st (tick L st dev a).dev mid).status = .running →
      Rendered (afterTicks L (tick L st dev a).st (tick L st dev a).dev mid).st b →
      List.Pairwise (· ≤ ·) (a.ticks :: mid.map (fun i => i.ticks)) →
      0 < (tick L (afterTicks L (tick L st dev a).st (tick L st dev a).dev mid).st
            (afterTicks L (tick L st dev a).st (tick L st dev a).dev mid).dev
            b).st.context.deltaTime →
      ∃ ta tb, pass2Time L st dev a = some ta ∧
        pass2Time L (afterTicks L (tick L st dev a).st (tick L st dev a).dev mid).st
          (afterTicks L (tick L st dev a).st (tick L st dev a).dev mid).dev b = some tb ∧
        ta < tb) ∧
    (∀ (dev' : Device) (inputs inputs' : List TickInput) (b b' : TickInput),
      List.Forall₂ SameButPointer inputs inputs' → SameButPointer b b' →
      pass2Time L (afterTicks L st dev inputs).st (afterTicks L st dev inputs).dev b =
        pass2Time L (afterTicks L st dev' inputs').st (afterTicks L st dev' inputs').dev b') := by
  constructor
  · intro a mid b ha _ hb hclock hdelta
    refine ⟨_, _, by rw [pass2Time_eq, if_pos ha], by rw [pass2Time_eq, if_pos hb], ?_⟩
    have hmono := afterTicks_time_le L mid (tick L st dev a).st (tick L st dev a).dev a.ticks
      (tick_time_of_active L st dev a ha.1 ha.2.1).2.2 hclock
    obtain ⟨ht, hd, -⟩ := tick_time_of_active L _ (afterTicks L (tick L st dev a).st
      (tick L st dev a).dev mid).dev b hb.1 hb.2.1
    rw [hd] at hdelta
    rw [ht]
    linarith
  · intro dev' inputs inputs' b b' hin hb
    obtain ⟨-, hce⟩ := afterTicks_clockEq L inputs inputs' hin st st dev dev' (ClockEq.refl st)
    obtain ⟨-, hce', hR⟩ := tick_clockEq L _ _ (afterTicks L st dev inputs).dev
      (afterTicks L st dev' inputs').dev b b' hce hb
    rw [pass2Time_eq, pass2Time_eq]
    by_cases hr : Rendered (afterTicks L st dev inputs).st b
    · rw [if_pos hr, if_pos (hR.mp hr), hce'.2.2.2]
    · rw [if_neg hr, if_neg (fun h => hr (hR.mpr h))]

/-- Witness of C15: in `main`, a rendered tick at clock reading 1000 directly
followed by a rendered tick at 1016; and the second tick with or without its
pointer events. -/
theorem pass2_time_increases_witness :
    (∃ ta tb, pass2Time demoLayout mainState mainDevice renderedInput = some ta ∧
      pass2Time demoLayout
        (afterTicks demoLayout (tick demoLayout mainState mainDevice renderedInput).st
          (tick demoLayout mainState mainDevice renderedInput).dev []).st
        (afterTicks demoLayout (tick demoLayout mainState mainDevice renderedInput).st
          (tick demoLayout mainState mainDevice renderedInput).dev []).dev
        renderedInput2 = some tb ∧ ta < tb) ∧
    pass2Time demoLayout (afterTicks demoLayout mainState mainDevice [renderedInput]).st
        (afterTicks demoLayout mainState mainDevice [renderedInput]).dev renderedInput2 =
      pass2Time demoLayout (afterTicks demoLayout mainState mainDevice [renderedInput]).st
        (afterTicks demoLayout mainState mainDevice [renderedInput]).dev renderedInput3 :=
  ⟨(pass2_time_increases demoLayout mainState mainDevice).1 renderedInput [] renderedInput2
      (by decide) rfl (by decide) (by simp)
      (by
        rw [(tick_time_of_active demoLayout _ _ renderedInput2 (by decide) (by decide)).2.1]
        show (0 : ℚ) < ((1016 : Nat) : ℚ) / 1000 -
          (tick demoLayout mainState mainDevice renderedInput).st.lastTime
        rw [(tick_time_of_active demoLayout _ _ renderedInput (by decide) (by decide)).2.2]
        show (0 : ℚ) < ((1016 : Nat) : ℚ) / 1000 - ((1000 : Nat) : ℚ) / 1000
        norm_num),
   (pass2_time_increases demoLayout mainState mainDevice).2 mainDevice [renderedInput]
      [renderedInput] renderedInput2 renderedInput3
      (List.Forall₂.cons (by decide) List.Forall₂.nil) (by decide)⟩

/-! ## Startup: theorems -/

open SDL

/-- C18 on the code: when the shader file cannot be loaded, `shader_load` of
AdvancedGPU and of MinimalGPU abort right after `SDL_LoadFile`, before any shader
is created, and return nothing. `shader_load` of AndroidGPU does not: with
`SDL_IOFromFile` returning null it logs, goes on, calls `SDL_CreateGPUShader` with
the size `SDL_TellIO` gave and the buffer read from no file, and returns the handle
it gets. With `SDL_TellIO` returning -1, `SDL_malloc` failing and the creation
returning null, it returns null after the twelve calls listed. -/
theorem shader_load_missing_file :
    (∀ (files : String → Option (List Nat)) (create : ShaderCreateInfo → Nat)
        (basePath shaderFilename : String) (stage : ShaderStage)
        (samplerCount uniformCount : Nat),
      files (fullPath basePath shaderFilename) = none →
      shader_load files create basePath shaderFilename stage samplerCount uniformCount =
        ([SetupCall.LoadFile (fullPath basePath shaderFilename)], none)) ∧
    (∀ (files : String → Option (List Nat)) (create : ShaderCreateInfo → Nat)
        (basePath shaderFilename : String) (stage : ShaderStage),
      files (fullPath basePath shaderFilename) = none →
      MinimalGPU.shader_load files create basePath shaderFilename stage =
        ([SetupCall.LoadFile (fullPath basePath shaderFilename)], none)) ∧
    (∀ (told : Int) (allocated : Bool) (create : ShaderCreateInfo → Nat)
        (shaderFilename : String) (stage : ShaderStage) (samplerCount uniformCount : Nat),
      (AndroidGPU.shader_load none told allocated create shaderFilename stage samplerCount
          uniformCount).2 =
        some (create
          { code_size := (told % (2 ^ 64 : Int)).toNat,
            code := if allocated then some [] else none,
            entrypoint := "main", format := .SPIRV, stage := stage,
            num_samplers := samplerCount, num_storage_textures := 0,
            num_storage_buffers := 0, num_uniform_buffers := uniformCount }) ∧
      (AndroidGPU.shader_load none told allocated create shaderFilename stage samplerCount
          uniformCount).1.filter SetupCall.isCreateShader =
        [ SetupCall.CreateGPUShader
          { code_size := (told % (2 ^ 64 : Int)).toNat,
            code := if allocated then some [] else none,
            entrypoint := "main", format := .SPIRV, stage := stage,
            num_samplers := samplerCount, num_storage_textures := 0,
            num_storage_buffers := 0, num_uniform_buffers := uniformCount } ]) ∧
    AndroidGPU.shader_load none (-1) false (fun _ => 0) "vert.spv" .VERTEX 0 1 =
      ( [ SetupCall.OpenFile "vert.spv" "rb",
          SetupCall.LogError "Couldn't load the shader file (%s)",
          SetupCall.SeekEnd, SetupCall.Tell, SetupCall.SeekSet,
          SetupCall.malloc 18446744073709551615,
          SetupCall.LogError "Couldn't load the shader code (%s)",
          SetupCall.ReadFile 18446744073709551615, SetupCall.CloseFile,
          SetupCall.CreateGPUShader
            { code_size := 18446744073709551615, code := none, entrypoint := "main",
              format := .SPIRV, stage := .VERTEX, num_samplers := 0,
              num_storage_textures := 0, num_storage_buffers := 0,
              num_uniform_buffers := 1 },
          SetupCall.LogError "Create GPU shader failed (%s)",
          SetupCall.free ],
        some 0 ) := by
  refine ⟨?_, ?_, ?_, ?_⟩
  · intro files create basePath shaderFilename stage samplerCount uniformCount h
    simp [shader_load, h]
  · intro files create basePath shaderFilename stage h
    simp [MinimalGPU.shader_load, h]
  · intro told allocated create shaderFilename stage samplerCount uniformCount
    cases allocated <;> constructor <;>
      simp [AndroidGPU.shader_load, List.filter_cons, SetupCall.isCreateShader] <;>
      split_ifs <;> simp [List.filter_cons, SetupCall.isCreateShader]
  · rfl

/-- C19: `create_pipeline` returns exactly when `SDL_CreateGPUGraphicsPipeline`
yields a handle that is not null, and a null handle aborts. When it returns, the
result is that handle; the one pipeline it created has triangle-list topology and
fill mode fill and is made of the two shaders passed in; the last two calls release
the vertex shader and the fragment shader, these are the only releases, they come
after the creation, and no call follows them; with two distinct shaders each is
released exactly once. -/
theorem create_pipeline_returns (context : Context) (shaderVertex shaderFragment : Nat)
    (vertexBufferDescArray : List VertexBufferDescription) (vertexBufferDescCount : Nat)
    (vertexAttribArray : List VertexAttribute) (vertexAttribCount : Nat)
    (format : Nat) (error : String) (result : Nat) :
    ((create_pipeline context shaderVertex shaderFragment vertexBufferDescArray
        vertexBufferDescCount vertexAttribArray vertexAttribCount format error result).2.isSome
      ↔ result ≠ 0) ∧
    (result = 0 →
      (create_pipeline context shaderVertex shaderFragment vertexBufferDescArray
        vertexBufferDescCount vertexAttribArray vertexAttribCount format error result).2
        = none) ∧
    (result ≠ 0 →
      (create_pipeline context shaderVertex shaderFragment vertexBufferDescArray
        vertexBufferDescCount vertexAttribArray vertexAttribCount format error result).2
        = some result ∧
      (∃ logged,
        (create_pipeline context shaderVertex shaderFragment vertexBufferDescArray
          vertexBufferDescCount vertexAttribArray vertexAttribCount format error result).1 =
        [ SetupCall.GetGPUSwapchainTextureFormat context.window,
          SetupCall.CreateGPUGraphicsPipeline
            { vertex_shader := shaderVertex, fragment_shader := shaderFragment,
              vertex_buffer_descriptions := vertexBufferDescArray,
              num_vertex_buffers := vertexBufferDescCount,
              vertex_attributes := vertexAttribArray,
              num_vertex_attributes := vertexAttribCount,
              primitive_type := .TRIANGLELIST, fill_mode := .FILL,
              color_target_formats := [format], num_color_targets := 1 } ] ++
        logged ++
        [ SetupCall.ReleaseGPUShader shaderVertex,
          SetupCall.ReleaseGPUShader shaderFragment ] ∧
        (logged = [] ∨ logged = [SetupCall.GetError, SetupCall.Log error])) ∧
      (create_pipeline context shaderVertex shaderFragment vertexBufferDescArray
        vertexBufferDescCount vertexAttribArray vertexAttribCount format error
        result).1.filter SetupCall.isReleaseShader =
        [ SetupCall.ReleaseGPUShader shaderVertex,
          SetupCall.ReleaseGPUShader shaderFragment ] ∧
      (shaderVertex ≠ shaderFragment →
        (create_pipeline context shaderVertex shaderFragment vertexBufferDescArray
          vertexBufferDescCount vertexAttribArray vertexAttribCount format error
          result).1.count (SetupCall.ReleaseGPUShader shaderVertex) = 1 ∧
        (create_pipeline context shaderVertex shaderFragment vertexBufferDescArray
          vertexBufferDescCount vertexAttribArray vertexAttribCount format error
          result).1.count (SetupCall.ReleaseGPUShader shaderFragment) = 1)) := by
  refine ⟨?_, ?_, ?_⟩
  · by_cases hr : result = 0 <;> simp [create_pipeline, hr]
  · intro hr
    simp [create_pipeline, hr]
  · intro hr
    refine ⟨by simp [create_pipeline, hr], ?_, ?_, ?_⟩
    · by_cases hd : context.pipelineDynamic = 0
      · exact ⟨[SetupCall.GetError, SetupCall.Log error], by simp [create_pipeline, hr, hd],
          Or.inr rfl⟩
      · exact ⟨[], by simp [create_pipeline, hr, hd], Or.inl rfl⟩
    · by_cases hd : context.pipelineDynamic = 0 <;>
        simp [create_pipeline, hr, hd, List.filter_cons, SetupCall.isReleaseShader]
    · intro hne
      have hne' : shaderFragment ≠ shaderVertex := fun h => hne h.symm
      by_cases hd : context.pipelineDynamic = 0 <;>
        simp [create_pipeline, hr, hd, List.count_cons, hne, hne']

/-- C20: `create_buffers` with two distinct buffer handles gives the GPU vertex
buffer `maxSizeVertex` bytes, the GPU index buffer `maxSizeIndex` bytes and the
staging buffer their 32-bit sum, which is `maxSizeVertex + maxSizeIndex` when that
is below 2^32. With `maxQuadCount = 4096` the three sizes are 524288, 98304 and
622592 = 524288 + 98304, without wrap-around. For every quad count q up to 4096, a
batch of 128 q vertex bytes and 24 q index bytes fits the two GPU buffers of
`main` and its 152 q staging bytes fit the staging buffer; the batches of `main`
are those for q = 1 and q = 2. -/
theorem create_buffers_capacities (dev : Device)
    (maxSizeVertex maxSizeIndex vertex index transfer : Nat) (hne : vertex ≠ index) :
    (((create_buffers dev maxSizeVertex maxSizeIndex vertex index transfer).1.buffers
        (create_buffers dev maxSizeVertex maxSizeIndex vertex index transfer).2.vertex).length
      = maxSizeVertex ∧
    ((create_buffers dev maxSizeVertex maxSizeIndex vertex index transfer).1.buffers
        (create_buffers dev maxSizeVertex maxSizeIndex vertex index transfer).2.index).length
      = maxSizeIndex ∧
    ((create_buffers dev maxSizeVertex maxSizeIndex vertex index transfer).1.transfers
        (create_buffers dev maxSizeVertex maxSizeIndex vertex index transfer).2.transfer).length
      = (maxSizeVertex + maxSizeIndex) % 2 ^ 32 ∧
    (maxSizeVertex + maxSizeIndex < 2 ^ 32 →
      ((create_buffers dev maxSizeVertex maxSizeIndex vertex index transfer).1.transfers
        (create_buffers dev maxSizeVertex maxSizeIndex vertex index transfer).2.transfer).length
      = maxSizeVertex + maxSizeIndex)) ∧
    ((mainDevice.buffers mainBuffers.vertex).length = 524288 ∧
      (mainDevice.buffers mainBuffers.index).length = 98304 ∧
      (mainDevice.transfers mainBuffers.transfer).length = 622592 ∧
      32 * 4 * 4096 = 524288 ∧ 4 * 6 * 4096 = 98304 ∧
      524288 + 98304 = 622592 ∧ 622592 < 2 ^ 32) ∧
    (∀ q, q ≤ 4096 →
      128 * q ≤ (mainDevice.buffers mainBuffers.vertex).length ∧
      24 * q ≤ (mainDevice.buffers mainBuffers.index).length ∧
      128 * q + 24 * q = 152 * q ∧
      152 * q ≤ (mainDevice.transfers mainBuffers.transfer).length) ∧
    (∀ (mouseLeftDown : Bool) (x y : ℚ),
      (32 * (main_vertices mouseLeftDown x y).length = 128 * (if mouseLeftDown then 2 else 1) ∧
        4 * (main_indices mouseLeftDown).length = 24 * (if mouseLeftDown then 2 else 1)) ∧
      32 * (main_vertices mouseLeftDown x y).length ≤
        (mainDevice.buffers mainBuffers.vertex).length ∧
      4 * (main_indices mouseLeftDown).length ≤
        (mainDevice.buffers mainBuffers.index).length ∧
      32 * (main_vertices mouseLeftDown x y).length + 4 * (main_indices mouseLeftDown).length ≤
        (mainDevice.transfers mainBuffers.transfer).length) := by
  have hl := mainDevice_lengths
  have hv : mainBuffers.vertex = 1 := rfl
  have hi : mainBuffers.index = 2 := rfl
  have ht : mainBuffers.transfer = 3 := rfl
  rw [hv, hi, ht, hl.1, hl.2.1, hl.2.2]
  have hne' : ¬ index = vertex := fun h => hne h.symm
  refine ⟨⟨?_, ?_, ?_, ?_⟩, ⟨rfl, rfl, rfl, by decide, by decide, by decide, by decide⟩, ?_, ?_⟩
  · simp only [create_buffers, setRegion, if_neg hne, if_true, List.length_replicate]
  · simp only [create_buffers, setRegion, if_true, List.length_replicate]
  · simp only [create_buffers, setRegion, if_true, List.length_replicate]
  · intro hlt
    simp only [create_buffers, setRegion, if_true, List.length_replicate]
    exact Nat.mod_eq_of_lt hlt
  · intro q hq
    omega
  · intro mouseLeftDown x y
    cases mouseLeftDown <;> simp [main_vertices, main_indices]

/-- Witness of C20: the `create_buffers` call of `main`, handles 1, 2 and 3. -/
theorem create_buffers_capacities_witness :
    (1 : Nat) ≠ 2 ∧
    ((create_buffers emptyDevice 524288 98304 1 2 3).1.transfers
        (create_buffers emptyDevice 524288 98304 1 2 3).2.transfer).length
      = (524288 + 98304) % 2 ^ 32 :=
  ⟨by decide,
    (create_buffers_capacities emptyDevice 524288 98304 1 2 3 (by decide)).1.2.2.1⟩

/-! ## Pointer state: theorems -/

theorem handleEvent_mouseLeftDown (st : LoopState) (e : Event) :
    (handleEvent st e).mouseLeftDown = lastButtonIsDown [e] st.mouseLeftDown := by
  cases e with
  | MOUSE_BUTTON_DOWN button =>
    by_cases hb : button = 1 <;>
      simp [handleEvent, lastButtonIsDown, Event.isLeftButton, List.filter_cons, hb]
  | MOUSE_BUTTON_UP button =>
    by_cases hb : button = 1 <;>
      simp [handleEvent, lastButtonIsDown, Event.isLeftButton, List.filter_cons, hb]
  | _ => rfl

theorem lastButtonIsDown_append (es : List Event) (e : Event) (init : Bool) :
    lastButtonIsDown (es ++ [e]) init = lastButtonIsDown [e] (lastButtonIsDown es init) := by
  unfold lastButtonIsDown
  rw [List.filter_append]
  by_cases he : e.isLeftButton = true
  · cases e <;> simp_all [List.filter_cons, Event.isLeftButton]
  · simp [List.filter_cons, he]

theorem pollEvents_mouseLeftDown (st : LoopState) (events : List Event) :
    (pollEvents st events).mouseLeftDown = lastButtonIsDown events st.mouseLeftDown := by
  induction events using List.reverseRecOn with
  | nil => rfl
  | append_singleton es e ih =>
    have hstep : pollEvents st (es ++ [e]) = handleEvent (pollEvents st es) e := by
      simp [pollEvents, List.foldl_append]
    rw [hstep, handleEvent_mouseLeftDown, ih, lastButtonIsDown_append]

theorem handleEvent_lastMouse (st : LoopState) (e : Event) :
    ((handleEvent st e).lastMouseX, (handleEvent st e).lastMouseY) =
      lastMotion [e] (st.lastMouseX, st.lastMouseY) := by
  cases e <;> simp only [handleEvent] <;> (try split_ifs) <;> rfl

theorem lastMotion_append (es : List Event) (e : Event) (init : ℚ × ℚ) :
    lastMotion (es ++ [e]) init = lastMotion [e] (lastMotion es init) := by
  unfold lastMotion
  rw [List.filter_append]
  by_cases he : e.isMotion = true
  · cases e <;> simp_all [List.filter_cons, Event.isMotion]
  · simp [List.filter_cons, he]

theorem pollEvents_lastMouse (st : LoopState) (events : List Event) :
    ((pollEvents st events).lastMouseX, (pollEvents st events).lastMouseY) =
      lastMotion events (st.lastMouseX, st.lastMouseY) := by
  induction events using List.reverseRecOn with
  | nil => rfl
  | append_singleton es e ih =>
    have hstep : pollEvents st (es ++ [e]) = handleEvent (pollEvents st es) e := by
      simp [pollEvents, List.foldl_append]
    rw [hstep, handleEvent_lastMouse, ih, lastMotion_append]

/-- C23: after a drain of any finite sequence of events, the pointer-down flag is
true exactly when the most recent button-down or button-up event of button 1 was a
button-down (it keeps its value when there is none, and events of another button
never change it), and the last pointer position is that of the most recent
pointer-move event, whether the button is held or not; from button not held and
position (0,0), with no such event the flag is false and the position (0,0). -/
theorem pollEvents_pointer (st : LoopState) (events : List Event) :
    (pollEvents st events).mouseLeftDown = lastButtonIsDown events st.mouseLeftDown ∧
    ((pollEvents st events).lastMouseX, (pollEvents st events).lastMouseY) =
      lastMotion events (st.lastMouseX, st.lastMouseY) ∧
    (∀ button, button ≠ 1 →
      (handleEvent st (Event.MOUSE_BUTTON_DOWN button)).mouseLeftDown = st.mouseLeftDown ∧
      (handleEvent st (Event.MOUSE_BUTTON_UP button)).mouseLeftDown = st.mouseLeftDown) ∧
    (∀ x y, (handleEvent st (Event.MOUSE_MOTION x y)).lastMouseX = x ∧
      (handleEvent st (Event.MOUSE_MOTION x y)).lastMouseY = y ∧
      (handleEvent st (Event.MOUSE_MOTION x y)).mouseLeftDown = st.mouseLeftDown) ∧
    (pollEvents mainState events).mouseLeftDown = lastButtonIsDown events false ∧
    ((pollEvents mainState events).lastMouseX, (pollEvents mainState events).lastMouseY) =
      lastMotion events (0, 0) := by
  refine ⟨pollEvents_mouseLeftDown st events, pollEvents_lastMouse st events, ?_, ?_,
    pollEvents_mouseLeftDown mainState events, pollEvents_lastMouse mainState events⟩
  · intro button hb
    simp [handleEvent, hb]
  · intro x y
    exact ⟨rfl, rfl, rfl⟩

/-! ## Frame bytes, vertex layout, projection: theorems -/

/-- The memory a tick that is neither quit nor minimized after the drain leaves is
the memory its `update_buffers` leaves. -/
theorem tick_mem_of_active (L : Layout) (st : LoopState) (dev : Device) (inp : TickInput)
    (hq : (pollEvents st inp.events).quit = false)
    (hm : (pollEvents st inp.events).minimized = false) :
    (tick L st dev inp).dev.transfers = (main_update L st dev inp).1.transfers ∧
    (tick L st dev inp).dev.buffers = (main_update L st dev inp).1.buffers := by
  by_cases hc : inp.cmdbuf = 0
  · simp [tick, hq, hm, hc, main_update, pollEvents_context, SDL_AcquireGPUCommandBuffer,
      Device.log]
  · by_cases ha : inp.acquired = true
    · by_cases hs : inp.swapchainTexture = 0
      · simp [tick, hq, hm, hc, ha, hs, main_update, pollEvents_context,
          SDL_AcquireGPUCommandBuffer, SDL_WaitAndAcquireGPUSwapchainTexture,
          SDL_CancelGPUCommandBuffer, Device.log]
      · simp [tick, hq, hm, hc, ha, hs, main_update, pollEvents_context, render_pass,
          SDL_AcquireGPUCommandBuffer, SDL_WaitAndAcquireGPUSwapchainTexture,
          SDL_SubmitGPUCommandBuffer, Device.log]
    · simp [tick, hq, hm, hc, ha, main_update, pollEvents_context,
        SDL_AcquireGPUCommandBuffer, SDL_WaitAndAcquireGPUSwapchainTexture, Device.log]

/-- C21: the byte strings a tick generates depend only on the pointer-down flag and
the last pointer position the drain leaves. Two ticks that agree on these three
generate the same vertex bytes and the same index bytes, whatever their loop
states (elapsed time, delta time, flags, contents of the buffers) and their other
inputs are; and these strings are what the tick hands to `update_buffers`, whose
memory effect is the memory effect of the tick. -/
theorem tickBatch_deterministic (L : Layout) (st st' : LoopState) (dev : Device)
    (inp inp' : TickInput)
    (hd : (pollEvents st inp.events).mouseLeftDown = (pollEvents st' inp'.events).mouseLeftDown)
    (hx : (pollEvents st inp.events).lastMouseX = (pollEvents st' inp'.events).lastMouseX)
    (hy : (pollEvents st inp.events).lastMouseY = (pollEvents st' inp'.events).lastMouseY) :
    tickBatch L st inp = tickBatch L st' inp' ∧
    main_update L st dev inp =
      update_buffers dev st.context.buffersDynamic
        (tickBatch L st inp).1
        (32 * (main_vertices (pollEvents st inp.events).mouseLeftDown
          (pollEvents st inp.events).lastMouseX (pollEvents st inp.events).lastMouseY).length)
        (tickBatch L st inp).2
        (4 * (main_indices (pollEvents st inp.events).mouseLeftDown).length)
        inp.uploadCmdBuf ∧
    ((pollEvents st inp.events).quit = false → (pollEvents st inp.events).minimized = false →
      (tick L st dev inp).dev.transfers = (main_update L st dev inp).1.transfers ∧
      (tick L st dev inp).dev.buffers = (main_update L st dev inp).1.buffers) := by
  refine ⟨?_, rfl, tick_mem_of_active L st dev inp⟩
  simp only [tickBatch, hd, hx, hy]

/-- Witness of C21: in `main`, a tick at clock reading 2000 in which the button
goes down and the pointer moves to (100, 100), and a tick at 9000 from the state the
first tick leaves, draining one more move to (100, 100). -/
theorem tickBatch_deterministic_witness :
    tickBatch demoLayout mainState heldInput =
      tickBatch demoLayout (tick demoLayout mainState mainDevice heldInput).st heldInput2 :=
  (tickBatch_deterministic demoLayout mainState
    (tick demoLayout mainState mainDevice heldInput).st mainDevice heldInput heldInput2
    (by decide) (by decide) (by decide)).1

/-- C27: the vertex layout of the dynamic pipeline matches `Vertex`. The pitch is
32 = `sizeof(Vertex)`; the attributes at locations 0, 1, 2 are 2 floats at offset
0, 2 floats at offset 8 and 4 floats at offset 16, that is the byte ranges [0,8),
[8,16), [16,32) of the fields (x,y), (u,v), (r,g,b,a); every byte below 32 lies in
exactly one of them and none reaches past 32; with 4-byte floats the bytes of a
vertex are 32 and its three ranges hold those fields; AndroidGPU declares the same
two arrays. -/
theorem dynamic_vertex_layout :
    dynamic_vertexBufferDescArray = [⟨0, 32, .VERTEX, 0⟩] ∧ sizeof_Vertex = 32 ∧
    dynamic_vertexAttribArray.map
        (fun a => (a.location, a.buffer_slot, a.format, a.offset, a.offset + a.format.size)) =
      [ (0, 0, .FLOAT2, 0, 8), (1, 0, .FLOAT2, 8, 16), (2, 0, .FLOAT4, 16, 32) ] ∧
    (VertexField.x.offset = 0 ∧ VertexField.y.offset + 4 = 8 ∧
      VertexField.u.offset = 8 ∧ VertexField.v.offset + 4 = 16 ∧
      VertexField.r.offset = 16 ∧ VertexField.g.offset = 20 ∧ VertexField.b.offset = 24 ∧
      VertexField.a.offset + 4 = 32) ∧
    (∀ byte, byte < 32 →
      (dynamic_vertexAttribArray.filter (fun a => a.covers byte)).length = 1) ∧
    (∀ byte, 32 ≤ byte → dynamic_vertexAttribArray.filter (fun a => a.covers byte) = []) ∧
    (∀ (L : Layout) (p : Vertex), (∀ q, (L.floatBytes q).length = 4) →
      (L.vertexBytes p).length = 32 ∧
      ((L.vertexBytes p).drop 0).take 8 = L.floatBytes p.x ++ L.floatBytes p.y ∧
      ((L.vertexBytes p).drop 8).take 8 = L.floatBytes p.u ++ L.floatBytes p.v ∧
      ((L.vertexBytes p).drop 16).take 16 =
        L.floatBytes p.r ++ L.floatBytes p.g ++ L.floatBytes p.b ++ L.floatBytes p.a) ∧
    AndroidGPU.vertexBufferDescArray = dynamic_vertexBufferDescArray ∧
    AndroidGPU.vertexAttribArray = dynamic_vertexAttribArray := by
  refine ⟨rfl, rfl, rfl, ⟨rfl, rfl, rfl, rfl, rfl, rfl, rfl, rfl⟩, by decide, ?_, ?_, rfl, rfl⟩
  · intro byte hb
    simp only [dynamic_vertexAttribArray, List.filter_cons, VertexAttribute.covers,
      VertexElementFormat.size, List.filter_nil]
    have h1 : ¬ byte < 0 + 4 * 2 := by omega
    have h2 : ¬ byte < 4 * 2 + 4 * 2 := by omega
    have h3 : ¬ byte < 4 * 4 + 4 * 4 := by omega
    simp [h1, h2, h3]
  · intro L p hL
    have hx := hL p.x
    have hy := hL p.y
    have hu := hL p.u
    have hv := hL p.v
    have hr := hL p.r
    have hg := hL p.g
    have hb := hL p.b
    have ha := hL p.a
    refine ⟨by simp [Layout.vertexBytes, hL], ?_, ?_, ?_⟩
    · simp only [Layout.vertexBytes, List.drop_zero, List.append_assoc]
      rw [← List.append_assoc, List.take_left' (by simp [hx, hy])]
    · simp only [Layout.vertexBytes, List.append_assoc]
      rw [← List.append_assoc, List.drop_left' (by simp [hx, hy]), ← List.append_assoc,
        List.take_left' (by simp [hu, hv])]
    · simp only [Layout.vertexBytes, List.append_assoc]
      rw [← List.append_assoc, ← List.append_assoc, ← List.append_assoc,
        List.drop_left' (by simp [hx, hy, hu, hv])]
      exact List.take_of_length_le (by simp [hr, hg, hb, ha])

/-- A tick leaves the fixed part of the context as it was. -/
theorem tick_fixed (L : Layout) (st : LoopState) (dev : Device) (inp : TickInput) :
    (tick L st dev inp).st.context.fixed = st.context.fixed := by
  cases hq : (pollEvents st inp.events).quit <;> cases hm : (pollEvents st inp.events).minimized <;>
    cases ha : inp.acquired <;> by_cases hc : inp.cmdbuf = 0 <;>
    by_cases hs : inp.swapchainTexture = 0 <;>
    simp [tick, hq, hm, hc, ha, hs, Context.fixed, pollEvents_context, update_buffers_snd]

/-- A run leaves the fixed part of the context as it was. -/
theorem afterTicks_fixed (L : Layout) (inputs : List TickInput) :
    ∀ (st : LoopState) (dev : Device),
      (afterTicks L st dev inputs).st.context.fixed = st.context.fixed := by
  induction inputs with
  | nil => intro st dev; rfl
  | cons inp rest ih =>
    intro st dev
    rw [afterTicks]
    split_ifs
    · rw [ih, tick_fixed]
    · exact tick_fixed L st dev inp

theorem main_matrix_of_fixed (c c' : Context) (h : c.fixed = c'.fixed) :
    main_matrix c = main_matrix c' := by
  simp only [Context.fixed, List.cons.injEq] at h
  simp only [main_matrix, h.2.1, h.2.2.1]

/-- C28, over exact rationals: the 16 values of the pass-1 projection uniform, read
as a row-major 4 x 4 matrix and applied to (x, y, 0, 1), give
(2x/W - 1, 1 - 2y/H, 0, 1) for the window size W x H of the context; when W and H
are not zero, (0,0) goes to (-1, 1) and (W, H) to (1, -1); in `main` W = 800 and
H = 600, which are also the dimensions the offscreen target is created with; and
the matrix is the same after every tick and every run of ticks. -/
theorem main_matrix_projects (context : Context) (x y : ℚ) :
    (main_matrix context).length = 16 ∧
    matVec (main_matrix context) [x, y, 0, 1] =
      [ 2 * x / context.winWidth - 1, 1 - 2 * y / context.winHeight, 0, 1 ] ∧
    (context.winWidth ≠ 0 → context.winHeight ≠ 0 →
      matVec (main_matrix context) [0, 0, 0, 1] = [-1, 1, 0, 1] ∧
      matVec (main_matrix context) [context.winWidth, context.winHeight, 0, 1] =
        [1, -1, 0, 1]) ∧
    (mainState.context.winWidth = 800 ∧ mainState.context.winHeight = 600 ∧
      matVec (main_matrix mainState.context) [0, 0, 0, 1] = [-1, 1, 0, 1] ∧
      matVec (main_matrix mainState.context) [800, 600, 0, 1] = [1, -1, 0, 1]) ∧
    (∀ (window : Nat) (h : StartupHandles),
      (main_startup window h).1.winWidth = 800 ∧ (main_startup window h).1.winHeight = 600 ∧
      Resource.texture h.texturePostProcess 800 600 ∈ (main_startup window h).2) ∧
    (∀ (L : Layout) (st : LoopState) (dev : Device) (inp : TickInput),
      main_matrix (tick L st dev inp).st.context = main_matrix st.context) ∧
    (∀ (L : Layout) (st : LoopState) (dev : Device) (inputs : List TickInput),
      main_matrix (afterTicks L st dev inputs).st.context = main_matrix st.context) := by
  have hgen : ∀ (c : Context) (a b : ℚ), matVec (main_matrix c) [a, b, 0, 1] =
      [ 2 * a / c.winWidth - 1, 1 - 2 * b / c.winHeight, 0, 1 ] := by
    intro c a b
    simp [matVec, main_matrix, List.range_succ]
    constructor <;> ring
  refine ⟨rfl, hgen context x y, ?_, ⟨rfl, rfl, ?_, ?_⟩,
    fun window h => ⟨rfl, rfl, by simp [main_startup]⟩, ?_, ?_⟩
  · intro hW hH
    have hW' : (context.winWidth : ℚ) ≠ 0 := by exact_mod_cast hW
    have hH' : (context.winHeight : ℚ) ≠ 0 := by exact_mod_cast hH
    rw [hgen, hgen]
    constructor
    · norm_num
    · rw [mul_div_assoc, div_self hW', mul_div_assoc, div_self hH']
      norm_num
  · rw [hgen]
    norm_num
  · rw [hgen]
    show [2 * (800 : ℚ) / ((800 : Nat) : ℚ) - 1, 1 - 2 * (600 : ℚ) / ((600 : Nat) : ℚ), 0, 1] =
      [1, -1, 0, 1]
    norm_num
  · intro L st dev inp
    exact main_matrix_of_fixed _ _ (tick_fixed L st dev inp)
  · intro L st dev inputs
    exact main_matrix_of_fixed _ _ (afterTicks_fixed L inputs st dev)

/-! ## Startup and shutdown: theorems -/

theorem mainState_eq : mainState = main_loopEntry 4 mainHandles := rfl

theorem main_shutdown_of_fixed (c c' : Context) (h : c.fixed = c'.fixed) :
    main_shutdown c = main_shutdown c' := by
  simp only [Context.fixed, List.cons.injEq] at h
  obtain ⟨h1, -, -, h4, h5, h6, h7, h8, h9, h10, h11, h12, -⟩ := h
  simp only [main_shutdown, release_buffers, h1, h4, h5, h6, h7, h8, h9, h10, h11, h12]

/-- C22: after any run of the frame loop from its entry state, the shutdown code
releases the sampler, the offscreen target, the 2x2 texture, the GPU vertex buffer,
the GPU index buffer, the geometry staging buffer, the texture staging buffer, the
dynamic pipeline and the post-process pipeline, then releases the window from the
device, destroys the window and destroys the device, in this order. When the
creation calls returned distinct handles for objects of the same kind, every
device object created at startup is released exactly once, and nothing else is
released. -/
theorem main_shutdown_order (L : Layout) (window : Nat) (h : StartupHandles) (dev : Device)
    (inputs : List TickInput)
    (htex : h.texture ≠ h.texturePostProcess) (hbuf : h.vertex ≠ h.index)
    (htr : h.transfer ≠ h.transferBufferTexture)
    (hpipe : h.pipelineDynamic ≠ h.pipelinePostProcess) :
    main_shutdown (afterTicks L (main_loopEntry window h) dev inputs).st.context =
      [ TeardownCall.ReleaseGPUSampler h.samplerPoint,
        TeardownCall.ReleaseGPUTexture h.texturePostProcess,
        TeardownCall.ReleaseGPUTexture h.texture,
        TeardownCall.ReleaseGPUBuffer h.vertex,
        TeardownCall.ReleaseGPUBuffer h.index,
        TeardownCall.ReleaseGPUTransferBuffer h.transfer,
        TeardownCall.ReleaseGPUTransferBuffer h.transferBufferTexture,
        TeardownCall.ReleaseGPUGraphicsPipeline h.pipelineDynamic,
        TeardownCall.ReleaseGPUGraphicsPipeline h.pipelinePostProcess,
        TeardownCall.ReleaseWindowFromGPUDevice window,
        TeardownCall.DestroyWindow window,
        TeardownCall.DestroyGPUDevice ] ∧
    (∀ r ∈ (main_startup window h).2,
      (main_shutdown (afterTicks L (main_loopEntry window h) dev inputs).st.context).count
        r.release = 1) ∧
    (∀ c ∈ main_shutdown (afterTicks L (main_loopEntry window h) dev inputs).st.context,
      c.isRelease = true → ∃ r ∈ (main_startup window h).2, c = r.release) := by
  have hfix := afterTicks_fixed L inputs (main_loopEntry window h) dev
  have hshut := main_shutdown_of_fixed _ _ hfix
  have hexp : main_shutdown (main_loopEntry window h).context =
      [ TeardownCall.ReleaseGPUSampler h.samplerPoint,
        TeardownCall.ReleaseGPUTexture h.texturePostProcess,
        TeardownCall.ReleaseGPUTexture h.texture,
        TeardownCall.ReleaseGPUBuffer h.vertex,
        TeardownCall.ReleaseGPUBuffer h.index,
        TeardownCall.ReleaseGPUTransferBuffer h.transfer,
        TeardownCall.ReleaseGPUTransferBuffer h.transferBufferTexture,
        TeardownCall.ReleaseGPUGraphicsPipeline h.pipelineDynamic,
        TeardownCall.ReleaseGPUGraphicsPipeline h.pipelinePostProcess,
        TeardownCall.ReleaseWindowFromGPUDevice window,
        TeardownCall.DestroyWindow window,
        TeardownCall.DestroyGPUDevice ] := rfl
  rw [hshut, hexp]
  have htex' : ¬ h.texturePostProcess = h.texture := fun e => htex e.symm
  have hbuf' : ¬ h.index = h.vertex := fun e => hbuf e.symm
  have htr' : ¬ h.transferBufferTexture = h.transfer := fun e => htr e.symm
  have hpipe' : ¬ h.pipelinePostProcess = h.pipelineDynamic := fun e => hpipe e.symm
  refine ⟨rfl, ?_, ?_⟩
  · intro r hr
    simp only [main_startup, List.mem_cons, List.mem_singleton, List.mem_nil_iff,
      or_false] at hr
    rcases hr with e | e | e | e | e | e | e | e | e <;> subst e <;>
      simp [Resource.release, List.count_cons, htex, hbuf, htr, hpipe, htex', hbuf', htr',
        hpipe']
  · intro c hc hrel
    simp only [List.mem_cons, List.mem_singleton, List.mem_nil_iff, or_false] at hc
    rcases hc with e | e | e | e | e | e | e | e | e | e | e | e <;> subst e <;>
      first
      | (simp [TeardownCall.isRelease] at hrel; done)
      | simp [main_startup, Resource.release]

/-- Witness of C22: the handles of `mainState`, after one rendered tick. -/
theorem main_shutdown_order_witness :
    mainHandles.texture ≠ mainHandles.texturePostProcess ∧
    mainHandles.vertex ≠ mainHandles.index ∧
    mainHandles.transfer ≠ mainHandles.transferBufferTexture ∧
    mainHandles.pipelineDynamic ≠ mainHandles.pipelinePostProcess ∧
    main_shutdown
        (afterTicks demoLayout (main_loopEntry 4 mainHandles) mainDevice
          [renderedInput]).st.context =
      [ TeardownCall.ReleaseGPUSampler 5, TeardownCall.ReleaseGPUTexture 10,
        TeardownCall.ReleaseGPUTexture 6, TeardownCall.ReleaseGPUBuffer 1,
        TeardownCall.ReleaseGPUBuffer 2, TeardownCall.ReleaseGPUTransferBuffer 3,
        TeardownCall.ReleaseGPUTransferBuffer 7, TeardownCall.ReleaseGPUGraphicsPipeline 8,
        TeardownCall.ReleaseGPUGraphicsPipeline 9, TeardownCall.ReleaseWindowFromGPUDevice 4,
        TeardownCall.DestroyWindow 4, TeardownCall.DestroyGPUDevice ] :=
  ⟨by decide, by decide, by decide, by decide,
    (main_shutdown_order demoLayout 4 mainHandles mainDevice [renderedInput]
      (by decide) (by decide) (by decide) (by decide)).1⟩

/-- What `create_pipeline` logs: the error message exactly when
`context.pipelineDynamic` is null, whatever the creation returned. -/
theorem create_pipeline_log (context : Context) (shaderVertex shaderFragment : Nat)
    (vertexBufferDescArray : List VertexBufferDescription) (vertexBufferDescCount : Nat)
    (vertexAttribArray : List VertexAttribute) (vertexAttribCount : Nat)
    (format : Nat) (error : String) (result : Nat) :
    (create_pipeline context shaderVertex shaderFragment vertexBufferDescArray
      vertexBufferDescCount vertexAttribArray vertexAttribCount format error
      result).1.filter SetupCall.isLog =
      if context.pipelineDynamic = 0 then [SetupCall.Log error] else [] := by
  by_cases hd : context.pipelineDynamic = 0 <;> by_cases hr : result = 0 <;>
    simp [create_pipeline, hd, hr, List.filter_cons, SetupCall.isLog]

/-- C26 on the code: `create_pipeline` tests `context->pipelineDynamic`, not the
handle it has just created. It logs the error message exactly when
`context.pipelineDynamic` is null, whatever the creation returned. So the dynamic
pipeline, created while that field is null, logs also when its creation succeeds,
and the post-process pipeline, created once the field is set, logs nothing also
when its creation returns null and the process aborts. -/
theorem create_pipeline_logs_on_field :
    (∀ (context : Context) (shaderVertex shaderFragment : Nat)
        (vertexBufferDescArray : List VertexBufferDescription) (vertexBufferDescCount : Nat)
        (vertexAttribArray : List VertexAttribute) (vertexAttribCount : Nat)
        (format : Nat) (error : String) (result : Nat),
      (create_pipeline context shaderVertex shaderFragment vertexBufferDescArray
        vertexBufferDescCount vertexAttribArray vertexAttribCount format error
        result).1.filter SetupCall.isLog =
        if context.pipelineDynamic = 0 then [SetupCall.Log error] else []) ∧
    (∀ (window : Nat) (format : Nat) (error : String) (result : Nat), result ≠ 0 →
      (create_pipeline_dynamic demoFiles demoCreate "" (main_contextAtPipelines window)
        format error result).2 =
        some { main_contextAtPipelines window with pipelineDynamic := result } ∧
      (create_pipeline_dynamic demoFiles demoCreate "" (main_contextAtPipelines window)
        format error result).1.filter SetupCall.isLog = [SetupCall.Log error]) ∧
    (∀ (window : Nat) (format : Nat) (error : String) (pipelineDynamic : Nat),
      pipelineDynamic ≠ 0 →
      (create_pipeline_postprocess demoFiles demoCreate ""
        { main_contextAtPipelines window with pipelineDynamic := pipelineDynamic }
        format error 0).2 = none ∧
      (create_pipeline_postprocess demoFiles demoCreate ""
        { main_contextAtPipelines window with pipelineDynamic := pipelineDynamic }
        format error 0).1.filter SetupCall.isLog = []) ∧
    (create_pipeline_dynamic demoFiles demoCreate "" (main_contextAtPipelines 4) 0
        "no error" 8).1.drop 6 =
      [ SetupCall.GetGPUSwapchainTextureFormat 4,
        SetupCall.CreateGPUGraphicsPipeline
          { vertex_shader := 11, fragment_shader := 12,
            vertex_buffer_descriptions := dynamic_vertexBufferDescArray,
            num_vertex_buffers := 1,
            vertex_attributes := dynamic_vertexAttribArray,
            num_vertex_attributes := 3,
            primitive_type := .TRIANGLELIST, fill_mode := .FILL,
            color_target_formats := [0], num_color_targets := 1 },
        SetupCall.GetError, SetupCall.Log "no error",
        SetupCall.ReleaseGPUShader 11, SetupCall.ReleaseGPUShader 12 ] := by
  refine ⟨create_pipeline_log, ?_, ?_, ?_⟩
  · intro window format error result hr
    have h1 : shader_load demoFiles demoCreate "" "shaders/vert.spv" .VERTEX 0 1 =
      ([SetupCall.LoadFile (fullPath "" "shaders/vert.spv"),
        SetupCall.CreateGPUShader
          { code_size := 4, code := some [3, 2, 35, 7], entrypoint := "main", format := .SPIRV,
            stage := .VERTEX, num_samplers := 0, num_storage_textures := 0,
            num_storage_buffers := 0, num_uniform_buffers := 1 },
        SetupCall.free], some 11) := rfl
    have h2 : shader_load demoFiles demoCreate "" "shaders/frag.spv" .FRAGMENT 1 0 =
      ([SetupCall.LoadFile (fullPath "" "shaders/frag.spv"),
        SetupCall.CreateGPUShader
          { code_size := 4, code := some [3, 2, 35, 7], entrypoint := "main", format := .SPIRV,
            stage := .FRAGMENT, num_samplers := 1, num_storage_textures := 0,
            num_storage_buffers := 0, num_uniform_buffers := 0 },
        SetupCall.free], some 12) := rfl
    simp [create_pipeline_dynamic, h1, h2, create_pipeline, hr, main_contextAtPipelines,
      List.filter_cons, SetupCall.isLog]
  · intro window format error pipelineDynamic hp
    have h1 : shader_load demoFiles demoCreate "" "shaders/ppvert.spv" .VERTEX 0 0 =
      ([SetupCall.LoadFile (fullPath "" "shaders/ppvert.spv"),
        SetupCall.CreateGPUShader
          { code_size := 4, code := some [3, 2, 35, 7], entrypoint := "main", format := .SPIRV,
            stage := .VERTEX, num_samplers := 0, num_storage_textures := 0,
            num_storage_buffers := 0, num_uniform_buffers := 0 },
        SetupCall.free], some 11) := rfl
    have h2 : shader_load demoFiles demoCreate "" "shaders/ppfrag.spv" .FRAGMENT 1 1 =
      ([SetupCall.LoadFile (fullPath "" "shaders/ppfrag.spv"),
        SetupCall.CreateGPUShader
          { code_size := 4, code := some [3, 2, 35, 7], entrypoint := "main", format := .SPIRV,
            stage := .FRAGMENT, num_samplers := 1, num_storage_textures := 0,
            num_storage_buffers := 0, num_uniform_buffers := 1 },
        SetupCall.free], some 12) := rfl
    simp [create_pipeline_postprocess, h1, h2, create_pipeline, hp, main_contextAtPipelines,
      List.filter_cons, SetupCall.isLog]
  · rfl

/-! ## Clock readings: lemmas and theorems -/

theorem afterTicks_cons_running (L : Layout) (st : LoopState) (dev : Device)
    (inp : TickInput) (rest : List TickInput) (h : (tick L st dev inp).status = .running) :
    afterTicks L st dev (inp :: rest) =
      afterTicks L (tick L st dev inp).st (tick L st dev inp).dev rest := by
  rw [afterTicks, if_pos h]

/-- A tick keeps `context.time` equal to `lastTime`. -/
theorem tick_time_eq_lastTime (L : Layout) (st : LoopState) (dev : Device) (inp : TickInput)
    (h : st.context.time = st.lastTime) :
    (tick L st dev inp).st.context.time = (tick L st dev inp).st.lastTime := by
  by_cases hidle : (pollEvents st inp.events).quit = true ∨
      (pollEvents st inp.events).minimized = true
  · obtain ⟨ht, hl⟩ := tick_time_of_idle L st dev inp hidle
    rw [ht, hl, h]
  · have hq : (pollEvents st inp.events).quit = false := by
      cases hv : (pollEvents st inp.events).quit
      · rfl
      · exact absurd (Or.inl hv) hidle
    have hm : (pollEvents st inp.events).minimized = false := by
      cases hv : (pollEvents st inp.events).minimized
      · rfl
      · exact absurd (Or.inr hv) hidle
    obtain ⟨ht, -, hl⟩ := tick_time_of_active L st dev inp hq hm
    rw [ht, hl, h]
    ring

/-- A run keeps `context.time` equal to `lastTime`. -/
theorem afterTicks_time_eq_lastTime (L : Layout) (inputs : List TickInput) :
    ∀ (st : LoopState) (dev : Device), st.context.time = st.lastTime →
      (afterTicks L st dev inputs).st.context.time = (afterTicks L st dev inputs).st.lastTime := by
  induction inputs with
  | nil => intro st dev h; exact h
  | cons inp rest ih =>
    intro st dev h
    rw [afterTicks]
    split_ifs
    · exact ih _ _ (tick_time_eq_lastTime L st dev inp h)
    · exact tick_time_eq_lastTime L st dev inp h

/-- A run of sleeping ticks keeps the loop running and leaves the clock variables
as they were. -/
theorem afterTicks_sleeping (L : Layout) (mid : List TickInput) :
    ∀ (st : LoopState) (dev : Device), sleeping st mid = true →
      (afterTicks L st dev mid).status = .running ∧
      (afterTicks L st dev mid).st.lastTime = st.lastTime ∧
      (afterTicks L st dev mid).st.context.time = st.context.time := by
  induction mid with
  | nil => intro st dev _; exact ⟨rfl, rfl, rfl⟩
  | cons inp rest ih =>
    intro st dev h
    simp only [sleeping, Bool.and_eq_true, Bool.not_eq_true'] at h
    obtain ⟨⟨hq, hm⟩, hrest⟩ := h
    have ht := tick_of_minimized L st dev inp hq hm
    have hrun : (tick L st dev inp).status = .running := by rw [ht]
    rw [afterTicks_cons_running L st dev inp rest hrun]
    have hst : (tick L st dev inp).st = pollEvents st inp.events := by rw [ht]
    rw [hst]
    obtain ⟨h1, h2, h3⟩ := ih (pollEvents st inp.events) (tick L st dev inp).dev hrest
    exact ⟨h1, by rw [h2, pollEvents_lastTime], by rw [h3, pollEvents_context]⟩

/-- Counterexample to C25: in `main`, a frame rendered at clock reading 1000, a
tick at 1016 that gets no image (the window is being minimized) and sets the
flag, a sleeping tick at 2000, and a frame rendered at 5000 after a window-restored
event. The frame at 1000 is the last one rendered before the minimized period, the
time elapsed since it is 4 seconds, and the delta time of the frame at 5000 is
3.984 seconds: the time since the tick at 1016. -/
theorem delta_after_no_image :
    Rendered mainState renderedInput ∧
    ¬ Rendered (afterTicks demoLayout mainState mainDevice [renderedInput]).st noImageInput2 ∧
    sleeping (afterTicks demoLayout mainState mainDevice [renderedInput, noImageInput2]).st
      [sleepInput] = true ∧
    Rendered
      (afterTicks demoLayout mainState mainDevice
        [renderedInput, noImageInput2, sleepInput]).st restoredRenderInput ∧
    (tick demoLayout
      (afterTicks demoLayout mainState mainDevice
        [renderedInput, noImageInput2, sleepInput]).st
      (afterTicks demoLayout mainState mainDevice
        [renderedInput, noImageInput2, sleepInput]).dev
      restoredRenderInput).st.context.deltaTime = 3984 / 1000 ∧
    ((restoredRenderInput.ticks : ℚ) / 1000 - (renderedInput.ticks : ℚ) / 1000 = 4 ∧
      (3984 / 1000 : ℚ) ≠ 4) := by
  refine ⟨by decide, by decide, by decide, by decide, ?_, ?_⟩
  · have e1 := afterTicks_cons_running demoLayout mainState mainDevice renderedInput
      [noImageInput2, sleepInput] (by decide)
    have e2 := afterTicks_cons_running demoLayout
      (tick demoLayout mainState mainDevice renderedInput).st
      (tick demoLayout mainState mainDevice renderedInput).dev noImageInput2 [sleepInput]
      (by decide)
    have hs := afterTicks_sleeping demoLayout [sleepInput]
      (tick demoLayout (tick demoLayout mainState mainDevice renderedInput).st
        (tick demoLayout mainState mainDevice renderedInput).dev noImageInput2).st
      (tick demoLayout (tick demoLayout mainState mainDevice renderedInput).st
        (tick demoLayout mainState mainDevice renderedInput).dev noImageInput2).dev
      (by decide)
    have hl := (tick_time_of_active demoLayout
      (tick demoLayout mainState mainDevice renderedInput).st
      (tick demoLayout mainState mainDevice renderedInput).dev noImageInput2
      (by decide) (by decide)).2.2
    rw [e1, e2]
    rw [(tick_time_of_active demoLayout _ _ restoredRenderInput (by
        rw [← e2, ← e1]; decide) (by rw [← e2, ← e1]; decide)).2.1, hs.2.1, hl]
    show ((5000 : Nat) : ℚ) / 1000 - ((1016 : Nat) : ℚ) / 1000 = 3984 / 1000
    norm_num
  · constructor
    · show ((5000 : Nat) : ℚ) / 1000 - ((1000 : Nat) : ℚ) / 1000 = 4
      norm_num
    · norm_num

/-- C25, amended, over exact rationals. From a state with `context.time` equal to
`lastTime` (both are 0 when the loop is entered), after every run of ticks a
rendered frame leaves `context.time` equal to the clock reading sampled in that
frame, and pushes it in pass 2. The delta time of the first frame rendered after a
run of sleeping ticks is the whole time elapsed since the last tick that sampled
the clock, that is the last tick neither quit nor minimized after its drain: the
last rendered frame, or a later tick that got no image; the time slept is part of
it. -/
theorem time_is_clock_reading (L : Layout) :
    (∀ (st : LoopState) (dev : Device) (inputs : List TickInput) (b : TickInput),
      st.context.time = st.lastTime → Rendered (afterTicks L st dev inputs).st b →
      (tick L (afterTicks L st dev inputs).st (afterTicks L st dev inputs).dev
        b).st.context.time = (b.ticks : ℚ) / 1000 ∧
      pass2Time L (afterTicks L st dev inputs).st (afterTicks L st dev inputs).dev b =
        some ((b.ticks : ℚ) / 1000)) ∧
    (∀ (window : Nat) (h : StartupHandles),
      (main_loopEntry window h).context.time = 0 ∧ (main_loopEntry window h).lastTime = 0) ∧
    (∀ (st : LoopState) (dev : Device) (a : TickInput) (mid : List TickInput) (b : TickInput),
      (pollEvents st a.events).quit = false → (pollEvents st a.events).minimized = false →
      sleeping (tick L st dev a).st mid = true →
      Rendered (afterTicks L (tick L st dev a).st (tick L st dev a).dev mid).st b →
      (tick L (afterTicks L (tick L st dev a).st (tick L st dev a).dev mid).st
        (afterTicks L (tick L st dev a).st (tick L st dev a).dev mid).dev
        b).st.context.deltaTime = (b.ticks : ℚ) / 1000 - (a.ticks : ℚ) / 1000 ∧
      (tick L (afterTicks L (tick L st dev a).st (tick L st dev a).dev mid).st
        (afterTicks L (tick L st dev a).st (tick L st dev a).dev mid).dev
        b).st.context.time =
        (tick L st dev a).st.context.time +
          ((b.ticks : ℚ) / 1000 - (a.ticks : ℚ) / 1000)) := by
  refine ⟨?_, fun window h => ⟨rfl, rfl⟩, ?_⟩
  · intro st dev inputs b hinv hb
    have hinv' := afterTicks_time_eq_lastTime L inputs st dev hinv
    have ht := (tick_time_of_active L _ (afterTicks L st dev inputs).dev b hb.1 hb.2.1).1
    have htime : (tick L (afterTicks L st dev inputs).st (afterTicks L st dev inputs).dev
        b).st.context.time = (b.ticks : ℚ) / 1000 := by
      rw [ht, hinv']
      ring
    exact ⟨htime, by rw [pass2Time_eq, if_pos hb, htime]⟩
  · intro st dev a mid b hq hm hsleep hb
    obtain ⟨-, -, hla⟩ := tick_time_of_active L st dev a hq hm
    obtain ⟨-, hl, ht⟩ := afterTicks_sleeping L mid (tick L st dev a).st (tick L st dev a).dev
      hsleep
    obtain ⟨htb, hdb, -⟩ := tick_time_of_active L _
      (afterTicks L (tick L st dev a).st (tick L st dev a).dev mid).dev b hb.1 hb.2.1
    rw [htb, hdb, hl, ht, hla]
    exact ⟨rfl, rfl⟩

/-- Witness of C25, amended: in `main`, a frame rendered at clock reading 1000, a
tick at 1500 that drains a window-minimized event and sleeps, and a frame rendered
at 5000 after a window-restored event. -/
theorem time_is_clock_reading_witness :
    (tick demoLayout
        (afterTicks demoLayout mainState mainDevice [renderedInput, minimizeInput]).st
        (afterTicks demoLayout mainState mainDevice [renderedInput, minimizeInput]).dev
        restoredRenderInput).st.context.time = (restoredRenderInput.ticks : ℚ) / 1000 ∧
    (tick demoLayout
        (afterTicks demoLayout (tick demoLayout mainState mainDevice renderedInput).st
          (tick demoLayout mainState mainDevice renderedInput).dev [minimizeInput]).st
        (afterTicks demoLayout (tick demoLayout mainState mainDevice renderedInput).st
          (tick demoLayout mainState mainDevice renderedInput).dev [minimizeInput]).dev
        restoredRenderInput).st.context.deltaTime =
      (restoredRenderInput.ticks : ℚ) / 1000 - (renderedInput.ticks : ℚ) / 1000 :=
  ⟨((time_is_clock_reading demoLayout).1 mainState mainDevice [renderedInput, minimizeInput]
      restoredRenderInput rfl (by decide)).1,
   ((time_is_clock_reading demoLayout).2.2 mainState mainDevice renderedInput [minimizeInput]
      restoredRenderInput (by decide) (by decide) (by decide) (by decide)).1⟩


/-! ## Quit within a tick, and the touch anchor of AndroidGPU -/

theorem pollEvents_quit_sticky (st : LoopState) (events : List Event) (h : st.quit = true) :
    (pollEvents st events).quit = true := by
  induction events generalizing st with
  | nil => exact h
  | cons e es ih =>
    show (pollEvents (handleEvent st e) es).quit = true
    apply ih
    cases e <;> simp only [handleEvent] <;> (try split_ifs) <;> first | rfl | exact h

theorem pollEvents_quit_of_mem (st : LoopState) (events : List Event)
    (h : Event.QUIT ∈ events) : (pollEvents st events).quit = true := by
  induction events generalizing st with
  | nil => simp at h
  | cons e es ih =>
    show (pollEvents (handleEvent st e) es).quit = true
    rcases List.mem_cons.1 h with he | he
    · subst he
      exact pollEvents_quit_sticky _ _ rfl
    · exact ih _ he

theorem minimal_quit_sticky (st : MinimalGPU.LoopState) (events : List MinimalGPU.Event)
    (h : st.quit = true) : (MinimalGPU.pollEvents st events).quit = true := by
  induction events generalizing st with
  | nil => exact h
  | cons e es ih =>
    show (MinimalGPU.pollEvents (MinimalGPU.handleEvent st e) es).quit = true
    apply ih
    cases e <;> simp only [MinimalGPU.handleEvent] <;> first | rfl | exact h

theorem minimal_quit_of_mem (st : MinimalGPU.LoopState) (events : List MinimalGPU.Event)
    (h : MinimalGPU.Event.QUIT ∈ events) : (MinimalGPU.pollEvents st events).quit = true := by
  induction events generalizing st with
  | nil => simp at h
  | cons e es ih =>
    show (MinimalGPU.pollEvents (MinimalGPU.handleEvent st e) es).quit = true
    rcases List.mem_cons.1 h with he | he
    · subst he
      exact minimal_quit_sticky _ _ rfl
    · exact ih _ he

theorem android_quit_sticky (d : AndroidGPU.Drain) (events : List AndroidGPU.Event)
    (h : d.st.quit = true) : (events.foldl AndroidGPU.handleEvent d).st.quit = true := by
  induction events generalizing d with
  | nil => exact h
  | cons e es ih =>
    show (es.foldl AndroidGPU.handleEvent (AndroidGPU.handleEvent d e)).st.quit = true
    apply ih
    cases e <;> simp only [AndroidGPU.handleEvent] <;> first | rfl | exact h

theorem android_quit_of_mem (d : AndroidGPU.Drain) (events : List AndroidGPU.Event)
    (h : AndroidGPU.Event.QUIT ∈ events ∨ AndroidGPU.Event.TERMINATING ∈ events) :
    (events.foldl AndroidGPU.handleEvent d).st.quit = true := by
  induction events generalizing d with
  | nil => simp at h
  | cons e es ih =>
    show (es.foldl AndroidGPU.handleEvent (AndroidGPU.handleEvent d e)).st.quit = true
    by_cases he : e = AndroidGPU.Event.QUIT ∨ e = AndroidGPU.Event.TERMINATING
    · rcases he with he | he <;> subst he <;> exact android_quit_sticky _ _ rfl
    · apply ih
      rcases h with h | h
      · rcases List.mem_cons.1 h with h1 | h1
        · exact absurd (Or.inl h1.symm) he
        · exact Or.inl h1
      · rcases List.mem_cons.1 h with h1 | h1
        · exact absurd (Or.inr h1.symm) he
        · exact Or.inr h1

/-- C24: quit takes precedence within a tick, in each of the three frame loops. If
the events drained in a tick contain a quit event (in AndroidGPU: a quit or a
terminating event), whatever the state before the tick and the other events are,
the tick leaves the loop with the state the drain of all its events gives and makes
no call at all: no geometry upload, no command buffer, no render pass, no delay. In
AdvancedGPU the device is left as it was and the run stops at that tick. -/
theorem quit_takes_precedence :
    (∀ (L : Layout) (st : LoopState) (dev : Device) (inp : TickInput),
      Event.QUIT ∈ inp.events →
        tick L st dev inp = ⟨.exited, inp.events.foldl handleEvent st, dev⟩ ∧
        callsOfTick L st dev inp = [] ∧
        ∀ rest, afterTicks L st dev (inp :: rest) = tick L st dev inp) ∧
    (∀ (st : MinimalGPU.LoopState) (inp : MinimalGPU.TickInput),
      MinimalGPU.Event.QUIT ∈ inp.events →
        MinimalGPU.tick st inp =
          ⟨.exited, inp.events.foldl MinimalGPU.handleEvent st, []⟩) ∧
    (∀ (st : AndroidGPU.LoopState) (inp : AndroidGPU.TickInput),
      AndroidGPU.Event.QUIT ∈ inp.events ∨ AndroidGPU.Event.TERMINATING ∈ inp.events →
        AndroidGPU.tick st inp =
          ⟨.exited, (inp.events.foldl AndroidGPU.handleEvent ⟨st, none, none⟩).st, [], []⟩) := by
  refine ⟨?_, ?_, ?_⟩
  · intro L st dev inp h
    have ht := tick_of_quit L st dev inp (pollEvents_quit_of_mem st inp.events h)
    refine ⟨ht, ?_, ?_⟩
    · simp [callsOfTick, ht]
    · intro rest
      simp [afterTicks, ht]
  · intro st inp h
    have hq := minimal_quit_of_mem st inp.events h
    simp only [MinimalGPU.tick, hq, if_true]
    rfl
  · intro st inp h
    have hq := android_quit_of_mem ⟨st, none, none⟩ inp.events h
    simp only [AndroidGPU.tick, AndroidGPU.pollEvents, hq, if_true]

theorem quit_takes_precedence_witness :
    (tick demoLayout mainState mainDevice
        { renderedInput with
          events := [Event.WINDOW_RESTORED, Event.QUIT, Event.MOUSE_BUTTON_DOWN 1] }).status
      = Status.exited ∧
    (MinimalGPU.tick ⟨⟨1, 0, 2⟩, false, true, 0⟩
        ⟨[MinimalGPU.Event.QUIT, MinimalGPU.Event.WINDOW_RESTORED], 1000, 21, true, 11⟩).calls
      = [] ∧
    (AndroidGPU.tick AndroidGPU.demoState
        { AndroidGPU.touchInput with
          events := [AndroidGPU.Event.TERMINATING, AndroidGPU.Event.FINGER_DOWN 0 0] }).calls
      = [] :=
  ⟨by rw [(quit_takes_precedence.1 demoLayout mainState mainDevice _
      (by decide : Event.QUIT ∈ [Event.WINDOW_RESTORED, Event.QUIT,
        Event.MOUSE_BUTTON_DOWN 1])).1],
   by rw [quit_takes_precedence.2.1 ⟨⟨1, 0, 2⟩, false, true, 0⟩
      ⟨[MinimalGPU.Event.QUIT, MinimalGPU.Event.WINDOW_RESTORED], 1000, 21, true, 11⟩
      (by decide)],
   by rw [quit_takes_precedence.2.2 AndroidGPU.demoState _
      (Or.inr (by decide : AndroidGPU.Event.TERMINATING ∈
        [AndroidGPU.Event.TERMINATING, AndroidGPU.Event.FINGER_DOWN 0 0]))]⟩


theorem android_handleEvent_size (d : AndroidGPU.Drain) (e : AndroidGPU.Event) :
    (AndroidGPU.handleEvent d e).st.winWidth = d.st.winWidth ∧
    (AndroidGPU.handleEvent d e).st.winHeight = d.st.winHeight := by
  cases e <;> exact ⟨rfl, rfl⟩

theorem android_drain_size (d : AndroidGPU.Drain) (events : List AndroidGPU.Event) :
    (events.foldl AndroidGPU.handleEvent d).st.winWidth = d.st.winWidth ∧
    (events.foldl AndroidGPU.handleEvent d).st.winHeight = d.st.winHeight := by
  induction events generalizing d with
  | nil => exact ⟨rfl, rfl⟩
  | cons e es ih =>
    show (es.foldl AndroidGPU.handleEvent (AndroidGPU.handleEvent d e)).st.winWidth = _ ∧
      (es.foldl AndroidGPU.handleEvent (AndroidGPU.handleEvent d e)).st.winHeight = _
    rw [(ih _).1, (ih _).2]
    exact android_handleEvent_size d e

theorem android_lastTouch_append (es : List AndroidGPU.Event) (e : AndroidGPU.Event) :
    AndroidGPU.lastTouch (es ++ [e]) =
      match e with
      | .FINGER_DOWN x y => some (x, y)
      | .FINGER_MOTION x y => some (x, y)
      | _ => AndroidGPU.lastTouch es := by
  unfold AndroidGPU.lastTouch
  rw [List.filter_append]
  cases e <;> simp [List.filter_cons, AndroidGPU.Event.isTouch]

/-- The two floats after a drain: set from the last touch event of this drain, and
left as they were when it has none. -/
theorem android_drain_touch (d : AndroidGPU.Drain) (events : List AndroidGPU.Event) :
    ((events.foldl AndroidGPU.handleEvent d).lastTouchX,
      (events.foldl AndroidGPU.handleEvent d).lastTouchY) =
      match AndroidGPU.lastTouch events with
      | some (x, y) => (some (x * d.st.winWidth), some (y * d.st.winHeight))
      | none => (d.lastTouchX, d.lastTouchY) := by
  induction events using List.reverseRecOn with
  | nil => rfl
  | append_singleton es e ih =>
    rw [List.foldl_append, android_lastTouch_append]
    have hs := android_drain_size d es
    cases e <;>
      simp only [List.foldl_cons, List.foldl_nil, AndroidGPU.handleEvent, hs.1, hs.2] <;>
      exact ih

/-- A rendered tick of AndroidGPU: the quad it generates, and its calls. -/
theorem android_tick_of_rendered (st : AndroidGPU.LoopState) (inp : AndroidGPU.TickInput)
    (hr : AndroidGPU.Rendered st inp) :
    (AndroidGPU.tick st inp).vertices =
      AndroidGPU.main_vertices (AndroidGPU.pollEvents st inp.events).lastTouchX
        (AndroidGPU.pollEvents st inp.events).lastTouchY ∧
    (AndroidGPU.tick st inp).status = Status.running ∧
    (AndroidGPU.tick st inp).calls =
      AndroidGPU.update_buffers (AndroidGPU.pollEvents st inp.events).st.context 128 24
        inp.uploadCmdBuf ++
      [ Call.AcquireGPUCommandBuffer inp.cmdbuf,
        Call.WaitAndAcquireGPUSwapchainTexture inp.cmdbuf
          (AndroidGPU.pollEvents st inp.events).st.context.window,
        Call.BeginGPURenderPass inp.cmdbuf inp.swapchainTexture ⟨0, 0, 0, 1⟩ .CLEAR .STORE,
        Call.PushGPUVertexUniformData inp.cmdbuf 0
          (AndroidGPU.main_matrix (AndroidGPU.pollEvents st inp.events).st) 64,
        Call.BindGPUGraphicsPipeline (AndroidGPU.pollEvents st inp.events).st.context.pipeline,
        Call.BindGPUFragmentSamplers 0 (AndroidGPU.pollEvents st inp.events).st.context.texture
          (AndroidGPU.pollEvents st inp.events).st.context.sampler 1,
        Call.BindGPUVertexBuffers 0 (AndroidGPU.pollEvents st inp.events).st.context.vertexBuf 0 1,
        Call.BindGPUIndexBuffer (AndroidGPU.pollEvents st inp.events).st.context.indexBuf 0 32,
        Call.DrawGPUIndexedPrimitives 6 1 0 0 0,
        Call.EndGPURenderPass,
        Call.SubmitGPUCommandBuffer inp.cmdbuf ] := by
  obtain ⟨hq, hm, hc, ha, hs⟩ := hr
  simp [AndroidGPU.tick, hq, hm, hc, ha, hs, AndroidGPU.update_buffers,
    AndroidGPU.main_vertices, AndroidGPU.main_indices, AndroidGPU.main_matrix]

/-- C29: the touch anchor of the AndroidGPU frame loop. A rendered tick generates a
quad of side 100 from `lastTouchX` and `lastTouchY`, uploads its 128 vertex bytes
and 24 index bytes and draws it with index count 6, the indices being
[0,1,2,2,3,0]. When the tick drains a finger-down or finger-motion event, the
anchor is the position of the last of them scaled to (x * winWidth, y * winHeight).
When the tick drains no such event, the anchor holds no determinate value, whatever
touch events earlier ticks drained: the two floats are declared in the body of the
loop with no initializer. So it is in the first tick with no event, and in a tick
with no event that follows a tick with a touch at the middle of the display. -/
theorem touch_anchor_within_tick :
    (∀ (st : AndroidGPU.LoopState) (inp : AndroidGPU.TickInput),
      AndroidGPU.Rendered st inp →
        (AndroidGPU.tick st inp).status = Status.running ∧
        Call.UploadToGPUBuffer (AndroidGPU.pollEvents st inp.events).st.context.transBufVert 0
          (AndroidGPU.pollEvents st inp.events).st.context.vertexBuf 0 128 false
            ∈ (AndroidGPU.tick st inp).calls ∧
        Call.UploadToGPUBuffer (AndroidGPU.pollEvents st inp.events).st.context.transBufInd 0
          (AndroidGPU.pollEvents st inp.events).st.context.indexBuf 0 24 false
            ∈ (AndroidGPU.tick st inp).calls ∧
        Call.DrawGPUIndexedPrimitives 6 1 0 0 0 ∈ (AndroidGPU.tick st inp).calls) ∧
    AndroidGPU.main_indices = [0, 1, 2, 2, 3, 0] ∧
    (∀ a b : ℚ, AndroidGPU.main_vertices (some a) (some b) =
      [ ⟨some a, some b, 0, 0, 1, 1, 1, 1⟩,
        ⟨some (a + 100), some b, 1, 0, 1, 1, 1, 1⟩,
        ⟨some (a + 100), some (b + 100), 1, 1, 1, 1, 1, 1⟩,
        ⟨some a, some (b + 100), 0, 1, 1, 1, 1, 1⟩ ]) ∧
    (∀ (st : AndroidGPU.LoopState) (inp : AndroidGPU.TickInput) (x y : ℚ),
      AndroidGPU.Rendered st inp → AndroidGPU.lastTouch inp.events = some (x, y) →
        (AndroidGPU.tick st inp).vertices =
          AndroidGPU.main_vertices (some (x * st.winWidth)) (some (y * st.winHeight))) ∧
    (∀ (st : AndroidGPU.LoopState) (inp : AndroidGPU.TickInput),
      AndroidGPU.Rendered st inp → AndroidGPU.lastTouch inp.events = none →
        (AndroidGPU.tick st inp).vertices = AndroidGPU.main_vertices none none) ∧
    (AndroidGPU.Rendered AndroidGPU.demoState AndroidGPU.quietInput ∧
      (AndroidGPU.tick AndroidGPU.demoState AndroidGPU.quietInput).vertices =
        AndroidGPU.main_vertices none none) ∧
    (AndroidGPU.Rendered AndroidGPU.demoState AndroidGPU.touchInput ∧
      (AndroidGPU.tick AndroidGPU.demoState AndroidGPU.touchInput).vertices =
        AndroidGPU.main_vertices (some 540) (some 960) ∧
      AndroidGPU.Rendered (AndroidGPU.tick AndroidGPU.demoState AndroidGPU.touchInput).st
        AndroidGPU.quietInput ∧
      (AndroidGPU.tick (AndroidGPU.tick AndroidGPU.demoState AndroidGPU.touchInput).st
        AndroidGPU.quietInput).vertices = AndroidGPU.main_vertices none none) := by
  have hsome : ∀ (st : AndroidGPU.LoopState) (inp : AndroidGPU.TickInput) (x y : ℚ),
      AndroidGPU.Rendered st inp → AndroidGPU.lastTouch inp.events = some (x, y) →
        (AndroidGPU.tick st inp).vertices =
          AndroidGPU.main_vertices (some (x * st.winWidth)) (some (y * st.winHeight)) := by
    intro st inp x y hr ht
    have hd := android_drain_touch ⟨st, none, none⟩ inp.events
    rw [ht] at hd
    have hx : (inp.events.foldl AndroidGPU.handleEvent ⟨st, none, none⟩).lastTouchX =
        some (x * st.winWidth) := congrArg Prod.fst hd
    have hy : (inp.events.foldl AndroidGPU.handleEvent ⟨st, none, none⟩).lastTouchY =
        some (y * st.winHeight) := congrArg Prod.snd hd
    rw [(android_tick_of_rendered st inp hr).1]
    unfold AndroidGPU.pollEvents
    rw [hx, hy]
  have hnone : ∀ (st : AndroidGPU.LoopState) (inp : AndroidGPU.TickInput),
      AndroidGPU.Rendered st inp → AndroidGPU.lastTouch inp.events = none →
        (AndroidGPU.tick st inp).vertices = AndroidGPU.main_vertices none none := by
    intro st inp hr ht
    have hd := android_drain_touch ⟨st, none, none⟩ inp.events
    rw [ht] at hd
    have hx : (inp.events.foldl AndroidGPU.handleEvent ⟨st, none, none⟩).lastTouchX = none :=
      congrArg Prod.fst hd
    have hy : (inp.events.foldl AndroidGPU.handleEvent ⟨st, none, none⟩).lastTouchY = none :=
      congrArg Prod.snd hd
    rw [(android_tick_of_rendered st inp hr).1]
    unfold AndroidGPU.pollEvents
    rw [hx, hy]
  have hr1 : AndroidGPU.Rendered AndroidGPU.demoState AndroidGPU.quietInput := by decide
  have hr2 : AndroidGPU.Rendered AndroidGPU.demoState AndroidGPU.touchInput := by decide
  have hr3 : AndroidGPU.Rendered (AndroidGPU.tick AndroidGPU.demoState AndroidGPU.touchInput).st
      AndroidGPU.quietInput := by decide
  refine ⟨?_, rfl, fun a b => rfl, hsome, hnone, ⟨hr1, hnone _ _ hr1 rfl⟩,
    ⟨hr2, ?_, hr3, hnone _ _ hr3 rfl⟩⟩
  · intro st inp hr
    obtain ⟨_, h2, h3⟩ := android_tick_of_rendered st inp hr
    refine ⟨h2, ?_, ?_, ?_⟩ <;> rw [h3] <;> simp [AndroidGPU.update_buffers]
  · rw [hsome _ _ (1 / 2) (1 / 2) hr2 rfl]
    show AndroidGPU.main_vertices (some (1 / 2 * ((1080 : Int) : ℚ)))
      (some (1 / 2 * ((1920 : Int) : ℚ))) = _
    norm_num

end AdvancedGPU
